import Mathlib

/-!
Verification of the ticketutil library: a shallow embedding of the
ticket-lifecycle base class (`ticketutil/ticket.py`) and its five backend
adapters (`jira.py`, `bugzilla.py`, `rt.py`, `redmine.py`, `servicenow.py`).

Python values that flow through the adapters (JSON response bodies, ticket
identifiers, field maps) are embedded as a `Json` inductive; Python `None`
is `Json.null`.  The injected HTTP session collaborator is embedded as a
script of outcomes (`List HttpOutcome`) consumed one call at a time; each
operation returns the list of HTTP requests it attempted together with
either an uncaught Python exception or the `Result` named tuple and the
updated handle state.
-/

namespace TicketUtil

/-- Python exceptions that the embedded code can raise to the caller. -/
inductive PyExc where
  | nameError       -- UnboundLocalError / NameError
  | valueError      -- e.g. json decode failure in r.json()
  | attributeError  -- e.g. None.groups()
  | keyError (k : String)
  | typeError
  | indexError
deriving Repr, DecidableEq

/-- Embedded Python/JSON values. `null` doubles as Python `None`. -/
inductive Json where
  | null
  | bool (b : Bool)
  | num (n : Int)
  | str (s : String)
  | arr (xs : List Json)
  | obj (kvs : List (String × Json))

namespace Json

/-- Python truthiness of an embedded value (`if x:`). -/
def truthy : Json → Bool
  | .null => false
  | .bool b => b
  | .num n => n != 0
  | .str s => s ≠ ""
  | .arr xs => !xs.isEmpty
  | .obj kvs => !kvs.isEmpty

/-- Python `x is None`. -/
def isNull : Json → Bool
  | .null => true
  | _ => false

/-- Assoc lookup in an object (Python dict access; keys are unique). -/
def lookup (kvs : List (String × Json)) (k : String) : Option Json :=
  match kvs with
  | [] => none
  | (k', v) :: rest => if k' = k then some v else lookup rest k

/-- Python `d.get(k)`: `None` when missing, `TypeError`-free only on dicts. -/
def getOpt : Json → String → Option Json
  | .obj kvs, k => lookup kvs k
  | _, _ => none

/-- Python `d[k]` on a dict: `KeyError` when missing, `TypeError` on non-dicts. -/
def dictGet : Json → String → Except PyExc Json
  | .obj kvs, k =>
      match lookup kvs k with
      | some v => Except.ok v
      | none => Except.error (PyExc.keyError k)
  | _, _ => Except.error PyExc.typeError

/-- Python `k in d` for a dict (also covers substring test on a string via
`strIn` below; the adapters only apply it to decoded JSON dicts). -/
def hasKey : Json → String → Bool
  | .obj kvs, k => (lookup kvs k).isSome
  | _, _ => false

mutual

/-- Python `repr` of an embedded value, used by `str()` on containers. -/
def pyRepr : Json → String
  | .null => "None"
  | .bool b => if b then "True" else "False"
  | .num n => toString n
  | .str s => "\x27" ++ s ++ "\x27"
  | .arr xs => "[" ++ pyReprList xs ++ "]"
  | .obj kvs => "\x7b" ++ pyReprObj kvs ++ "\x7d"

def pyReprList : List Json → String
  | [] => ""
  | [x] => pyRepr x
  | x :: xs => pyRepr x ++ ", " ++ pyReprList xs

def pyReprObj : List (String × Json) → String
  | [] => ""
  | [(k, v)] => "\x27" ++ k ++ "\x27: " ++ pyRepr v
  | (k, v) :: kvs => "\x27" ++ k ++ "\x27: " ++ pyRepr v ++ ", " ++ pyReprObj kvs

end

/-- Python `str()` / `"...".format(x)` of an embedded value. -/
def pyStr : Json → String
  | .null => "None"
  | .bool b => if b then "True" else "False"
  | .num n => toString n
  | .str s => s
  | .arr xs => "[" ++ pyReprList xs ++ "]"
  | .obj kvs => "\x7b" ++ pyReprObj kvs ++ "\x7d"

end Json

/-! ## Python string primitives -/

/-- Python substring membership `needle in hay` on character lists. -/
def subIn (needle : List Char) : List Char → Bool
  | [] => needle.isEmpty
  | c :: rest => needle.isPrefixOf (c :: rest) || subIn needle rest

/-- Python substring membership `needle in hay` on strings. -/
def strIn (needle hay : String) : Bool :=
  subIn needle.data hay.data

/-- Python `s.split(sep)` for a single-character separator: keeps empty
segments, as the source relies on. -/
def pySplit (sep : Char) : List Char → List (List Char)
  | [] => [[]]
  | c :: rest =>
      if c = sep then
        [] :: pySplit sep rest
      else
        match pySplit sep rest with
        | [] => [[c]]          -- unreachable: pySplit never returns []
        | seg :: segs => (c :: seg) :: segs

/-- The characters Python's no-argument `strip`/`lstrip` removes. -/
def pyIsSpace (c : Char) : Bool :=
  c = ' ' || c = '\t' || c = '\n' || c = '\x0d' || c = '\x0b' || c = '\x0c'

/-- Python `s.lstrip()`. -/
def pyLstrip (l : List Char) : List Char :=
  l.dropWhile pyIsSpace

/-- Python `s.strip()`. -/
def pyStrip (l : List Char) : List Char :=
  (pyLstrip (pyLstrip l).reverse).reverse

/-- Python `s.strip()` on strings. -/
def strStrip (s : String) : String :=
  ⟨pyStrip s.data⟩

/-- Python `s.split(sep)` on strings. -/
def strSplit (sep : Char) (s : String) : List String :=
  (pySplit sep s.data).map (fun l => ⟨l⟩)

/-- Python `sep.join(xs)`. -/
def pyJoin (sep : String) : List String → String
  | [] => ""
  | [x] => x
  | x :: xs => x ++ sep ++ pyJoin sep xs

/-- Python `s.replace(old, new)` for a single-character `old`. -/
def pyReplaceChar (old : Char) (new : String) (s : String) : String :=
  pyJoin new (strSplit old s)

/-- Python's `str.title()` is applied to RT field keys; on the
single-word lowercase keys the adapters produce it capitalises the first
letter.  Embedded for exactly that shape: uppercase the first character of
each alphabetic run. -/
def pyTitle (s : String) : String :=
  ⟨go true s.data⟩
where
  go : Bool → List Char → List Char
  | _, [] => []
  | startWord, c :: rest =>
      if c.isAlpha then
        (if startWord then c.toUpper else c.toLower) :: go false rest
      else
        c :: go true rest

/-! ## HTTP transport model -/

/-- A response produced by the HTTP session collaborator.  `jsonBody` is
the result of `r.json()`: `none` means the body is not decodable JSON and
`r.json()` raises `ValueError`.  `errText` is the collaborator-chosen
`str(e)` of the `HTTPError` that `raise_for_status()` raises on a 4xx/5xx
code. -/
structure HttpResponse where
  status : Nat
  text : String
  jsonBody : Option Json
  errText : String := ""

/-- One transport outcome: either the request raised before any response
existed (connection failure, carrying the collaborator-chosen `str(e)`) or
a response came back. -/
inductive HttpOutcome where
  | connError (msg : String)
  | resp (r : HttpResponse)

/-- A record of one attempted HTTP call (method, url, payload rendering). -/
structure HttpRequest where
  method : String
  url : String
  payload : String
deriving Repr, DecidableEq

/-- `r.raise_for_status()` raises for 4xx/5xx codes. -/
def httpError (status : Nat) : Bool :=
  400 ≤ status

/-- The session script: outcomes consumed one per attempted call.  An
exhausted script behaves as a connection failure. -/
abbrev Script := List HttpOutcome

def takeOutcome : Script → HttpOutcome × Script
  | [] => (HttpOutcome.connError "", [])
  | o :: rest => (o, rest)

/-! ## The uniform Result value -/

/-- The `Result` named tuple: `status`, `error_message`, `url`,
`ticket_content`, plus the `watchers` field the Jira adapter adds (kept
`none` by every other adapter). -/
structure ReqResult where
  status : String
  error_message : Option String
  url : Option String
  ticket_content : Option Json
  watchers : Option (List String) := none

/-- `Result('Success', None, None, None)` built in `Ticket.__init__`. -/
def ReqResult.init : ReqResult :=
  { status := "Success", error_message := none, url := none, ticket_content := none }

/-- The fixed guard message every mutating operation returns on a handle
with no ticket id. -/
def noTicketIdMsg : String :=
  "No ticket ID associated with ticket object. Set ticket ID with set_ticket_id(<ticket_id>)"

/-- `self.request_result._replace(status='Failure', error_message=m)`. -/
def ReqResult.fail (r : ReqResult) (m : String) : ReqResult :=
  { r with status := "Failure", error_message := some m }

/-- What one adapter operation produces: the HTTP requests it attempted,
either an uncaught Python exception or the returned `Result` together with
the updated handle state, and the unconsumed part of the session script. -/
structure Step (σ : Type) where
  reqs : List HttpRequest
  out : Except PyExc (ReqResult × σ)
  rest : Script

/-- Python dict assignment `d[k] = v`: replace in place or append. -/
def dictSet (kvs : List (String × Json)) (k : String) (v : Json) :
    List (String × Json) :=
  match kvs with
  | [] => [(k, v)]
  | (k', v') :: rest =>
      if k' = k then (k, v) :: rest else (k', v') :: dictSet rest k v

/-- Python `', '.join(xs)` over a decoded JSON list: every element must be
a `str`, otherwise `TypeError`. -/
def joinStrs (sep : String) : List Json → Except PyExc String
  | [] => Except.ok ""
  | [Json.str s] => Except.ok s
  | Json.str s :: x :: xs => do
      let r ← joinStrs sep (x :: xs)
      return s ++ sep ++ r
  | _ => Except.error PyExc.typeError

/-- Python `s.lower()`. -/
def pyLower (s : String) : String :=
  ⟨s.data.map Char.toLower⟩

mutual

/-- Python `==` on embedded values.  Scalars compare as in Python
(including the `bool`/`int` coercion); containers compare pairwise in
order (the adapters only ever compare strings and empty dicts, where this
agrees with Python). -/
def pyEq : Json → Json → Bool
  | Json.null, Json.null => true
  | Json.bool a, Json.bool b => a = b
  | Json.bool a, Json.num b => (if a then (1 : Int) else 0) = b
  | Json.num a, Json.bool b => a = (if b then (1 : Int) else 0)
  | Json.num a, Json.num b => a = b
  | Json.str a, Json.str b => a = b
  | Json.arr a, Json.arr b => pyEqList a b
  | Json.obj a, Json.obj b => pyEqObj a b
  | _, _ => false

def pyEqList : List Json → List Json → Bool
  | [], [] => true
  | a :: as', b :: bs' => pyEq a b && pyEqList as' bs'
  | _, _ => false

def pyEqObj : List (String × Json) → List (String × Json) → Bool
  | [], [] => true
  | (ka, va) :: as', (kb, vb) :: bs' => ka = kb && pyEq va vb && pyEqObj as' bs'
  | _, _ => false

end

/-- Escaping inside `json.dumps` of a string (the characters the adapters
can actually send). -/
def jsonEscape (s : String) : String :=
  ⟨s.data.foldr (fun c acc =>
    if c = '"' then '\\' :: '"' :: acc
    else if c = '\\' then '\\' :: '\\' :: acc
    else if c = '\n' then '\\' :: 'n' :: acc
    else if c = '\t' then '\\' :: 't' :: acc
    else if c = '\x0d' then '\\' :: 'r' :: acc
    else c :: acc) []⟩

mutual

/-- Python `json.dumps` with default separators, used both for the
payloads `requests` serialises from `json=params` and for the string
payload ServiceNow builds by hand. -/
def jsonDumps : Json → String
  | Json.null => "null"
  | Json.bool b => if b then "true" else "false"
  | Json.num n => toString n
  | Json.str s => "\"" ++ jsonEscape s ++ "\""
  | Json.arr xs => "[" ++ jsonDumpsList xs ++ "]"
  | Json.obj kvs => "\x7b" ++ jsonDumpsObj kvs ++ "\x7d"

def jsonDumpsList : List Json → String
  | [] => ""
  | [x] => jsonDumps x
  | x :: xs => jsonDumps x ++ ", " ++ jsonDumpsList xs

def jsonDumpsObj : List (String × Json) → String
  | [] => ""
  | [(k, v)] => "\"" ++ jsonEscape k ++ "\": " ++ jsonDumps v
  | (k, v) :: kvs =>
      "\"" ++ jsonEscape k ++ "\": " ++ jsonDumps v ++ ", " ++ jsonDumpsObj kvs

end

/-- The base64 alphabet. -/
def b64Char (n : Nat) : Char :=
  ("ABCDEFGHIJKLMNOPQRSTUVWXYZabcdefghijklmnopqrstuvwxyz0123456789+/".data).getD n 'A'

/-- Standard base64 over a byte list (`base64.standard_b64encode`). -/
def base64Bytes : List (Fin 256) → String
  | [] => ""
  | [a] =>
      ⟨[b64Char (a.val / 4), b64Char (a.val % 4 * 16), '=', '=']⟩
  | [a, b] =>
      ⟨[b64Char (a.val / 4), b64Char (a.val % 4 * 16 + b.val / 16),
        b64Char (b.val % 16 * 4), '=']⟩
  | a :: b :: c :: rest =>
      (⟨[b64Char (a.val / 4), b64Char (a.val % 4 * 16 + b.val / 16),
         b64Char (b.val % 16 * 4 + c.val / 64), b64Char (c.val % 64)]⟩ : String)
      ++ base64Bytes rest

/-- `base64.standard_b64encode(file_content).decode()`: the file content
is read in binary mode; its bytes are the UTF-8 bytes of the embedded
content string. -/
def base64Encode (s : String) : String :=
  base64Bytes (s.toUTF8.toList.map (fun b => (⟨b.toNat % 256, Nat.mod_lt _ (by norm_num)⟩ : Fin 256)))

/-- `r.json()`: `ValueError` when the body is not decodable JSON. -/
def respJson (r : HttpResponse) : Except PyExc Json :=
  match r.jsonBody with
  | some j => Except.ok j
  | none => Except.error PyExc.valueError

/-- Python `x[0]` (`IndexError` on an empty list or string, `KeyError` on
a dict, `TypeError` otherwise). -/
def pyIndex0 : Json → Except PyExc Json
  | Json.arr (x :: _) => Except.ok x
  | Json.arr [] => Except.error PyExc.indexError
  | Json.str s =>
      match s.data with
      | c :: _ => Except.ok (Json.str ⟨[c]⟩)
      | [] => Except.error PyExc.indexError
  | Json.obj _ => Except.error (PyExc.keyError "0")
  | _ => Except.error PyExc.typeError

/-! ## RT adapter (`ticketutil/rt.py`) -/

namespace RT

/-- The mutable attributes of an `RTTicket` handle. -/
structure RTState where
  url : String
  project : String
  rest_url : String          -- `url ++ "/REST/1.0"`, set in `__init__`
  principal : Json           -- kerberos principal or basic-auth user, may be None
  ticket_id : Json           -- Python `None` before a ticket is bound
  ticket_url : Option String
  ticket_content : Option Json
  request_result : ReqResult

/-- `rt._convert_string`, one line at a time: the dict under construction
is an ordered assoc list seeded with `header ↦ []`. -/
def convertLine (resp : List (String × Json)) (line : String) :
    Except PyExc (List (String × Json)) :=
  if line ≠ "" then
    if !(strIn ":" line) then
      -- response['header'].append(line): AttributeError if a parsed
      -- key "header" replaced the list with a string.
      match Json.lookup resp "header" with
      | some (Json.arr xs) =>
          Except.ok (dictSet resp "header" (Json.arr (xs ++ [Json.str line])))
      | some _ => Except.error PyExc.attributeError
      | none => Except.error (PyExc.keyError "header")
    else
      let elements := strSplit ':' line
      -- the line contains a colon, so `elements` has at least 2 segments
      let e0 := elements.headD ""
      if strIn "Attachments" e0 then
        match elements with
        | _ :: e1 :: e2 :: _ =>
            Except.ok (dictSet resp (⟨pyLstrip e1.data⟩ : String)
              (Json.str (⟨pyLstrip e2.data⟩ : String)))
        | _ => Except.error PyExc.indexError
      else
        match elements with
        | _ :: e1 :: _ =>
            Except.ok (dictSet resp (⟨pyLstrip e0.data⟩ : String)
              (Json.str (⟨pyLstrip e1.data⟩ : String)))
        | _ => Except.error PyExc.indexError
  else
    Except.ok resp

/-- `rt._convert_string(text)`: a list of lines when `'Stack' in text`,
otherwise the header-list-plus-key/value dict. -/
def convert_string (text : String) : Except PyExc Json := do
  let lines := strSplit '\n' text
  if strIn "Stack" text then
    return Json.arr (lines.map Json.str)
  else
    let start : List (String × Json) := [("header", Json.arr [])]
    let resp ← lines.foldlM convertLine start
    return Json.obj resp

/-- `re.search('Ticket (\\d+) created', text)`: the digits of the first
(leftmost) match, or `None`. -/
def searchTicketCreated (text : List Char) : Option String :=
  match text with
  | [] => none
  | _ :: rest =>
      match matchAt text with
      | some ds => some ds
      | none => searchTicketCreated rest
where
  matchAt (l : List Char) : Option String :=
    if "Ticket ".data.isPrefixOf l then
      let after := l.drop 7
      let ds := after.takeWhile Char.isDigit
      if !ds.isEmpty && " created".data.isPrefixOf (after.drop ds.length) then
        some ⟨ds⟩
      else
        none
    else
      none

/-- `rt._prepare_ticket_fields`: list-valued `cc`/`admincc` entries are
joined with `', '`. -/
def prepare_ticket_fields (fields : List (String × Json)) :
    Except PyExc (List (String × Json)) :=
  fields.foldrM (fun (kv : String × Json) acc => do
    let (k, v) := kv
    if (k = "cc" || k = "admincc") then
      match v with
      | Json.arr xs => do
          let s ← joinStrs ", " xs
          return (k, Json.str s) :: acc
      | _ => return (k, v) :: acc
    else
      return (k, v) :: acc) []

/-- `RTTicket._generate_ticket_url`: also rewrites `request_result.url`. -/
def generate_ticket_url (st : RTState) : Option String × RTState :=
  let turl :=
    if st.ticket_id.truthy then
      some (st.url ++ "/Ticket/Display.html?id=" ++ Json.pyStr st.ticket_id)
    else
      none
  (turl, { st with request_result := { st.request_result with url := turl } })

/-- `RTTicket.get_ticket_content(ticket_id=None, option='show')`.  The
`arg` is the Python argument, `Json.null` when omitted. -/
def get_ticket_content (st : RTState) (arg : Json) (opt : String)
    (sc : Script) : Step RTState :=
  match arg, st.ticket_id.truthy with
  | Json.null, false =>
      ⟨[], Except.ok (st.request_result.fail noTicketIdMsg, st), sc⟩
  | arg, _ =>
      let tid := match arg with | Json.null => st.ticket_id | a => a
      let req : HttpRequest :=
        ⟨"GET", st.rest_url ++ "/ticket/" ++ Json.pyStr tid ++ "/" ++ opt, ""⟩
      let (o, sc1) := takeOutcome sc
      match o with
      | HttpOutcome.connError _ =>
          ⟨[req], Except.ok (st.request_result.fail "Error getting ticket content", st), sc1⟩
      | HttpOutcome.resp r =>
          if httpError r.status then
            ⟨[req], Except.ok (st.request_result.fail "Error getting ticket content", st), sc1⟩
          else if strIn ("Ticket " ++ Json.pyStr tid ++ " does not exist.") r.text
              || strIn "Bad Request" r.text then
            ⟨[req], Except.ok
              (st.request_result.fail ("Ticket " ++ Json.pyStr tid ++ " is not valid"), st), sc1⟩
          else
            match convert_string r.text with
            | Except.error e => ⟨[req], Except.error e, sc1⟩
            | Except.ok content =>
                ⟨[req], Except.ok
                  ({ st.request_result with ticket_content := some content },
                   { st with ticket_content := some content }), sc1⟩

/-- The shared tail of the RT mutating operations: POST, convert transport
failures and a backend-reported error body to Failure, else re-fetch the
content and store the fetched result in `request_result`. -/
def postAndRefresh (st : RTState) (url payload : String)
    (check : String → Option String) (sc : Script) : Step RTState :=
  let req : HttpRequest := ⟨"POST", url, payload⟩
  let (o, sc1) := takeOutcome sc
  match o with
  | HttpOutcome.connError m =>
      ⟨[req], Except.ok (st.request_result.fail m, st), sc1⟩
  | HttpOutcome.resp r =>
      if httpError r.status then
        ⟨[req], Except.ok (st.request_result.fail r.errText, st), sc1⟩
      else
        match check r.text with
        | some em => ⟨[req], Except.ok (st.request_result.fail em, st), sc1⟩
        | none =>
            let g := get_ticket_content st Json.null "show" sc1
            match g.out with
            | Except.error e => ⟨req :: g.reqs, Except.error e, g.rest⟩
            | Except.ok (res, st') =>
                ⟨req :: g.reqs,
                 Except.ok (res, { st' with request_result := res }), g.rest⟩

/-- `RTTicket.edit(**kwargs)`. -/
def edit (st : RTState) (fields : List (String × Json)) (sc : Script) :
    Step RTState :=
  if !st.ticket_id.truthy then
    ⟨[], Except.ok (st.request_result.fail noTicketIdMsg, st), sc⟩
  else
    match prepare_ticket_fields fields with
    | Except.error e => ⟨[], Except.error e, sc⟩
    | Except.ok fields =>
        let content := fields.foldl
          (fun acc kv => acc ++ pyTitle kv.1 ++ ": " ++ Json.pyStr kv.2 ++ "\n") ""
        postAndRefresh st
          (st.rest_url ++ "/ticket/" ++ Json.pyStr st.ticket_id ++ "/edit") content
          (fun t => if strIn "409 Syntax Error" t then some (pyReplaceChar '\n' " " t) else none)
          sc

/-- `RTTicket.add_comment(comment)`. -/
def add_comment (st : RTState) (comment : Json) (sc : Script) : Step RTState :=
  if !st.ticket_id.truthy then
    ⟨[], Except.ok (st.request_result.fail noTicketIdMsg, st), sc⟩
  else
    match comment with
    | Json.str c =>
        let encoded := pyReplaceChar '\n' "\n      " c
        let content := "Action: correspond\n" ++ "Text: " ++ encoded ++ "\n"
        postAndRefresh st
          (st.rest_url ++ "/ticket/" ++ Json.pyStr st.ticket_id ++ "/comment") content
          (fun t => if strIn "400 Bad Request" t then some (pyReplaceChar '\n' " " t) else none)
          sc
    | _ => ⟨[], Except.error PyExc.attributeError, sc⟩   -- comment.replace on a non-str

/-- `RTTicket.change_status(status)`. -/
def change_status (st : RTState) (status : Json) (sc : Script) : Step RTState :=
  if !st.ticket_id.truthy then
    ⟨[], Except.ok (st.request_result.fail noTicketIdMsg, st), sc⟩
  else
    match status with
    | Json.str s =>
        let content := "Status: " ++ pyLower s ++ "\n"
        postAndRefresh st
          (st.rest_url ++ "/ticket/" ++ Json.pyStr st.ticket_id ++ "/edit") content
          (fun t => if strIn "409 Syntax Error" t then some (pyReplaceChar '\n' " " t) else none)
          sc
    | _ => ⟨[], Except.error PyExc.attributeError, sc⟩   -- status.lower() on a non-str

/-- `RTTicket.add_attachment(file_name)`; `fs` is the filesystem
collaborator (name ↦ readable content). -/
def add_attachment (st : RTState) (file_name : String)
    (fs : String → Option String) (sc : Script) : Step RTState :=
  if !st.ticket_id.truthy then
    ⟨[], Except.ok (st.request_result.fail noTicketIdMsg, st), sc⟩
  else
    let content := "Action: correspond\n" ++ "Attachment: " ++ file_name ++ "\n"
    match fs file_name with
    | none =>
        ⟨[], Except.ok
          (st.request_result.fail ("File " ++ file_name ++ " not found"), st), sc⟩
    | some _ =>
        postAndRefresh st
          (st.rest_url ++ "/ticket/" ++ Json.pyStr st.ticket_id ++ "/comment") content
          (fun t => if !(strIn "200" t) then some (pyReplaceChar '\n' " " t) else none)
          sc

/-- `RTTicket._create_ticket_request(params)`. -/
def create_ticket_request (st : RTState) (params : String) (sc : Script) :
    Step RTState :=
  let req : HttpRequest := ⟨"POST", st.rest_url ++ "/ticket/new", params⟩
  let (o, sc1) := takeOutcome sc
  match o with
  | HttpOutcome.connError m =>
      ⟨[req], Except.ok (st.request_result.fail m, st), sc1⟩
  | HttpOutcome.resp r =>
      if httpError r.status then
        ⟨[req], Except.ok (st.request_result.fail r.errText, st), sc1⟩
      else if strIn "Could not create ticket" r.text then
        ⟨[req], Except.ok (st.request_result.fail (pyReplaceChar '\n' " " r.text), st), sc1⟩
      else
        match searchTicketCreated r.text.data with
        | none =>
            -- re.search(...) returned None; .groups() raises AttributeError
            ⟨[req], Except.error PyExc.attributeError, sc1⟩
        | some ds =>
            let st := { st with ticket_id := Json.str ds }
            let (turl, st) := generate_ticket_url st
            let st := { st with ticket_url := turl }
            let g := get_ticket_content st Json.null "show" sc1
            match g.out with
            | Except.error e => ⟨req :: g.reqs, Except.error e, g.rest⟩
            | Except.ok (res, st') =>
                ⟨req :: g.reqs,
                 Except.ok (res, { st' with request_result := res }), g.rest⟩

/-- `RTTicket._create_ticket_parameters(subject, text, fields)`. -/
def create_ticket_parameters (st : RTState) (subject : Json) (text : String)
    (fields : List (String × Json)) : Except PyExc String := do
  let encoded := pyReplaceChar '\n' "\n      " text
  let content :=
    "Queue: " ++ st.project ++ "\n" ++
    "Requestor: " ++ Json.pyStr st.principal ++ "\n" ++
    "Subject: " ++ Json.pyStr subject ++ "\n" ++
    "Text: " ++ encoded ++ "\n"
  let fields ← prepare_ticket_fields fields
  return fields.foldl
    (fun acc kv => acc ++ pyTitle kv.1 ++ ": " ++ Json.pyStr kv.2 ++ "\n") content

/-- `RTTicket.create(subject, text, **kwargs)`. -/
def create (st : RTState) (subject text : Json)
    (fields : List (String × Json)) (sc : Script) : Step RTState :=
  -- the two sequential `if ... is None` assignments: the later (text)
  -- message overwrites the earlier one when both are missing
  if text.isNull then
    ⟨[], Except.ok
      (st.request_result.fail "text is a necessary parameter for ticket creation", st), sc⟩
  else if subject.isNull then
    ⟨[], Except.ok
      (st.request_result.fail "subject is a necessary parameter for ticket creation", st), sc⟩
  else
    match text with
    | Json.str t =>
        match create_ticket_parameters st subject t fields with
        | Except.error e => ⟨[], Except.error e, sc⟩
        | Except.ok params => create_ticket_request st params sc
    | _ => ⟨[], Except.error PyExc.attributeError, sc⟩   -- text.replace on a non-str

/-- `Ticket._verify_ticket_id` + `Ticket.set_ticket_id` as inherited by
`RTTicket` (the content fetch uses the default `option='show'`). -/
def set_ticket_id (st : RTState) (tid : Json) (sc : Script) : Step RTState :=
  let g := get_ticket_content st tid "show" sc
  match g.out with
  | Except.error e => ⟨g.reqs, Except.error e, g.rest⟩
  | Except.ok (res, st1) =>
      if strIn "Failure" res.status then
        ⟨g.reqs, Except.ok (st1.request_result.fail "Ticket ID not valid", st1), g.rest⟩
      else
        let st2 := { st1 with ticket_id := tid }
        let (turl, st3) := generate_ticket_url st2
        let st4 := { st3 with ticket_url := turl }
        ⟨g.reqs, Except.ok (st4.request_result, st4), g.rest⟩

/-- The handle state right after `RTTicket.__init__` succeeds with no
`ticket_id` argument. -/
def rtInit (url project : String) (principal : Json) : RTState :=
  { url := url
    project := project
    rest_url := url ++ "/REST/1.0"
    principal := principal
    ticket_id := Json.null
    ticket_url := none
    ticket_content := none
    request_result := ReqResult.init }

/-- `RTTicket.__init__` when a `ticket_id` argument is supplied: the base
class verifies it (one content fetch) and computes the URL.  `none` means
construction raised `TicketException`. -/
def initWithId (url project : String) (principal tid : Json) (sc : Script) :
    Option (RTState × Script) :=
  let st0 := { rtInit url project principal with ticket_id := tid }
  if !tid.truthy then
    some (st0, sc)
  else
    let g := get_ticket_content st0 tid "show" sc
    match g.out with
    | Except.error _ => none
    | Except.ok (res, st1) =>
        if strIn "Failure" res.status then
          none
        else
          let st2 := { st1 with ticket_id := tid }
          let (turl, st3) := generate_ticket_url st2
          some ({ st3 with ticket_url := turl }, g.rest)

end RT

/-! ## Jira adapter (`ticketutil/jira.py`) -/

namespace Jira

/-- The mutable attributes of a `JiraTicket` handle. -/
structure JiraState where
  url : String
  project : String
  rest_url : String          -- `url ++ "/rest/api/2/issue"`, set in `__init__`
  ticket_id : Json           -- Python `None` before a ticket is bound
  ticket_url : Option String
  ticket_content : Option Json
  request_result : ReqResult

/-- `jira._extract_error_messages(data)`. -/
def extract_error_messages (data : Json) : Except PyExc String :=
  match data with
  | Json.obj kvs =>
      match Json.lookup kvs "errorMessages" with
      | some v =>
          if v.truthy then
            -- ' '.join(data['errorMessages'])
            match v with
            | Json.arr xs => joinStrs " " xs
            | Json.str s => Except.ok (pyJoin " " (s.data.map (fun c => (⟨[c]⟩ : String))))
            | Json.obj kvs' => joinStrs " " (kvs'.map (fun kv => Json.str kv.1))
            | _ => Except.error PyExc.typeError
          else
            extractErrors kvs
      | none => extractErrors kvs
  | _ => Except.error PyExc.attributeError   -- .get on a non-dict
where
  extractErrors (kvs : List (String × Json)) : Except PyExc String :=
    match Json.lookup kvs "errors" with
    | some v =>
        if v.truthy then
          -- ' '.join(data['errors'].values())
          match v with
          | Json.obj kvs' => joinStrs " " (kvs'.map (·.2))
          | _ => Except.error PyExc.attributeError   -- .values on a non-dict
        else
          Except.ok ""
    | none => Except.ok ""

/-- The shared shape of the Jira `except` handlers that render
`_extract_error_messages(r.json())` behind a fixed prefix. -/
def handlerMsg (pre : String) (r : HttpResponse) : Except PyExc String := do
  let j ← respJson r
  let m ← extract_error_messages j
  return pre ++ m

/-- `jira._prepare_ticket_fields(fields)`: raises `KeyError` for a
parentless Sub-task, renames/wraps the structured fields.  Python mutates
the dict while iterating; the net effect preserves positions of rewritten
values and moves `type` to an appended `issuetype` entry. -/
def prepare_ticket_fields (fields : List (String × Json)) :
    Except PyExc (List (String × Json)) := do
  if (match Json.lookup fields "type" with
      | some v => pyEq v (Json.str "Sub-task")
      | none => false)
      && (Json.lookup fields "parent").isNone then
    Except.error (PyExc.keyError "Parent field is required while creating a Sub Task")
  else
    let rewritten ← fields.foldrM (fun (kv : String × Json) acc => do
      let (k, v) := kv
      if k = "priority" || k = "assignee" || k = "reporter" then
        return (k, Json.obj [("name", v)]) :: acc
      else if k = "parent" then
        return (k, Json.obj [("key", v)]) :: acc
      else if k = "components" then
        -- [  \x7b"name": name\x7d for name in fields[key] ]
        match v with
        | Json.arr xs =>
            return (k, Json.arr (xs.map (fun name => Json.obj [("name", name)]))) :: acc
        | Json.str s =>
            return (k, Json.arr (s.data.map
              (fun c => Json.obj [("name", Json.str ⟨[c]⟩)]))) :: acc
        | _ => Except.error PyExc.typeError
      else if k = "type" then
        return acc   -- popped; `issuetype` is appended below
      else
        return (k, v) :: acc) []
    match Json.lookup fields "type" with
    | some v => return rewritten ++ [("issuetype", Json.obj [("name", v)])]
    | none => return rewritten

/-- `JiraTicket._generate_ticket_url`: also rewrites `request_result.url`. -/
def generate_ticket_url (st : JiraState) : Option String × JiraState :=
  let turl :=
    if st.ticket_id.truthy then
      some (st.url ++ "/browse/" ++ Json.pyStr st.ticket_id)
    else
      none
  (turl, { st with request_result := { st.request_result with url := turl } })

/-- The `except` handler of `JiraTicket.get_ticket_content`: inspects
`r.json()['errorMessages'][0].lower()` and picks the message. -/
def getContentErrMsg (r : HttpResponse) (tid : Json) : Except PyExc String := do
  let j ← respJson r
  let ems ← j.dictGet "errorMessages"
  let first ← pyIndex0 ems
  let low ← match first with
    | Json.str s => Except.ok (pyLower s)
    | _ => Except.error PyExc.attributeError
  if strIn "issue does not exist" low then
    return "Ticket " ++ Json.pyStr tid ++ " is not valid"
  else
    return "Error getting ticket content"

/-- `JiraTicket.get_ticket_content(ticket_id=None)`; `arg` is `Json.null`
when the parameter is omitted. -/
def get_ticket_content (st : JiraState) (arg : Json) (sc : Script) :
    Step JiraState :=
  match arg, st.ticket_id.truthy with
  | Json.null, false =>
      ⟨[], Except.ok (st.request_result.fail noTicketIdMsg, st), sc⟩
  | arg, _ =>
      let tid := match arg with | Json.null => st.ticket_id | a => a
      let req : HttpRequest := ⟨"GET", st.rest_url ++ "/" ++ Json.pyStr tid, ""⟩
      let (o, sc1) := takeOutcome sc
      match o with
      | HttpOutcome.connError _ =>
          -- the except-handler evaluates r.json() but no response was
          -- ever bound: UnboundLocalError
          ⟨[req], Except.error PyExc.nameError, sc1⟩
      | HttpOutcome.resp r =>
          if httpError r.status then
            match getContentErrMsg r tid with
            | Except.error e => ⟨[req], Except.error e, sc1⟩
            | Except.ok msg =>
                ⟨[req], Except.ok (st.request_result.fail msg, st), sc1⟩
          else
            match respJson r with
            | Except.error e => ⟨[req], Except.error e, sc1⟩
            | Except.ok j =>
                ⟨[req], Except.ok
                  ({ st.request_result with ticket_content := some j },
                   { st with ticket_content := some j }), sc1⟩

/-- `Ticket._verify_ticket_id` + `Ticket.set_ticket_id` as inherited by
`JiraTicket`. -/
def set_ticket_id (st : JiraState) (tid : Json) (sc : Script) :
    Step JiraState :=
  let g := get_ticket_content st tid sc
  match g.out with
  | Except.error e => ⟨g.reqs, Except.error e, g.rest⟩
  | Except.ok (res, st1) =>
      if strIn "Failure" res.status then
        ⟨g.reqs, Except.ok (st1.request_result.fail "Ticket ID not valid", st1), g.rest⟩
      else
        let st2 := { st1 with ticket_id := tid }
        let (turl, st3) := generate_ticket_url st2
        let st4 := { st3 with ticket_url := turl }
        ⟨g.reqs, Except.ok (st4.request_result, st4), g.rest⟩

/-- The common success tail `self.request_result = self.get_ticket_content()`. -/
def refreshContent (st : JiraState) (reqs : List HttpRequest) (sc : Script) :
    Step JiraState :=
  let g := get_ticket_content st Json.null sc
  match g.out with
  | Except.error e => ⟨reqs ++ g.reqs, Except.error e, g.rest⟩
  | Except.ok (res, st') =>
      ⟨reqs ++ g.reqs, Except.ok (res, { st' with request_result := res }), g.rest⟩

/-- The identity-binding tail shared by `_create_ticket_request` and
`set_ticket_id`: store the extracted id, regenerate the URL (which also
rewrites `request_result.url`) and store it. -/
def bindTicket (st : JiraState) (key : Json) : JiraState :=
  let st1 := { st with ticket_id := key }
  let (turl, st2) := generate_ticket_url st1
  { st2 with ticket_url := turl }

/-- `JiraTicket._create_ticket_request(params)`. -/
def create_ticket_request (st : JiraState) (params : Json) (sc : Script) :
    Step JiraState :=
  let req : HttpRequest := ⟨"POST", st.rest_url, jsonDumps params⟩
  let (o, sc1) := takeOutcome sc
  match o with
  | HttpOutcome.connError _ =>
      -- handler formats _extract_error_messages(r.json()) with r unbound
      ⟨[req], Except.error PyExc.nameError, sc1⟩
  | HttpOutcome.resp r =>
      if httpError r.status then
        match handlerMsg "Error creating ticket - " r with
        | Except.error e => ⟨[req], Except.error e, sc1⟩
        | Except.ok m => ⟨[req], Except.ok (st.request_result.fail m, st), sc1⟩
      else
        match respJson r with
        | Except.error e => ⟨[req], Except.error e, sc1⟩
        | Except.ok j =>
            match j.dictGet "key" with
            | Except.error e => ⟨[req], Except.error e, sc1⟩
            | Except.ok key =>
                refreshContent (bindTicket st key) [req] sc1

/-- `JiraTicket._create_ticket_parameters(summary, description, type, fields)`. -/
def create_ticket_parameters (st : JiraState) (summary description type' : Json)
    (fields : List (String × Json)) : Except PyExc Json := do
  let base : List (String × Json) :=
    [("project", Json.obj [("key", Json.str st.project)]),
     ("summary", summary),
     ("description", description),
     ("issuetype", Json.obj [("name", type')])]
  let prepared ← prepare_ticket_fields fields
  -- params['fields'].update(fields)
  let merged := prepared.foldl (fun acc kv => dictSet acc kv.1 kv.2) base
  return Json.obj [("fields", Json.obj merged)]

/-- `JiraTicket.create(summary, description, type, **kwargs)`. -/
def create (st : JiraState) (summary description type' : Json)
    (fields : List (String × Json)) (sc : Script) : Step JiraState :=
  -- the three sequential `if ... is None` assignments: the last missing
  -- parameter wins
  if type'.isNull then
    ⟨[], Except.ok
      (st.request_result.fail "type is a necessary parameter for ticket creation", st), sc⟩
  else if description.isNull then
    ⟨[], Except.ok
      (st.request_result.fail "description is a necessary parameter for ticket creation", st), sc⟩
  else if summary.isNull then
    ⟨[], Except.ok
      (st.request_result.fail "summary is a necessary parameter for ticket creation", st), sc⟩
  else
    match create_ticket_parameters st summary description type' fields with
    | Except.error e => ⟨[], Except.error e, sc⟩
    | Except.ok params => create_ticket_request st params sc

/-- `JiraTicket.edit(**kwargs)`. -/
def edit (st : JiraState) (fields : List (String × Json)) (sc : Script) :
    Step JiraState :=
  if !st.ticket_id.truthy then
    ⟨[], Except.ok (st.request_result.fail noTicketIdMsg, st), sc⟩
  else
    match prepare_ticket_fields fields with
    | Except.error e => ⟨[], Except.error e, sc⟩
    | Except.ok prepared =>
        let params := Json.obj [("fields", Json.obj prepared)]
        let req : HttpRequest :=
          ⟨"PUT", st.rest_url ++ "/" ++ Json.pyStr st.ticket_id, jsonDumps params⟩
        let (o, sc1) := takeOutcome sc
        match o with
        | HttpOutcome.connError _ =>
            -- handler formats _extract_error_messages(r.json()) with r unbound
            ⟨[req], Except.error PyExc.nameError, sc1⟩
        | HttpOutcome.resp r =>
            if httpError r.status then
              match handlerMsg "Error editing ticket - " r with
              | Except.error e => ⟨[req], Except.error e, sc1⟩
              | Except.ok m => ⟨[req], Except.ok (st.request_result.fail m, st), sc1⟩
            else
              refreshContent st [req] sc1

/-- `JiraTicket.add_comment(comment)`. -/
def add_comment (st : JiraState) (comment : Json) (sc : Script) :
    Step JiraState :=
  if !st.ticket_id.truthy then
    ⟨[], Except.ok (st.request_result.fail noTicketIdMsg, st), sc⟩
  else
    let params := Json.obj [("body", comment)]
    let req : HttpRequest :=
      ⟨"POST", st.rest_url ++ "/" ++ Json.pyStr st.ticket_id ++ "/comment",
       jsonDumps params⟩
    let (o, sc1) := takeOutcome sc
    match o with
    | HttpOutcome.connError _ =>
        ⟨[req], Except.error PyExc.nameError, sc1⟩
    | HttpOutcome.resp r =>
        if httpError r.status then
          match handlerMsg "Error adding comment to ticket - " r with
          | Except.error e => ⟨[req], Except.error e, sc1⟩
          | Except.ok m => ⟨[req], Except.ok (st.request_result.fail m, st), sc1⟩
        else
          refreshContent st [req] sc1

/-- `JiraTicket._get_status_id(status_name)`: one read-only lookup of the
ticket-scoped transitions list. -/
def get_status_id (st : JiraState) (statusName : Json) (sc : Script) :
    List HttpRequest × Except PyExc (Option Json) × Script :=
  let req : HttpRequest :=
    ⟨"GET", st.rest_url ++ "/" ++ Json.pyStr st.ticket_id ++ "/transitions", ""⟩
  let (o, sc1) := takeOutcome sc
  match o with
  | HttpOutcome.connError _ => ([req], Except.ok none, sc1)
  | HttpOutcome.resp r =>
      if httpError r.status then
        ([req], Except.ok none, sc1)
      else
        ([req],
         (do
           let j ← respJson r
           let ts ← j.dictGet "transitions"
           match ts with
           | Json.arr xs => findTransition xs
           | _ => Except.error PyExc.typeError),
         sc1)
where
  findTransition : List Json → Except PyExc (Option Json)
    | [] => Except.ok none
    | t :: rest => do
        let toField ← t.dictGet "to"
        let nm ← toField.dictGet "name"
        if pyEq nm statusName then
          let i ← t.dictGet "id"
          return some i
        else
          findTransition rest

/-- `JiraTicket.change_status(status)`. -/
def change_status (st : JiraState) (status : Json) (sc : Script) :
    Step JiraState :=
  if !st.ticket_id.truthy then
    ⟨[], Except.ok (st.request_result.fail noTicketIdMsg, st), sc⟩
  else
    let (lreqs, sid?, sc1) := get_status_id st status sc
    match sid? with
    | Except.error e => ⟨lreqs, Except.error e, sc1⟩
    | Except.ok sid =>
        if !(match sid with | some v => v.truthy | none => false) then
          ⟨lreqs, Except.ok
            (st.request_result.fail ("Not a valid status: " ++ Json.pyStr status), st), sc1⟩
        else
          let sidVal := match sid with | some v => v | none => Json.null
          let params := Json.obj [("transition", Json.obj [("id", sidVal)])]
          let req : HttpRequest :=
            ⟨"POST", st.rest_url ++ "/" ++ Json.pyStr st.ticket_id ++ "/transitions",
             jsonDumps params⟩
          let (o, sc2) := takeOutcome sc1
          match o with
          | HttpOutcome.connError _ =>
              ⟨lreqs ++ [req], Except.ok
                (st.request_result.fail "Error changing status of ticket", st), sc2⟩
          | HttpOutcome.resp r =>
              if httpError r.status then
                ⟨lreqs ++ [req], Except.ok
                  (st.request_result.fail "Error changing status of ticket", st), sc2⟩
              else
                refreshContent st (lreqs ++ [req]) sc2

/-- `JiraTicket.add_watcher(watcher)`. -/
def add_watcher (st : JiraState) (watcher : Json) (sc : Script) :
    Step JiraState :=
  if !st.ticket_id.truthy then
    ⟨[], Except.ok (st.request_result.fail noTicketIdMsg, st), sc⟩
  else
    match watcher with
    | Json.str w =>
        let w := if strIn "@" w then strStrip ((strSplit '@' w).headD "") else w
        if w ≠ "" then
          let quoted := "\"" ++ w ++ "\""
          let req : HttpRequest :=
            ⟨"POST", st.rest_url ++ "/" ++ Json.pyStr st.ticket_id ++ "/watchers", quoted⟩
          let (o, sc1) := takeOutcome sc
          match o with
          | HttpOutcome.connError _ =>
              ⟨[req], Except.ok (st.request_result.fail
                ("Error adding " ++ quoted ++ " as a watcher to ticket"), st), sc1⟩
          | HttpOutcome.resp r =>
              if httpError r.status then
                ⟨[req], Except.ok (st.request_result.fail
                  ("Error adding " ++ quoted ++ " as a watcher to ticket"), st), sc1⟩
              else
                refreshContent st [req] sc1
        else
          ⟨[], Except.ok (st.request_result.fail
            ("Error adding " ++ w ++ " as a watcher to ticket"), st), sc⟩
    | _ => ⟨[], Except.error PyExc.typeError, sc⟩   -- '@' in watcher on a non-str

/-- `JiraTicket.remove_watcher(watcher)`. -/
def remove_watcher (st : JiraState) (watcher : Json) (sc : Script) :
    Step JiraState :=
  if !st.ticket_id.truthy then
    ⟨[], Except.ok (st.request_result.fail noTicketIdMsg, st), sc⟩
  else
    match watcher with
    | Json.str w =>
        let w := if strIn "@" w then strStrip ((strSplit '@' w).headD "") else w
        let req : HttpRequest :=
          ⟨"DELETE",
           st.rest_url ++ "/" ++ Json.pyStr st.ticket_id ++ "/watchers?username=" ++ w, ""⟩
        let (o, sc1) := takeOutcome sc
        match o with
        | HttpOutcome.connError _ =>
            ⟨[req], Except.ok (st.request_result.fail
              ("Error removing watcher " ++ w ++ " from ticket"), st), sc1⟩
        | HttpOutcome.resp r =>
            if httpError r.status then
              ⟨[req], Except.ok (st.request_result.fail
                ("Error removing watcher " ++ w ++ " from ticket"), st), sc1⟩
            else
              refreshContent st [req] sc1
    | _ => ⟨[], Except.error PyExc.typeError, sc⟩

/-- `JiraTicket._get_watchers_list`. -/
def get_watchers_list (st : JiraState) (sc : Script) :
    List HttpRequest × Except PyExc (Option (List String)) × Script :=
  let req : HttpRequest :=
    ⟨"GET", st.rest_url ++ "/" ++ Json.pyStr st.ticket_id ++ "/watchers", ""⟩
  let (o, sc1) := takeOutcome sc
  match o with
  | HttpOutcome.connError _ => ([req], Except.ok none, sc1)
  | HttpOutcome.resp r =>
      if httpError r.status then
        ([req], Except.ok none, sc1)
      else
        ([req],
         (do
           let j ← respJson r
           let ws ← j.dictGet "watchers"
           match ws with
           | Json.arr xs => do
               let names ← xs.mapM (fun w => w.dictGet "name")
               return some (names.map Json.pyStr)
           | _ => Except.error PyExc.typeError),
         sc1)

/-- One DELETE of the `remove_all_watchers` loop; returns whether it
failed. -/
def removeOneWatcher (st : JiraState) (w : String) (sc : Script) :
    HttpRequest × Bool × Script :=
  let req : HttpRequest :=
    ⟨"DELETE",
     st.rest_url ++ "/" ++ Json.pyStr st.ticket_id ++ "/watchers?username=" ++ w, ""⟩
  let (o, sc1) := takeOutcome sc
  match o with
  | HttpOutcome.connError _ => (req, true, sc1)
  | HttpOutcome.resp r => (req, httpError r.status, sc1)

/-- The `for watcher in watchers_list` DELETE loop of
`remove_all_watchers`, accumulating requests and the failure count. -/
def removeLoop (st : JiraState) (ws : List String)
    (acc : List HttpRequest × Nat × Script) : List HttpRequest × Nat × Script :=
  ws.foldl
    (fun acc w =>
      let (reqs, n, sc') := acc
      let (req, failed, sc'') := removeOneWatcher st w sc'
      (reqs ++ [req], n + (if failed then 1 else 0), sc''))
    acc

/-- `JiraTicket.remove_all_watchers`. -/
def remove_all_watchers (st : JiraState) (sc : Script) : Step JiraState :=
  if !st.ticket_id.truthy then
    ⟨[], Except.ok (st.request_result.fail noTicketIdMsg, st), sc⟩
  else
    let (lreqs, ws?, sc1) := get_watchers_list st sc
    match ws? with
    | Except.error e => ⟨lreqs, Except.error e, sc1⟩
    | Except.ok none =>
        -- `for watcher in None:` raises TypeError
        ⟨lreqs, Except.error PyExc.typeError, sc1⟩
    | Except.ok (some ws) =>
        let (reqs, errCount, sc2) := removeLoop st ws (lreqs, 0, sc1)
        if errCount ≠ 0 then
          ⟨reqs, Except.ok (st.request_result.fail
            ("Error removing " ++ toString errCount ++ " watchers from ticket"), st), sc2⟩
        else
          let g := refreshContent st reqs sc2
          match g.out with
          | Except.error e => ⟨g.reqs, Except.error e, g.rest⟩
          | Except.ok (res, st') =>
              ⟨g.reqs, Except.ok ({ res with watchers := some ws }, st'), g.rest⟩

/-- `JiraTicket.add_attachment(file_name)`; `fs` is the filesystem
collaborator. -/
def add_attachment (st : JiraState) (file_name : String)
    (fs : String → Option String) (sc : Script) : Step JiraState :=
  if !st.ticket_id.truthy then
    ⟨[], Except.ok (st.request_result.fail noTicketIdMsg, st), sc⟩
  else
    match fs file_name with
    | none =>
        ⟨[], Except.ok
          (st.request_result.fail ("File " ++ file_name ++ " not found"), st), sc⟩
    | some contents =>
        let req : HttpRequest :=
          ⟨"POST", st.rest_url ++ "/" ++ Json.pyStr st.ticket_id ++ "/attachments",
           contents⟩
        let (o, sc1) := takeOutcome sc
        match o with
        | HttpOutcome.connError _ =>
            ⟨[req], Except.ok (st.request_result.fail
              ("Error attaching file " ++ file_name), st), sc1⟩
        | HttpOutcome.resp r =>
            if httpError r.status then
              ⟨[req], Except.ok (st.request_result.fail
                ("Error attaching file " ++ file_name), st), sc1⟩
            else
              refreshContent st [req] sc1

/-- The handle state right after `JiraTicket.__init__` succeeds with no
`ticket_id` argument. -/
def jiraInit (url project : String) : JiraState :=
  { url := url
    project := project
    rest_url := url ++ "/rest/api/2/issue"
    ticket_id := Json.null
    ticket_url := none
    ticket_content := none
    request_result :=
      { status := "Success", error_message := none, url := none,
        ticket_content := none, watchers := none } }

/-- `JiraTicket.__init__` when a `ticket_id` argument is supplied: the
base class verifies it (one content fetch) and computes the URL, then the
Jira subclass rebuilds `request_result` with the `watchers` field.
`none` means construction raised. -/
def initWithId (url project : String) (tid : Json) (sc : Script) :
    Option (JiraState × Script) :=
  let st0 := { jiraInit url project with ticket_id := tid }
  if !tid.truthy then
    -- `if self.ticket_id:` is skipped; no verification, no URL
    some ({ st0 with request_result :=
      { status := "Success", error_message := none, url := none,
        ticket_content := none, watchers := none } }, sc)
  else
    let g := get_ticket_content st0 tid sc
    match g.out with
    | Except.error _ => none
    | Except.ok (res, st1) =>
        if strIn "Failure" res.status then
          none   -- TicketException("Ticket ... is not valid")
        else
          let st2 := { st1 with ticket_id := tid }
          let (turl, st3) := generate_ticket_url st2
          let st4 := { st3 with ticket_url := turl }
          some ({ st4 with request_result :=
            { status := "Success", error_message := none, url := st4.ticket_url,
              ticket_content := st4.ticket_content, watchers := none } }, g.rest)

end Jira

/-! ## Bugzilla adapter (`ticketutil/bugzilla.py`) -/

namespace Bugzilla

/-- The mutable attributes of a `BugzillaTicket` handle. -/
structure BZState where
  url : String
  project : String
  rest_url : String          -- `url ++ "/rest/bug"`, set in `__init__`
  ticket_id : Json
  ticket_url : Option String
  ticket_content : Option Json
  request_result : ReqResult

/-- `bugzilla._prepare_ticket_fields(operation, fields)`. -/
def prepare_ticket_fields (operation : String)
    (fields : List (String × Json)) : List (String × Json) :=
  let fields :=
    if strIn "edit" operation then
      match Json.lookup fields "groups" with
      | some v =>
          let asList := match v with
            | Json.arr xs => Json.arr xs
            | other => Json.arr [other]
          dictSet fields "groups" (Json.obj [("add", asList)])
      | none => fields
    else fields
  -- assignee is popped and assigned_to appended with its value
  match Json.lookup fields "assignee" with
  | some v =>
      (fields.filter (fun kv => kv.1 ≠ "assignee")) ++ [("assigned_to", v)]
  | none => fields

/-- `BugzillaTicket._generate_ticket_url`. -/
def generate_ticket_url (st : BZState) : Option String × BZState :=
  let turl :=
    if st.ticket_id.truthy then
      some (st.url ++ "/show_bug.cgi?id=" ++ Json.pyStr st.ticket_id)
    else
      none
  (turl, { st with request_result := { st.request_result with url := turl } })

/-- `BugzillaTicket.get_ticket_content(ticket_id=None)`. -/
def get_ticket_content (st : BZState) (arg : Json) (sc : Script) :
    Step BZState :=
  match arg, st.ticket_id.truthy with
  | Json.null, false =>
      ⟨[], Except.ok (st.request_result.fail noTicketIdMsg, st), sc⟩
  | arg, _ =>
      let tid := match arg with | Json.null => st.ticket_id | a => a
      let req : HttpRequest := ⟨"GET", st.rest_url ++ "/" ++ Json.pyStr tid, ""⟩
      let (o, sc1) := takeOutcome sc
      match o with
      | HttpOutcome.connError _ =>
          ⟨[req], Except.ok
            (st.request_result.fail "Error getting ticket content", st), sc1⟩
      | HttpOutcome.resp r =>
          if httpError r.status then
            ⟨[req], Except.ok
              (st.request_result.fail "Error getting ticket content", st), sc1⟩
          else
            match respJson r with
            | Except.error e => ⟨[req], Except.error e, sc1⟩
            | Except.ok j =>
                ⟨[req], Except.ok
                  ({ st.request_result with ticket_content := some j },
                   { st with ticket_content := some j }), sc1⟩

/-- `Ticket._verify_ticket_id` + `Ticket.set_ticket_id` as inherited by
`BugzillaTicket`. -/
def set_ticket_id (st : BZState) (tid : Json) (sc : Script) : Step BZState :=
  let g := get_ticket_content st tid sc
  match g.out with
  | Except.error e => ⟨g.reqs, Except.error e, g.rest⟩
  | Except.ok (res, st1) =>
      if strIn "Failure" res.status then
        ⟨g.reqs, Except.ok (st1.request_result.fail "Ticket ID not valid", st1), g.rest⟩
      else
        let st2 := { st1 with ticket_id := tid }
        let (turl, st3) := generate_ticket_url st2
        let st4 := { st3 with ticket_url := turl }
        ⟨g.reqs, Except.ok (st4.request_result, st4), g.rest⟩

/-- `self.request_result = self.get_ticket_content()` success tail. -/
def refreshContent (st : BZState) (reqs : List HttpRequest) (sc : Script) :
    Step BZState :=
  let g := get_ticket_content st Json.null sc
  match g.out with
  | Except.error e => ⟨reqs ++ g.reqs, Except.error e, g.rest⟩
  | Except.ok (res, st') =>
      ⟨reqs ++ g.reqs, Except.ok (res, { st' with request_result := res }), g.rest⟩

/-- The identity-binding tail: store the extracted id, regenerate and
store the URL. -/
def bindTicket (st : BZState) (idv : Json) : BZState :=
  let st1 := { st with ticket_id := idv }
  let (turl, st2) := generate_ticket_url st1
  { st2 with ticket_url := turl }

/-- `BugzillaTicket._create_ticket_request(params)`. -/
def create_ticket_request (st : BZState) (params : Json) (sc : Script) :
    Step BZState :=
  let req : HttpRequest := ⟨"POST", st.rest_url, jsonDumps params⟩
  let (o, sc1) := takeOutcome sc
  match o with
  | HttpOutcome.connError m =>
      ⟨[req], Except.ok (st.request_result.fail m, st), sc1⟩
  | HttpOutcome.resp r =>
      if httpError r.status then
        ⟨[req], Except.ok (st.request_result.fail r.errText, st), sc1⟩
      else
        match respJson r with
        | Except.error e => ⟨[req], Except.error e, sc1⟩
        | Except.ok j =>
            if j.hasKey "id" then
              match j.dictGet "id" with
              | Except.error e => ⟨[req], Except.error e, sc1⟩
              | Except.ok idv =>
                  refreshContent (bindTicket st idv) [req] sc1
            else if j.hasKey "error" then
              match j.dictGet "message" with
              | Except.error e => ⟨[req], Except.error e, sc1⟩
              | Except.ok m =>
                  -- error_message is the backend-supplied message value
                  ⟨[req], Except.ok (st.request_result.fail (Json.pyStr m), st), sc1⟩
            else
              ⟨[req], Except.ok (st.request_result.fail "Error creating ticket", st), sc1⟩

/-- `BugzillaTicket._create_ticket_parameters`. -/
def create_ticket_parameters (st : BZState)
    (summary description component version : Json)
    (fields : List (String × Json)) : Json :=
  let base : List (String × Json) :=
    [("product", Json.str st.project),
     ("summary", summary),
     ("description", description),
     ("component", component),
     ("version", version)]
  let prepared := prepare_ticket_fields "create" fields
  Json.obj (prepared.foldl (fun acc kv => dictSet acc kv.1 kv.2) base)

/-- `BugzillaTicket.create(summary, description, component, version, **kwargs)`. -/
def create (st : BZState) (summary description component version : Json)
    (fields : List (String × Json)) (sc : Script) : Step BZState :=
  -- required_args is a dict keyed by the argument values: when several
  -- are None they share the None key, whose value is the last listed
  -- missing parameter, so the last missing parameter names the message
  if version.isNull then
    ⟨[], Except.ok
      (st.request_result.fail "version is a necessary parameter for ticket creation", st), sc⟩
  else if component.isNull then
    ⟨[], Except.ok
      (st.request_result.fail "component is a necessary parameter for ticket creation", st), sc⟩
  else if description.isNull then
    ⟨[], Except.ok
      (st.request_result.fail "description is a necessary parameter for ticket creation", st), sc⟩
  else if summary.isNull then
    ⟨[], Except.ok
      (st.request_result.fail "summary is a necessary parameter for ticket creation", st), sc⟩
  else
    create_ticket_request st
      (create_ticket_parameters st summary description component version fields) sc

/-- The shared Bugzilla response filtering after a successful send:
optional no-op `changes` echo, backend-encoded `error` body, else refresh
the content.  `checkBugs` is true for the operations that inspect the
`bugs`/`changes` echo (edit, add_cc, remove_cc). -/
def handleEcho (st : BZState) (req : HttpRequest) (checkBugs : Bool)
    (r : HttpResponse) (sc1 : Script) : Step BZState :=
  match respJson r with
  | Except.error e => ⟨[req], Except.error e, sc1⟩
  | Except.ok j =>
      let noChange : Except PyExc Bool :=
        if checkBugs && j.hasKey "bugs" then do
          let bugs ← j.dictGet "bugs"
          let first ← pyIndex0 bugs
          let changes ← first.dictGet "changes"
          return pyEq changes (Json.obj [])
        else
          Except.ok false
      match noChange with
      | Except.error e => ⟨[req], Except.error e, sc1⟩
      | Except.ok true =>
          -- "No changes made to ticket" is treated as a non-error no-op:
          -- the current request_result is returned unchanged
          ⟨[req], Except.ok (st.request_result, st), sc1⟩
      | Except.ok false =>
          if j.hasKey "error" then
            match j.dictGet "message" with
            | Except.error e => ⟨[req], Except.error e, sc1⟩
            | Except.ok m =>
                ⟨[req], Except.ok (st.request_result.fail (Json.pyStr m), st), sc1⟩
          else
            refreshContent st [req] sc1

/-- `BugzillaTicket.edit(**kwargs)`. -/
def edit (st : BZState) (fields : List (String × Json)) (sc : Script) :
    Step BZState :=
  if !st.ticket_id.truthy then
    ⟨[], Except.ok (st.request_result.fail noTicketIdMsg, st), sc⟩
  else
    let params := Json.obj (prepare_ticket_fields "edit" fields)
    let req : HttpRequest :=
      ⟨"PUT", st.rest_url ++ "/" ++ Json.pyStr st.ticket_id, jsonDumps params⟩
    let (o, sc1) := takeOutcome sc
    match o with
    | HttpOutcome.connError m =>
        ⟨[req], Except.ok (st.request_result.fail m, st), sc1⟩
    | HttpOutcome.resp r =>
        if httpError r.status then
          ⟨[req], Except.ok (st.request_result.fail r.errText, st), sc1⟩
        else
          handleEcho st req true r sc1

/-- `BugzillaTicket.add_comment(comment, **kwargs)`. -/
def add_comment (st : BZState) (comment : Json)
    (fields : List (String × Json)) (sc : Script) : Step BZState :=
  if !st.ticket_id.truthy then
    ⟨[], Except.ok (st.request_result.fail noTicketIdMsg, st), sc⟩
  else
    let params := Json.obj
      (fields.foldl (fun acc kv => dictSet acc kv.1 kv.2) [("comment", comment)])
    let req : HttpRequest :=
      ⟨"POST", st.rest_url ++ "/" ++ Json.pyStr st.ticket_id ++ "/comment",
       jsonDumps params⟩
    let (o, sc1) := takeOutcome sc
    match o with
    | HttpOutcome.connError m =>
        ⟨[req], Except.ok (st.request_result.fail m, st), sc1⟩
    | HttpOutcome.resp r =>
        if httpError r.status then
          ⟨[req], Except.ok (st.request_result.fail r.errText, st), sc1⟩
        else
          handleEcho st req false r sc1

/-- `BugzillaTicket.change_status(status, **kwargs)`: the status value is
sent directly, with no name-to-id indirection. -/
def change_status (st : BZState) (status : Json)
    (fields : List (String × Json)) (sc : Script) : Step BZState :=
  if !st.ticket_id.truthy then
    ⟨[], Except.ok (st.request_result.fail noTicketIdMsg, st), sc⟩
  else
    let params := Json.obj
      (fields.foldl (fun acc kv => dictSet acc kv.1 kv.2) [("status", status)])
    let req : HttpRequest :=
      ⟨"PUT", st.rest_url ++ "/" ++ Json.pyStr st.ticket_id, jsonDumps params⟩
    let (o, sc1) := takeOutcome sc
    match o with
    | HttpOutcome.connError m =>
        ⟨[req], Except.ok (st.request_result.fail m, st), sc1⟩
    | HttpOutcome.resp r =>
        if httpError r.status then
          ⟨[req], Except.ok (st.request_result.fail r.errText, st), sc1⟩
        else
          handleEcho st req false r sc1

/-- `BugzillaTicket.add_cc(user)` / `remove_cc(user)` share everything
but the `add`/`remove` key. -/
def changeCC (st : BZState) (action : String) (user : Json) (sc : Script) :
    Step BZState :=
  if !st.ticket_id.truthy then
    ⟨[], Except.ok (st.request_result.fail noTicketIdMsg, st), sc⟩
  else
    let users := match user with
      | Json.arr xs => Json.arr xs
      | other => Json.arr [other]
    let params := Json.obj [("cc", Json.obj [(action, users)])]
    let req : HttpRequest :=
      ⟨"PUT", st.rest_url ++ "/" ++ Json.pyStr st.ticket_id, jsonDumps params⟩
    let (o, sc1) := takeOutcome sc
    match o with
    | HttpOutcome.connError m =>
        ⟨[req], Except.ok (st.request_result.fail m, st), sc1⟩
    | HttpOutcome.resp r =>
        if httpError r.status then
          ⟨[req], Except.ok (st.request_result.fail r.errText, st), sc1⟩
        else
          handleEcho st req true r sc1

/-- `BugzillaTicket.add_cc(user)`. -/
def add_cc (st : BZState) (user : Json) (sc : Script) : Step BZState :=
  changeCC st "add" user sc

/-- `BugzillaTicket.remove_cc(user)`. -/
def remove_cc (st : BZState) (user : Json) (sc : Script) : Step BZState :=
  changeCC st "remove" user sc

/-- `BugzillaTicket.add_attachment(file_name, data, summary, **kwargs)`;
`fs` is the filesystem collaborator and `mimeGuess` the mimetypes
collaborator (`guess_type(data)[0]`). -/
def add_attachment (st : BZState) (file_name : String) (data : String)
    (summary : Json) (fields : List (String × Json))
    (fs : String → Option String) (mimeGuess : Option String) (sc : Script) :
    Step BZState :=
  if !st.ticket_id.truthy then
    ⟨[], Except.ok (st.request_result.fail noTicketIdMsg, st), sc⟩
  else
    match fs data with
    | none =>
        ⟨[], Except.ok
          (st.request_result.fail ("File " ++ file_name ++ " not found"), st), sc⟩
    | some contents =>
        let content_type := match mimeGuess with
          | some t => if t ≠ "" then t else "application/octet-stream"
          | none => "application/octet-stream"
        let base : List (String × Json) :=
          [("file_name", Json.str file_name),
           ("data", Json.str (base64Encode contents)),
           ("summary", summary),
           ("is_patch", Json.bool false),
           ("content_type", Json.str content_type)]
        let params := Json.obj (fields.foldl (fun acc kv => dictSet acc kv.1 kv.2) base)
        let req : HttpRequest :=
          ⟨"POST", st.rest_url ++ "/" ++ Json.pyStr st.ticket_id ++ "/attachment",
           jsonDumps params⟩
        let (o, sc1) := takeOutcome sc
        match o with
        | HttpOutcome.connError m =>
            ⟨[req], Except.ok (st.request_result.fail m, st), sc1⟩
        | HttpOutcome.resp r =>
            if httpError r.status then
              ⟨[req], Except.ok (st.request_result.fail r.errText, st), sc1⟩
            else
              handleEcho st req false r sc1

/-- The handle state right after `BugzillaTicket.__init__` succeeds with
no `ticket_id` argument. -/
def bzInit (url project : String) : BZState :=
  { url := url
    project := project
    rest_url := url ++ "/rest/bug"
    ticket_id := Json.null
    ticket_url := none
    ticket_content := none
    request_result := ReqResult.init }

/-- `BugzillaTicket.__init__` when a `ticket_id` argument is supplied:
the base class verifies it (one content fetch) and computes the URL.
`none` means construction raised `TicketException`. -/
def initWithId (url project : String) (tid : Json) (sc : Script) :
    Option (BZState × Script) :=
  let st0 := { bzInit url project with ticket_id := tid }
  if !tid.truthy then
    some (st0, sc)
  else
    let g := get_ticket_content st0 tid sc
    match g.out with
    | Except.error _ => none
    | Except.ok (res, st1) =>
        if strIn "Failure" res.status then
          none
        else
          let st2 := { st1 with ticket_id := tid }
          let (turl, st3) := generate_ticket_url st2
          some ({ st3 with ticket_url := turl }, g.rest)

end Bugzilla

/-! ## ServiceNow adapter (`ticketutil/servicenow.py`) -/

namespace ServiceNow

/-- The mutable attributes of a `ServiceNowTicket` handle.  `sys_id`,
`ticket_rest_url` and `ticket_content` are instance attributes that only
exist once a ticket has been verified or created: `none` models the
missing attribute (reading it raises `AttributeError`). -/
structure SNState where
  url : String
  project : String
  rest_url : String          -- url ++ "/api/now/v1/table/" ++ project
  available_states : List (String × Json)   -- label.lower() ↦ state value
  ticket_id : Json
  sys_id : Option Json
  ticket_rest_url : Option String
  ticket_url : Option String
  ticket_content : Option Json
  request_result : ReqResult

/-- `servicenow._prepare_ticket_fields(fields)`: the `u_` renames; each
renamed key is popped in place and its `u_` form appended. -/
def prepare_ticket_fields (fields : List (String × Json)) :
    List (String × Json) :=
  let renames := fun (k : String) =>
    if k = "opened_for" || k = "operating_system" || k = "category" ||
       k = "item" || k = "severity" || k = "hostname_affected" ||
       k = "opened_by_dept" then
      some ("u_" ++ k)
    else if k = "topic" then
      some "u_topic_reportable"
    else if k = "email_from" then
      some "u_email_from_address"
    else
      none
  let kept := fields.filter (fun kv => (renames kv.1).isNone)
  let moved := fields.filterMap (fun kv =>
    match renames kv.1 with
    | some k' => some (k', kv.2)
    | none => none)
  kept ++ moved

/-- `ServiceNowTicket._create_ticket_parameters(fields)`: the JSON-like
payload string is built by hand; `params[1:]` strips the leading comma but
keeps the following space. -/
def create_ticket_parameters (fields : List (String × Json)) : String :=
  let fields := prepare_ticket_fields fields
  let params := fields.foldl
    (fun acc kv => acc ++ ", " ++ jsonDumps (Json.str kv.1) ++ " : " ++ jsonDumps kv.2) ""
  "\x7b" ++ (⟨params.data.drop 1⟩ : String) ++ "\x7d"

/-- `ServiceNowTicket.get_ticket_content(ticket_id=None)`: unlike the
other adapters it does not cache the fetched content on the handle. -/
def get_ticket_content (st : SNState) (arg : Json) (sc : Script) :
    Step SNState :=
  match arg, st.ticket_id.truthy with
  | Json.null, false =>
      ⟨[], Except.ok (st.request_result.fail noTicketIdMsg, st), sc⟩
  | arg, _ =>
      let tid := match arg with | Json.null => st.ticket_id | a => a
      let req : HttpRequest :=
        ⟨"GET", st.rest_url ++ "?sysparm_query=GOTOnumber%3D" ++ Json.pyStr tid, ""⟩
      let (o, sc1) := takeOutcome sc
      match o with
      | HttpOutcome.connError _ =>
          ⟨[req], Except.ok
            (st.request_result.fail "Error getting ticket content", st), sc1⟩
      | HttpOutcome.resp r =>
          if httpError r.status then
            ⟨[req], Except.ok
              (st.request_result.fail "Error getting ticket content", st), sc1⟩
          else
            ⟨[req],
             (do
               let j ← respJson r
               let res ← j.dictGet "result"
               let first ← pyIndex0 res
               return ({ st.request_result with ticket_content := some first }, st)),
             sc1⟩

/-- `ServiceNowTicket._verify_ticket_id(ticket_id)` (the ServiceNow
override): on success it also caches the content and derives `sys_id` and
`ticket_rest_url`. -/
def verify_ticket_id (st : SNState) (tid : Json) (sc : Script) :
    List HttpRequest × Except PyExc (Bool × SNState) × Script :=
  let g := get_ticket_content st tid sc
  match g.out with
  | Except.error e => (g.reqs, Except.error e, g.rest)
  | Except.ok (res, st1) =>
      if strIn "Failure" res.status then
        (g.reqs, Except.ok (false, st1), g.rest)
      else
        match res.ticket_content with
        | none => (g.reqs, Except.error PyExc.attributeError, g.rest)
        | some content =>
            match content.dictGet "sys_id" with
            | Except.error e => (g.reqs, Except.error e, g.rest)
            | Except.ok sid =>
                match sid with
                | Json.str s =>
                    (g.reqs, Except.ok (true,
                      { st1 with ticket_id := tid,
                                 ticket_content := some content,
                                 sys_id := some sid,
                                 ticket_rest_url := some (st1.rest_url ++ "/" ++ s) }),
                     g.rest)
                | _ =>
                    -- self.rest_url + '/' + self.sys_id on a non-str
                    (g.reqs, Except.error PyExc.typeError, g.rest)

/-- `ServiceNowTicket._generate_ticket_url`: reads `sys_id` and performs
a content fetch to refresh `request_result`. -/
def generate_ticket_url (st : SNState) (sc : Script) :
    List HttpRequest × Except PyExc (Option String × SNState) × Script :=
  match st.sys_id with
  | none => ([], Except.error PyExc.attributeError, sc)
  | some sid =>
      let turl :=
        if sid.truthy then
          some (st.url ++ "/" ++ st.project ++ ".do?sys_id=" ++ Json.pyStr sid)
        else
          none
      let g := get_ticket_content st Json.null sc
      match g.out with
      | Except.error e => (g.reqs, Except.error e, g.rest)
      | Except.ok (content, st1) =>
          (g.reqs, Except.ok (turl,
            { st1 with request_result :=
              { st1.request_result with url := turl,
                                        ticket_content := content.ticket_content } }),
           g.rest)

/-- `Ticket.set_ticket_id` as inherited by `ServiceNowTicket`. -/
def set_ticket_id (st : SNState) (tid : Json) (sc : Script) : Step SNState :=
  let (reqs, v, sc1) := verify_ticket_id st tid sc
  match v with
  | Except.error e => ⟨reqs, Except.error e, sc1⟩
  | Except.ok (false, st1) =>
      ⟨reqs, Except.ok (st1.request_result.fail "Ticket ID not valid", st1), sc1⟩
  | Except.ok (true, st1) =>
      let st2 := { st1 with ticket_id := tid }
      let (reqs2, g, sc2) := generate_ticket_url st2 sc1
      match g with
      | Except.error e => ⟨reqs ++ reqs2, Except.error e, sc2⟩
      | Except.ok (turl, st3) =>
          let st4 := { st3 with ticket_url := turl }
          ⟨reqs ++ reqs2, Except.ok (st4.request_result, st4), sc2⟩

/-- `ServiceNowTicket._create_ticket_request(params)`. -/
def create_ticket_request (st : SNState) (params : String) (sc : Script) :
    Step SNState :=
  let req : HttpRequest := ⟨"POST", st.rest_url, params⟩
  let (o, sc1) := takeOutcome sc
  match o with
  | HttpOutcome.connError m =>
      ⟨[req], Except.ok (st.request_result.fail m, st), sc1⟩
  | HttpOutcome.resp r =>
      if httpError r.status then
        ⟨[req], Except.ok (st.request_result.fail r.errText, st), sc1⟩
      else
        match (do
          let j ← respJson r
          let content ← j.dictGet "result"
          let number ← content.dictGet "number"
          let sid ← content.dictGet "sys_id"
          return (content, number, sid) : Except PyExc (Json × Json × Json)) with
        | Except.error e => ⟨[req], Except.error e, sc1⟩
        | Except.ok (content, number, sid) =>
            let st1 := { st with ticket_content := some content,
                                 ticket_id := number, sys_id := some sid }
            let (reqs2, g, sc2) := generate_ticket_url st1 sc1
            match g with
            | Except.error e => ⟨req :: reqs2, Except.error e, sc2⟩
            | Except.ok (turl, st2) =>
                match sid with
                | Json.str s =>
                    let st3 := { st2 with ticket_url := turl,
                                          ticket_rest_url := some (st2.rest_url ++ "/" ++ s) }
                    let finalRes :=
                      { st3.request_result with ticket_content := st3.ticket_content }
                    ⟨req :: reqs2, Except.ok (finalRes,
                      { st3 with request_result := finalRes }), sc2⟩
                | _ =>
                    -- self.rest_url + '/' + self.sys_id on a non-str
                    ⟨req :: reqs2, Except.error PyExc.typeError, sc2⟩

/-- `ServiceNowTicket.create(short_description, description, category, item, **kwargs)`. -/
def create (st : SNState) (short_description description category item : Json)
    (fields : List (String × Json)) (sc : Script) : Step SNState :=
  -- sequential `if ... is None` assignments: the last missing parameter
  -- (item) wins
  if item.isNull then
    ⟨[], Except.ok
      (st.request_result.fail "item is a necessary parameter for ticket creation", st), sc⟩
  else if category.isNull then
    ⟨[], Except.ok
      (st.request_result.fail "category is a necessary parameter for ticket creation", st), sc⟩
  else if short_description.isNull then
    ⟨[], Except.ok
      (st.request_result.fail "short_description is a necessary parameter for ticket creation", st), sc⟩
  else if description.isNull then
    ⟨[], Except.ok
      (st.request_result.fail "description is a necessary parameter for ticket creation", st), sc⟩
  else
    let st := { st with ticket_content := some Json.null }
    -- kwargs.update(fields): the four fixed fields override/extend kwargs
    let merged := [("description", description),
                   ("short_description", short_description),
                   ("u_category", category),
                   ("u_item", item)].foldl
      (fun acc kv => dictSet acc kv.1 kv.2) fields
    create_ticket_request st (create_ticket_parameters merged) sc

/-- The common PUT tail of edit/add_comment/change_status/CC operations:
send to `ticket_rest_url`, convert transport failures, store the echoed
`result` as the new content. -/
def putAndStore (st : SNState) (params : String) (sc : Script) : Step SNState :=
  match st.ticket_rest_url with
  | none => ⟨[], Except.error PyExc.attributeError, sc⟩
  | some turl =>
      let req : HttpRequest := ⟨"PUT", turl, params⟩
      let (o, sc1) := takeOutcome sc
      match o with
      | HttpOutcome.connError m =>
          ⟨[req], Except.ok (st.request_result.fail m, st), sc1⟩
      | HttpOutcome.resp r =>
          if httpError r.status then
            ⟨[req], Except.ok (st.request_result.fail r.errText, st), sc1⟩
          else
            ⟨[req],
             (do
               let j ← respJson r
               let content ← j.dictGet "result"
               let res := { st.request_result with ticket_content := some content }
               return (res, { st with ticket_content := some content,
                                      request_result := res })),
             sc1⟩

/-- `ServiceNowTicket.edit(**kwargs)`. -/
def edit (st : SNState) (fields : List (String × Json)) (sc : Script) :
    Step SNState :=
  if !st.ticket_id.truthy then
    ⟨[], Except.ok (st.request_result.fail noTicketIdMsg, st), sc⟩
  else
    putAndStore st (create_ticket_parameters fields) sc

/-- `ServiceNowTicket.add_comment(comment)`. -/
def add_comment (st : SNState) (comment : Json) (sc : Script) : Step SNState :=
  if !st.ticket_id.truthy then
    ⟨[], Except.ok (st.request_result.fail noTicketIdMsg, st), sc⟩
  else
    putAndStore st (create_ticket_parameters [("comments", comment)]) sc

/-- `ServiceNowTicket.change_status(status)`: resolution goes through the
`available_states` table cached at construction; a missing label raises
`KeyError`, caught and rendered as `'Invalid state ' + str(e)` (the `str`
of a `KeyError` is the `repr` of the missing key). -/
def change_status (st : SNState) (status : Json) (sc : Script) : Step SNState :=
  if !st.ticket_id.truthy then
    ⟨[], Except.ok (st.request_result.fail noTicketIdMsg, st), sc⟩
  else
    match status with
    | Json.str s =>
        let low := pyLower s
        match Json.lookup st.available_states low with
        | none =>
            ⟨[], Except.ok
              (st.request_result.fail
                ("Invalid state " ++ "\x27" ++ low ++ "\x27"), st), sc⟩
        | some v =>
            putAndStore st (create_ticket_parameters [("state", v)]) sc
    | _ => ⟨[], Except.error PyExc.attributeError, sc⟩   -- status.lower() on a non-str

/-- The watch-list mutators share the read-modify-write skeleton: read the
cached `watch_list` string, rebuild it, submit the whole value. -/
def readWatchList (st : SNState) : Except PyExc (List Json) := do
  match st.ticket_content with
  | none => Except.error PyExc.attributeError
  | some content => do
      let wl ← content.dictGet "watch_list"
      match wl with
      | Json.str s =>
          -- watch_list.split(',') then [item.strip() for item in watch_list]
          return (strSplit ',' s).map (fun x => Json.str (strStrip x))
      | _ => Except.error PyExc.attributeError   -- .split on a non-str

/-- Python `item in xs` over embedded values. -/
def pyMem (item : Json) (xs : List Json) : Bool :=
  xs.any (fun x => pyEq x item)

/-- `ServiceNowTicket.add_cc(user)`. -/
def add_cc (st : SNState) (user : Json) (sc : Script) : Step SNState :=
  if !st.ticket_id.truthy then
    ⟨[], Except.ok (st.request_result.fail noTicketIdMsg, st), sc⟩
  else
    match readWatchList st with
    | Except.error e => ⟨[], Except.error e, sc⟩
    | Except.ok watch_list =>
        let users := match user with
          | Json.str s => [Json.str s]
          | Json.arr xs => xs
          | other => [other]   -- iterating a non-list scalar would raise;
                               -- the adapters only pass strings or lists
        let newList := users.foldl
          (fun acc item => if pyMem item acc then acc else acc ++ [item]) watch_list
        match joinStrs ", " newList with
        | Except.error e => ⟨[], Except.error e, sc⟩
        | Except.ok joined =>
            putAndStore st
              (create_ticket_parameters [("watch_list", Json.str joined)]) sc

/-- `ServiceNowTicket.rewrite_cc(user)`. -/
def rewrite_cc (st : SNState) (user : Json) (sc : Script) : Step SNState :=
  if !st.ticket_id.truthy then
    ⟨[], Except.ok (st.request_result.fail noTicketIdMsg, st), sc⟩
  else
    let users := match user with
      | Json.str s => [Json.str s]
      | Json.arr xs => xs
      | other => [other]
    match joinStrs ", " users with
    | Except.error e => ⟨[], Except.error e, sc⟩
    | Except.ok joined =>
        putAndStore st
          (create_ticket_parameters [("watch_list", Json.str joined)]) sc

/-- Python `xs.remove(item)` (first occurrence; the adapter guards with
`in` first, so the not-found `ValueError` is unreachable). -/
def pyRemove (item : Json) : List Json → List Json
  | [] => []
  | x :: xs => if pyEq x item then xs else x :: pyRemove item xs

/-- `ServiceNowTicket.remove_cc(user)`. -/
def remove_cc (st : SNState) (user : Json) (sc : Script) : Step SNState :=
  if !st.ticket_id.truthy then
    ⟨[], Except.ok (st.request_result.fail noTicketIdMsg, st), sc⟩
  else
    match readWatchList st with
    | Except.error e => ⟨[], Except.error e, sc⟩
    | Except.ok watch_list =>
        let users := match user with
          | Json.str s => [Json.str s]
          | Json.arr xs => xs
          | other => [other]
        let newList := users.foldl
          (fun acc item => if pyMem item acc then pyRemove item acc else acc) watch_list
        match joinStrs ", " newList with
        | Except.error e => ⟨[], Except.error e, sc⟩
        | Except.ok joined =>
            putAndStore st
              (create_ticket_parameters [("watch_list", Json.str joined)]) sc

/-- `ServiceNowTicket.add_attachment(file_name, name=None)`. -/
def add_attachment (st : SNState) (file_name : String) (name : Option String)
    (fs : String → Option String) (sc : Script) : Step SNState :=
  if !st.ticket_id.truthy then
    ⟨[], Except.ok (st.request_result.fail noTicketIdMsg, st), sc⟩
  else
    let name := match name with
      | some n => if n ≠ "" then n else file_name
      | none => file_name
    match st.sys_id with
    | none => ⟨[], Except.error PyExc.attributeError, sc⟩
    | some sid =>
        let url := st.url ++ "/api/now/attachment/file?table_name=" ++ st.project ++
          "&table_sys_id=" ++ Json.pyStr sid ++ "&file_name=" ++ name
        match fs file_name with
        | none =>
            ⟨[], Except.ok
              (st.request_result.fail ("File " ++ file_name ++ " not found"), st), sc⟩
        | some contents =>
            let req : HttpRequest := ⟨"POST", url, contents⟩
            let (o, sc1) := takeOutcome sc
            match o with
            | HttpOutcome.connError m =>
                ⟨[req], Except.ok (st.request_result.fail m, st), sc1⟩
            | HttpOutcome.resp r =>
                if httpError r.status then
                  ⟨[req], Except.ok (st.request_result.fail r.errText, st), sc1⟩
                else
                  ⟨[req], Except.ok (st.request_result, st), sc1⟩

end ServiceNow

/-! ## Redmine adapter (`ticketutil/redmine.py`) -/

namespace Redmine

/-- The mutable attributes of a `RedmineTicket` handle. -/
structure RMState where
  url : String
  project : String
  rest_url : String          -- `url ++ "/issues"`, set in `__init__`
  ticket_id : Json
  ticket_url : Option String
  ticket_content : Option Json
  request_result : ReqResult

/-- `RedmineTicket._generate_ticket_url`. -/
def generate_ticket_url (st : RMState) : Option String × RMState :=
  let turl :=
    if st.ticket_id.truthy then
      some (st.rest_url ++ "/" ++ Json.pyStr st.ticket_id)
    else
      none
  (turl, { st with request_result := { st.request_result with url := turl } })

/-- `RedmineTicket.get_ticket_content(ticket_id=None)`. -/
def get_ticket_content (st : RMState) (arg : Json) (sc : Script) :
    Step RMState :=
  match arg, st.ticket_id.truthy with
  | Json.null, false =>
      ⟨[], Except.ok (st.request_result.fail noTicketIdMsg, st), sc⟩
  | arg, _ =>
      let tid := match arg with | Json.null => st.ticket_id | a => a
      let req : HttpRequest :=
        ⟨"GET", st.rest_url ++ "/" ++ Json.pyStr tid ++
          ".json?include=attachments,journals,watchers,children,relations,changesets", ""⟩
      let (o, sc1) := takeOutcome sc
      match o with
      | HttpOutcome.connError _ =>
          ⟨[req], Except.ok
            (st.request_result.fail "Error getting ticket content", st), sc1⟩
      | HttpOutcome.resp r =>
          if httpError r.status then
            ⟨[req], Except.ok
              (st.request_result.fail "Error getting ticket content", st), sc1⟩
          else
            match respJson r with
            | Except.error e => ⟨[req], Except.error e, sc1⟩
            | Except.ok j =>
                ⟨[req], Except.ok
                  ({ st.request_result with ticket_content := some j },
                   { st with ticket_content := some j }), sc1⟩

/-- `Ticket._verify_ticket_id` + `Ticket.set_ticket_id` as inherited by
`RedmineTicket`. -/
def set_ticket_id (st : RMState) (tid : Json) (sc : Script) : Step RMState :=
  let g := get_ticket_content st tid sc
  match g.out with
  | Except.error e => ⟨g.reqs, Except.error e, g.rest⟩
  | Except.ok (res, st1) =>
      if strIn "Failure" res.status then
        ⟨g.reqs, Except.ok (st1.request_result.fail "Ticket ID not valid", st1), g.rest⟩
      else
        let st2 := { st1 with ticket_id := tid }
        let (turl, st3) := generate_ticket_url st2
        let st4 := { st3 with ticket_url := turl }
        ⟨g.reqs, Except.ok (st4.request_result, st4), g.rest⟩

/-- `self.request_result = self.get_ticket_content()` success tail. -/
def refreshContent (st : RMState) (reqs : List HttpRequest) (sc : Script) :
    Step RMState :=
  let g := get_ticket_content st Json.null sc
  match g.out with
  | Except.error e => ⟨reqs ++ g.reqs, Except.error e, g.rest⟩
  | Except.ok (res, st') =>
      ⟨reqs ++ g.reqs, Except.ok (res, { st' with request_result := res }), g.rest⟩

/-- Scan of a decoded name/id listing shared by the three Redmine lookup
helpers: first entry whose `nameKey` equals the wanted name yields its
`id`. -/
def findByName (xs : List Json) (nameKey : String) (wanted : Json) :
    Except PyExc (Option Json) :=
  match xs with
  | [] => Except.ok none
  | x :: rest => do
      let nm ← x.dictGet nameKey
      if pyEq nm wanted then
        let i ← x.dictGet "id"
        return some i
      else
        findByName rest nameKey wanted

/-- `RedmineTicket._get_status_id(status_name)`: one read-only lookup of
the global status list. -/
def get_status_id (st : RMState) (statusName : Json) (sc : Script) :
    List HttpRequest × Except PyExc (Option Json) × Script :=
  let req : HttpRequest := ⟨"GET", st.url ++ "/issue_statuses.json", ""⟩
  let (o, sc1) := takeOutcome sc
  match o with
  | HttpOutcome.connError _ => ([req], Except.ok none, sc1)
  | HttpOutcome.resp r =>
      if httpError r.status then
        ([req], Except.ok none, sc1)
      else
        ([req],
         (do
           let j ← respJson r
           let ss ← j.dictGet "issue_statuses"
           match ss with
           | Json.arr xs => findByName xs "name" statusName
           | _ => Except.error PyExc.typeError),
         sc1)

/-- `RedmineTicket._get_priority_id(priority_name)`. -/
def get_priority_id (st : RMState) (priorityName : Json) (sc : Script) :
    List HttpRequest × Except PyExc (Option Json) × Script :=
  let req : HttpRequest := ⟨"GET", st.url ++ "/enumerations/issue_priorities.json", ""⟩
  let (o, sc1) := takeOutcome sc
  match o with
  | HttpOutcome.connError _ => ([req], Except.ok none, sc1)
  | HttpOutcome.resp r =>
      if httpError r.status then
        ([req], Except.ok none, sc1)
      else
        ([req],
         (do
           let j ← respJson r
           let ps ← j.dictGet "issue_priorities"
           match ps with
           | Json.arr xs => findByName xs "name" priorityName
           | _ => Except.error PyExc.typeError),
         sc1)

/-- `RedmineTicket._get_user_id(user_name)`: the `@` local-part
extraction happens after the fetch in this helper. -/
def get_user_id (st : RMState) (userName : Json) (sc : Script) :
    List HttpRequest × Except PyExc (Option Json) × Script :=
  let req : HttpRequest := ⟨"GET", st.url ++ "/users.json", ""⟩
  let (o, sc1) := takeOutcome sc
  match o with
  | HttpOutcome.connError _ => ([req], Except.ok none, sc1)
  | HttpOutcome.resp r =>
      if httpError r.status then
        ([req], Except.ok none, sc1)
      else
        ([req],
         (do
           let wanted ← match userName with
             | Json.str w =>
                 Except.ok (Json.str
                   (if strIn "@" w then strStrip ((strSplit '@' w).headD "") else w))
             | _ => Except.error PyExc.typeError   -- '@' in a non-str
           let j ← respJson r
           let us ← j.dictGet "users"
           match us with
           | Json.arr xs => findByName xs "login" wanted
           | _ => Except.error PyExc.typeError),
         sc1)

/-- `RedmineTicket._prepare_ticket_fields(fields)`: the priority and
assignee renames perform read-only lookups; renamed keys are appended
after the kept keys. -/
def prepare_ticket_fields (st : RMState) (fields : List (String × Json))
    (sc : Script) :
    List HttpRequest × Except PyExc (List (String × Json)) × Script :=
  go fields [] [] sc
where
  go : List (String × Json) → List (String × Json) → List HttpRequest →
      Script → List HttpRequest × Except PyExc (List (String × Json)) × Script
  | [], acc, reqs, sc => (reqs, Except.ok acc, sc)
  | (k, v) :: rest, acc, reqs, sc =>
      if k = "priority" then
        let (r1, p?, sc1) := get_priority_id st v sc
        match p? with
        | Except.error e => (reqs ++ r1, Except.error e, sc1)
        | Except.ok p =>
            go rest (acc ++ [("priority_id", p.getD Json.null)]) (reqs ++ r1) sc1
      else if k = "assignee" then
        let (r1, u?, sc1) := get_user_id st v sc
        match u? with
        | Except.error e => (reqs ++ r1, Except.error e, sc1)
        | Except.ok u =>
            go rest (acc ++ [("assigned_to_id", u.getD Json.null)]) (reqs ++ r1) sc1
      else if k = "estimated_time" then
        go rest (acc ++ [("total_estimated_hours", v)]) reqs sc
      else
        go rest (acc ++ [(k, v)]) reqs sc

/-- `RedmineTicket.edit(**kwargs)`. -/
def edit (st : RMState) (fields : List (String × Json)) (sc : Script) :
    Step RMState :=
  if !st.ticket_id.truthy then
    ⟨[], Except.ok (st.request_result.fail noTicketIdMsg, st), sc⟩
  else
    let (lreqs, fs?, sc1) := prepare_ticket_fields st fields sc
    match fs? with
    | Except.error e => ⟨lreqs, Except.error e, sc1⟩
    | Except.ok prepared =>
        let params := Json.obj [("issue", Json.obj prepared)]
        let req : HttpRequest :=
          ⟨"PUT", st.rest_url ++ "/" ++ Json.pyStr st.ticket_id ++ ".json",
           jsonDumps params⟩
        let (o, sc2) := takeOutcome sc1
        match o with
        | HttpOutcome.connError m =>
            ⟨lreqs ++ [req], Except.ok (st.request_result.fail m, st), sc2⟩
        | HttpOutcome.resp r =>
            if httpError r.status then
              ⟨lreqs ++ [req], Except.ok (st.request_result.fail r.errText, st), sc2⟩
            else
              refreshContent st (lreqs ++ [req]) sc2

/-- `RedmineTicket.add_comment(comment)`. -/
def add_comment (st : RMState) (comment : Json) (sc : Script) : Step RMState :=
  if !st.ticket_id.truthy then
    ⟨[], Except.ok (st.request_result.fail noTicketIdMsg, st), sc⟩
  else
    let params := Json.obj [("issue", Json.obj [("notes", comment)])]
    let req : HttpRequest :=
      ⟨"PUT", st.rest_url ++ "/" ++ Json.pyStr st.ticket_id ++ ".json",
       jsonDumps params⟩
    let (o, sc1) := takeOutcome sc
    match o with
    | HttpOutcome.connError m =>
        ⟨[req], Except.ok (st.request_result.fail m, st), sc1⟩
    | HttpOutcome.resp r =>
        if httpError r.status then
          ⟨[req], Except.ok (st.request_result.fail r.errText, st), sc1⟩
        else
          refreshContent st [req] sc1

/-- `RedmineTicket.change_status(status)`. -/
def change_status (st : RMState) (status : Json) (sc : Script) : Step RMState :=
  if !st.ticket_id.truthy then
    ⟨[], Except.ok (st.request_result.fail noTicketIdMsg, st), sc⟩
  else
    let (lreqs, sid?, sc1) := get_status_id st status sc
    match sid? with
    | Except.error e => ⟨lreqs, Except.error e, sc1⟩
    | Except.ok sid =>
        if !(match sid with | some v => v.truthy | none => false) then
          ⟨lreqs, Except.ok
            (st.request_result.fail ("Not a valid status: " ++ Json.pyStr status), st), sc1⟩
        else
          let sidVal := match sid with | some v => v | none => Json.null
          let params := Json.obj [("issue", Json.obj [("status_id", sidVal)])]
          let req : HttpRequest :=
            ⟨"PUT", st.rest_url ++ "/" ++ Json.pyStr st.ticket_id ++ ".json",
             jsonDumps params⟩
          let (o, sc2) := takeOutcome sc1
          match o with
          | HttpOutcome.connError m =>
              ⟨lreqs ++ [req], Except.ok (st.request_result.fail m, st), sc2⟩
          | HttpOutcome.resp r =>
              if httpError r.status then
                ⟨lreqs ++ [req], Except.ok (st.request_result.fail r.errText, st), sc2⟩
              else
                refreshContent st (lreqs ++ [req]) sc2

/-- `RedmineTicket.add_watcher(watcher)`. -/
def add_watcher (st : RMState) (watcher : Json) (sc : Script) : Step RMState :=
  if !st.ticket_id.truthy then
    ⟨[], Except.ok (st.request_result.fail noTicketIdMsg, st), sc⟩
  else
    match watcher with
    | Json.str w =>
        let w := if strIn "@" w then strStrip ((strSplit '@' w).headD "") else w
        let (lreqs, u?, sc1) := get_user_id st (Json.str w) sc
        match u? with
        | Except.error e => ⟨lreqs, Except.error e, sc1⟩
        | Except.ok u =>
            if (match u with | some v => v.truthy | none => false) then
              let uid := match u with | some v => v | none => Json.null
              let params := Json.obj [("user_id", uid)]
              let req : HttpRequest :=
                ⟨"POST", st.rest_url ++ "/" ++ Json.pyStr st.ticket_id ++ "/watchers.json",
                 jsonDumps params⟩
              let (o, sc2) := takeOutcome sc1
              match o with
              | HttpOutcome.connError m =>
                  ⟨lreqs ++ [req], Except.ok (st.request_result.fail m, st), sc2⟩
              | HttpOutcome.resp r =>
                  if httpError r.status then
                    ⟨lreqs ++ [req], Except.ok (st.request_result.fail r.errText, st), sc2⟩
                  else
                    refreshContent st (lreqs ++ [req]) sc2
            else
              ⟨lreqs, Except.ok (st.request_result.fail
                ("Error adding " ++ w ++ " as a watcher to ticket"), st), sc1⟩
    | _ => ⟨[], Except.error PyExc.typeError, sc⟩   -- '@' in watcher on a non-str

/-- `RedmineTicket.remove_watcher(watcher)`. -/
def remove_watcher (st : RMState) (watcher : Json) (sc : Script) : Step RMState :=
  if !st.ticket_id.truthy then
    ⟨[], Except.ok (st.request_result.fail noTicketIdMsg, st), sc⟩
  else
    match watcher with
    | Json.str w =>
        let w := if strIn "@" w then strStrip ((strSplit '@' w).headD "") else w
        let (lreqs, u?, sc1) := get_user_id st (Json.str w) sc
        match u? with
        | Except.error e => ⟨lreqs, Except.error e, sc1⟩
        | Except.ok u =>
            -- the id (possibly None) is formatted straight into the URL
            let uidStr := match u with | some v => Json.pyStr v | none => "None"
            let req : HttpRequest :=
              ⟨"DELETE",
               st.rest_url ++ "/" ++ Json.pyStr st.ticket_id ++ "/watchers/" ++
                 uidStr ++ ".json", ""⟩
            let (o, sc2) := takeOutcome sc1
            match o with
            | HttpOutcome.connError m =>
                ⟨lreqs ++ [req], Except.ok (st.request_result.fail m, st), sc2⟩
            | HttpOutcome.resp r =>
                if httpError r.status then
                  ⟨lreqs ++ [req], Except.ok (st.request_result.fail r.errText, st), sc2⟩
                else
                  refreshContent st (lreqs ++ [req]) sc2
    | _ => ⟨[], Except.error PyExc.typeError, sc⟩

/-- `RedmineTicket._upload_file(file_name)`. -/
def upload_file (st : RMState) (file_name : String)
    (fs : String → Option String) (sc : Script) :
    List HttpRequest × Except PyExc (Option Json) × Script :=
  match fs file_name with
  | none => ([], Except.ok none, sc)
  | some contents =>
      let req : HttpRequest := ⟨"POST", st.url ++ "/uploads.json", contents⟩
      let (o, sc1) := takeOutcome sc
      match o with
      | HttpOutcome.connError _ => ([req], Except.ok none, sc1)
      | HttpOutcome.resp r =>
          if httpError r.status then
            ([req], Except.ok none, sc1)
          else
            ([req],
             (do
               let j ← respJson r
               let up ← j.dictGet "upload"
               let tok ← up.dictGet "token"
               return some tok),
             sc1)

/-- `RedmineTicket.add_attachment(file_name)`. -/
def add_attachment (st : RMState) (file_name : String)
    (fs : String → Option String) (sc : Script) : Step RMState :=
  if !st.ticket_id.truthy then
    ⟨[], Except.ok (st.request_result.fail noTicketIdMsg, st), sc⟩
  else
    let (lreqs, tok?, sc1) := upload_file st file_name fs sc
    match tok? with
    | Except.error e => ⟨lreqs, Except.error e, sc1⟩
    | Except.ok tok =>
        if (match tok with | some v => v.truthy | none => false) then
          let tokVal := match tok with | some v => v | none => Json.null
          let params := Json.obj [("issue", Json.obj
            [("uploads", Json.arr [Json.obj
              [("token", tokVal), ("filename", Json.str file_name)]])])]
          let req : HttpRequest :=
            ⟨"PUT", st.rest_url ++ "/" ++ Json.pyStr st.ticket_id ++ ".json",
             jsonDumps params⟩
          let (o, sc2) := takeOutcome sc1
          match o with
          | HttpOutcome.connError m =>
              ⟨lreqs ++ [req], Except.ok (st.request_result.fail m, st), sc2⟩
          | HttpOutcome.resp r =>
              if httpError r.status then
                ⟨lreqs ++ [req], Except.ok (st.request_result.fail r.errText, st), sc2⟩
              else
                refreshContent st (lreqs ++ [req]) sc2
        else
          ⟨lreqs, Except.ok (st.request_result.fail
            ("Error attaching file " ++ file_name), st), sc1⟩

/-- `RedmineTicket._get_project_id`. -/
def get_project_id (st : RMState) (sc : Script) :
    List HttpRequest × Except PyExc (Option Json) × Script :=
  let req : HttpRequest := ⟨"GET", st.url ++ "/projects/" ++ st.project ++ ".json", ""⟩
  let (o, sc1) := takeOutcome sc
  match o with
  | HttpOutcome.connError _ => ([req], Except.ok none, sc1)
  | HttpOutcome.resp r =>
      if httpError r.status then
        ([req], Except.ok none, sc1)
      else
        ([req],
         (do
           let j ← respJson r
           let p ← j.dictGet "project"
           let i ← p.dictGet "id"
           return some i),
         sc1)

/-- The identity-binding tail: store the extracted id, regenerate and
store the URL. -/
def bindTicket (st : RMState) (idv : Json) : RMState :=
  let st1 := { st with ticket_id := idv }
  let (turl, st2) := generate_ticket_url st1
  { st2 with ticket_url := turl }

/-- `RedmineTicket._create_ticket_request(params)`. -/
def create_ticket_request (st : RMState) (params : Json) (sc : Script) :
    Step RMState :=
  let req : HttpRequest := ⟨"POST", st.rest_url ++ ".json", jsonDumps params⟩
  let (o, sc1) := takeOutcome sc
  match o with
  | HttpOutcome.connError m =>
      ⟨[req], Except.ok (st.request_result.fail m, st), sc1⟩
  | HttpOutcome.resp r =>
      if httpError r.status then
        ⟨[req], Except.ok (st.request_result.fail r.errText, st), sc1⟩
      else
        match respJson r with
        | Except.error e => ⟨[req], Except.error e, sc1⟩
        | Except.ok j =>
            match j.dictGet "issue" with
            | Except.error e => ⟨[req], Except.error e, sc1⟩
            | Except.ok issue =>
                match issue.dictGet "id" with
                | Except.error e => ⟨[req], Except.error e, sc1⟩
                | Except.ok idv =>
                    refreshContent (bindTicket st idv) [req] sc1

/-- `RedmineTicket.create(subject, description, **kwargs)` (the later
missing-parameter message wins). -/
def create (st : RMState) (subject description : Json)
    (fields : List (String × Json)) (sc : Script) : Step RMState :=
  if description.isNull then
    ⟨[], Except.ok
      (st.request_result.fail "description is a necessary parameter for ticket creation", st), sc⟩
  else if subject.isNull then
    ⟨[], Except.ok
      (st.request_result.fail "subject is a necessary parameter for ticket creation", st), sc⟩
  else
    let (preqs, pid?, sc1) := get_project_id st sc
    match pid? with
    | Except.error e => ⟨preqs, Except.error e, sc1⟩
    | Except.ok pid =>
        let (freqs, fs?, sc2) := prepare_ticket_fields st fields sc1
        match fs? with
        | Except.error e => ⟨preqs ++ freqs, Except.error e, sc2⟩
        | Except.ok prepared =>
            let base : List (String × Json) :=
              [("project_id", pid.getD Json.null),
               ("subject", subject),
               ("description", description)]
            let merged := prepared.foldl (fun acc kv => dictSet acc kv.1 kv.2) base
            let params := Json.obj [("issue", Json.obj merged)]
            let g := create_ticket_request st params sc2
            ⟨preqs ++ freqs ++ g.reqs, g.out, g.rest⟩

/-- The handle state right after `RedmineTicket.__init__` succeeds with
no `ticket_id` argument. -/
def rmInit (url project : String) : RMState :=
  { url := url
    project := project
    rest_url := url ++ "/issues"
    ticket_id := Json.null
    ticket_url := none
    ticket_content := none
    request_result := ReqResult.init }

/-- `RedmineTicket.__init__` when a `ticket_id` argument is supplied:
the base class verifies it (one content fetch) and computes the URL.
`none` means construction raised `TicketException`. -/
def initWithId (url project : String) (tid : Json) (sc : Script) :
    Option (RMState × Script) :=
  let st0 := { rmInit url project with ticket_id := tid }
  if !tid.truthy then
    some (st0, sc)
  else
    let g := get_ticket_content st0 tid sc
    match g.out with
    | Except.error _ => none
    | Except.ok (res, st1) =>
        if strIn "Failure" res.status then
          none
        else
          let st2 := { st1 with ticket_id := tid }
          let (turl, st3) := generate_ticket_url st2
          some ({ st3 with ticket_url := turl }, g.rest)

end Redmine

/-! ## Frame lemmas

The non-binding Jira operations can only touch the cached content and the
stored last result; the ticket identity and URL are frozen.  These lemmas
feed the identity/URL invariant. -/

/-- States that differ at most in cached content and stored last result. -/
def Jira.contentOnly (st st' : Jira.JiraState) : Prop :=
  ∃ tc rr, st' = { st with ticket_content := tc, request_result := rr }

theorem Jira.contentOnly_refl (st : Jira.JiraState) : Jira.contentOnly st st :=
  ⟨st.ticket_content, st.request_result, rfl⟩

theorem Jira.contentOnly_trans {st st' st'' : Jira.JiraState}
    (h1 : Jira.contentOnly st st') (h2 : Jira.contentOnly st' st'') :
    Jira.contentOnly st st'' := by
  obtain ⟨tc, rr, rfl⟩ := h1
  obtain ⟨tc', rr', rfl⟩ := h2
  exact ⟨tc', rr', rfl⟩

theorem Jira.contentOnly_fields {st st' : Jira.JiraState}
    (h : Jira.contentOnly st st') :
    st'.ticket_id = st.ticket_id ∧ st'.ticket_url = st.ticket_url ∧
      st'.url = st.url ∧ st'.rest_url = st.rest_url := by
  obtain ⟨tc, rr, rfl⟩ := h
  exact ⟨rfl, rfl, rfl, rfl⟩

/-- `result_result` update only. -/
theorem Jira.contentOnly_rr (st : Jira.JiraState) (rr : ReqResult) :
    Jira.contentOnly st { st with request_result := rr } :=
  ⟨st.ticket_content, rr, rfl⟩

theorem jira_get_frame (st : Jira.JiraState) (arg : Json) (sc : Script)
    (res : ReqResult) (st' : Jira.JiraState)
    (h : (Jira.get_ticket_content st arg sc).out = Except.ok (res, st')) :
    Jira.contentOnly st st' := by
  unfold Jira.get_ticket_content at h
  split at h
  · simp only [Except.ok.injEq, Prod.mk.injEq] at h
    exact ⟨st.ticket_content, st.request_result, h.2 ▸ rfl⟩
  · rcases sc with _ | ⟨o, rest⟩ <;> simp only [takeOutcome] at h
    · simp at h
    · cases o with
      | connError m => simp at h
      | resp r =>
        dsimp only at h
        split at h
        · split at h
          · simp at h
          · simp only [Except.ok.injEq, Prod.mk.injEq] at h
            exact ⟨st.ticket_content, st.request_result, h.2 ▸ rfl⟩
        · split at h
          · simp at h
          · simp only [Except.ok.injEq, Prod.mk.injEq] at h
            exact ⟨_, _, h.2.symm⟩

theorem jira_refresh_frame (st : Jira.JiraState) (reqs : List HttpRequest)
    (sc : Script) (res : ReqResult) (st' : Jira.JiraState)
    (h : (Jira.refreshContent st reqs sc).out = Except.ok (res, st')) :
    Jira.contentOnly st st' := by
  unfold Jira.refreshContent at h
  dsimp only at h
  rcases hg : (Jira.get_ticket_content st Json.null sc).out with e | ⟨res0, stG⟩ <;>
    rw [hg] at h
  · simp at h
  · simp only [Except.ok.injEq, Prod.mk.injEq] at h
    refine Jira.contentOnly_trans (jira_get_frame st Json.null sc res0 stG hg) ?_
    exact h.2 ▸ Jira.contentOnly_rr stG res0

theorem jira_edit_frame (st : Jira.JiraState) (fields : List (String × Json))
    (sc : Script) (res : ReqResult) (st' : Jira.JiraState)
    (h : (Jira.edit st fields sc).out = Except.ok (res, st')) :
    Jira.contentOnly st st' := by
  unfold Jira.edit at h
  split at h
  · simp only [Except.ok.injEq, Prod.mk.injEq] at h
    obtain ⟨-, h2⟩ := h
    exact h2 ▸ Jira.contentOnly_refl st
  · split at h
    · simp at h
    · dsimp only at h
      rcases sc with _ | ⟨o, rest⟩ <;> simp only [takeOutcome] at h
      · simp at h
      · cases o with
        | connError m => simp at h
        | resp r =>
          dsimp only at h
          split at h
          · split at h
            · simp at h
            · simp only [Except.ok.injEq, Prod.mk.injEq] at h
              obtain ⟨-, h2⟩ := h
              exact h2 ▸ Jira.contentOnly_refl st
          · exact jira_refresh_frame _ _ _ _ _ h

theorem jira_add_comment_frame (st : Jira.JiraState) (comment : Json)
    (sc : Script) (res : ReqResult) (st' : Jira.JiraState)
    (h : (Jira.add_comment st comment sc).out = Except.ok (res, st')) :
    Jira.contentOnly st st' := by
  unfold Jira.add_comment at h
  split at h
  · simp only [Except.ok.injEq, Prod.mk.injEq] at h
    obtain ⟨-, h2⟩ := h
    exact h2 ▸ Jira.contentOnly_refl st
  · dsimp only at h
    rcases sc with _ | ⟨o, rest⟩ <;> simp only [takeOutcome] at h
    · simp at h
    · cases o with
      | connError m => simp at h
      | resp r =>
        dsimp only at h
        split at h
        · split at h
          · simp at h
          · simp only [Except.ok.injEq, Prod.mk.injEq] at h
            obtain ⟨-, h2⟩ := h
            exact h2 ▸ Jira.contentOnly_refl st
        · exact jira_refresh_frame _ _ _ _ _ h

theorem jira_change_status_frame (st : Jira.JiraState) (status : Json)
    (sc : Script) (res : ReqResult) (st' : Jira.JiraState)
    (h : (Jira.change_status st status sc).out = Except.ok (res, st')) :
    Jira.contentOnly st st' := by
  unfold Jira.change_status at h
  split at h
  · simp only [Except.ok.injEq, Prod.mk.injEq] at h
    obtain ⟨-, h2⟩ := h
    exact h2 ▸ Jira.contentOnly_refl st
  · rcases hG : Jira.get_status_id st status sc with ⟨lreqs, sid?, sc1⟩
    rw [hG] at h
    dsimp only at h
    rcases sid? with e | sid <;> dsimp only at h
    · simp at h
    · split at h
      · simp only [Except.ok.injEq, Prod.mk.injEq] at h
        obtain ⟨-, h2⟩ := h
        exact h2 ▸ Jira.contentOnly_refl st
      · rcases sc1 with _ | ⟨o, rest⟩ <;> simp only [takeOutcome] at h
        · simp only [Except.ok.injEq, Prod.mk.injEq] at h
          obtain ⟨-, h2⟩ := h
          exact h2 ▸ Jira.contentOnly_refl st
        · cases o with
          | connError m =>
              simp only [Except.ok.injEq, Prod.mk.injEq] at h
              obtain ⟨-, h2⟩ := h
              exact h2 ▸ Jira.contentOnly_refl st
          | resp r =>
            dsimp only at h
            split at h
            · simp only [Except.ok.injEq, Prod.mk.injEq] at h
              obtain ⟨-, h2⟩ := h
              exact h2 ▸ Jira.contentOnly_refl st
            · exact jira_refresh_frame _ _ _ _ _ h

theorem jira_add_watcher_frame (st : Jira.JiraState) (watcher : Json)
    (sc : Script) (res : ReqResult) (st' : Jira.JiraState)
    (h : (Jira.add_watcher st watcher sc).out = Except.ok (res, st')) :
    Jira.contentOnly st st' := by
  unfold Jira.add_watcher at h
  split at h
  · simp only [Except.ok.injEq, Prod.mk.injEq] at h
    obtain ⟨-, h2⟩ := h
    exact h2 ▸ Jira.contentOnly_refl st
  · cases watcher with
    | null => simp at h
    | bool b => simp at h
    | num n => simp at h
    | arr xs => simp at h
    | obj kvs => simp at h
    | str w =>
      dsimp only at h
      rcases sc with _ | ⟨o, rest⟩
      · simp only [takeOutcome] at h
        repeat' split at h
        all_goals
          first
          | exact jira_refresh_frame _ _ _ _ _ h
          | (simp only [Except.ok.injEq, Prod.mk.injEq] at h
             obtain ⟨-, h2⟩ := h
             exact h2 ▸ Jira.contentOnly_refl st)
      · cases o <;> simp only [takeOutcome] at h <;> repeat' split at h
        all_goals
          first
          | exact jira_refresh_frame _ _ _ _ _ h
          | (simp only [Except.ok.injEq, Prod.mk.injEq] at h
             obtain ⟨-, h2⟩ := h
             exact h2 ▸ Jira.contentOnly_refl st)

theorem jira_remove_watcher_frame (st : Jira.JiraState) (watcher : Json)
    (sc : Script) (res : ReqResult) (st' : Jira.JiraState)
    (h : (Jira.remove_watcher st watcher sc).out = Except.ok (res, st')) :
    Jira.contentOnly st st' := by
  unfold Jira.remove_watcher at h
  split at h
  · simp only [Except.ok.injEq, Prod.mk.injEq] at h
    obtain ⟨-, h2⟩ := h
    exact h2 ▸ Jira.contentOnly_refl st
  · cases watcher with
    | null => simp at h
    | bool b => simp at h
    | num n => simp at h
    | arr xs => simp at h
    | obj kvs => simp at h
    | str w =>
      dsimp only at h
      rcases sc with _ | ⟨o, rest⟩
      · simp only [takeOutcome] at h
        repeat' split at h
        all_goals
          first
          | exact jira_refresh_frame _ _ _ _ _ h
          | (simp only [Except.ok.injEq, Prod.mk.injEq] at h
             obtain ⟨-, h2⟩ := h
             exact h2 ▸ Jira.contentOnly_refl st)
      · cases o <;> simp only [takeOutcome] at h <;> repeat' split at h
        all_goals
          first
          | exact jira_refresh_frame _ _ _ _ _ h
          | (simp only [Except.ok.injEq, Prod.mk.injEq] at h
             obtain ⟨-, h2⟩ := h
             exact h2 ▸ Jira.contentOnly_refl st)

theorem jira_remove_all_watchers_frame (st : Jira.JiraState) (sc : Script)
    (res : ReqResult) (st' : Jira.JiraState)
    (h : (Jira.remove_all_watchers st sc).out = Except.ok (res, st')) :
    Jira.contentOnly st st' := by
  unfold Jira.remove_all_watchers at h
  split at h
  · simp only [Except.ok.injEq, Prod.mk.injEq] at h
    obtain ⟨-, h2⟩ := h
    exact h2 ▸ Jira.contentOnly_refl st
  · rcases hG : Jira.get_watchers_list st sc with ⟨lreqs, ws?, sc1⟩
    rw [hG] at h
    try dsimp only at h
    rcases ws? with e | ws <;> try dsimp only at h
    · simp at h
    · rcases ws with _ | ws <;> try dsimp only at h
      · simp at h
      · rcases hF : Jira.removeLoop st ws (lreqs, 0, sc1) with ⟨reqs2, n, sc2⟩
        rw [hF] at h
        try dsimp only at h
        split at h
        · simp only [Except.ok.injEq, Prod.mk.injEq] at h
          obtain ⟨-, h2⟩ := h
          exact h2 ▸ Jira.contentOnly_refl st
        · rcases hg : (Jira.refreshContent st reqs2 sc2).out with e | ⟨res0, stG⟩ <;>
            rw [hg] at h
          · simp at h
          · simp only [Except.ok.injEq, Prod.mk.injEq] at h
            obtain ⟨-, h2⟩ := h
            exact h2 ▸ jira_refresh_frame st reqs2 sc2 res0 stG hg

theorem jira_add_attachment_frame (st : Jira.JiraState) (file_name : String)
    (fs : String → Option String) (sc : Script) (res : ReqResult)
    (st' : Jira.JiraState)
    (h : (Jira.add_attachment st file_name fs sc).out = Except.ok (res, st')) :
    Jira.contentOnly st st' := by
  unfold Jira.add_attachment at h
  split at h
  · simp only [Except.ok.injEq, Prod.mk.injEq] at h
    obtain ⟨-, h2⟩ := h
    exact h2 ▸ Jira.contentOnly_refl st
  · split at h
    · simp only [Except.ok.injEq, Prod.mk.injEq] at h
      obtain ⟨-, h2⟩ := h
      exact h2 ▸ Jira.contentOnly_refl st
    · try dsimp only at h
      rcases sc with _ | ⟨o, rest⟩ <;> simp only [takeOutcome] at h
      · simp only [Except.ok.injEq, Prod.mk.injEq] at h
        obtain ⟨-, h2⟩ := h
        exact h2 ▸ Jira.contentOnly_refl st
      · cases o with
        | connError m =>
            simp only [Except.ok.injEq, Prod.mk.injEq] at h
            obtain ⟨-, h2⟩ := h
            exact h2 ▸ Jira.contentOnly_refl st
        | resp r =>
            try dsimp only at h
            split at h
            · simp only [Except.ok.injEq, Prod.mk.injEq] at h
              obtain ⟨-, h2⟩ := h
              exact h2 ▸ Jira.contentOnly_refl st
            · exact jira_refresh_frame _ _ _ _ _ h


/-- The identity/URL coupling: a truthy `ticket_id` iff a non-null
`ticket_url`. -/
def Jira.idUrlCoupled (st : Jira.JiraState) : Prop :=
  st.ticket_id.truthy = true ↔ st.ticket_url ≠ none

theorem jira_set_ticket_id_coupled (st : Jira.JiraState) (tid : Json)
    (sc : Script) (res : ReqResult) (st' : Jira.JiraState)
    (h : (Jira.set_ticket_id st tid sc).out = Except.ok (res, st'))
    (hst : Jira.idUrlCoupled st) : Jira.idUrlCoupled st' := by
  unfold Jira.set_ticket_id at h
  dsimp only at h
  rcases hg : (Jira.get_ticket_content st tid sc).out with e | ⟨res0, st1⟩ <;>
    rw [hg] at h
  · simp at h
  · have hco := jira_get_frame st tid sc res0 st1 hg
    obtain ⟨tc, rr, rfl⟩ := hco
    dsimp only at h
    split at h
    · simp only [Except.ok.injEq, Prod.mk.injEq] at h
      obtain ⟨-, h2⟩ := h
      exact h2 ▸ hst
    · simp only [Jira.generate_ticket_url, Except.ok.injEq, Prod.mk.injEq] at h
      obtain ⟨-, h2⟩ := h
      subst h2
      unfold Jira.idUrlCoupled
      by_cases htid : tid.truthy = true <;> simp [htid]

/-- `bindTicket` fields: the id is stored and the URL follows the Jira
rule. -/
theorem jira_bindTicket_fields (st : Jira.JiraState) (key : Json) :
    (Jira.bindTicket st key).ticket_id = key ∧
    (Jira.bindTicket st key).ticket_url =
      (if key.truthy then some (st.url ++ "/browse/" ++ Json.pyStr key) else none) ∧
    (Jira.bindTicket st key).url = st.url ∧
    (Jira.bindTicket st key).rest_url = st.rest_url := by
  unfold Jira.bindTicket Jira.generate_ticket_url
  refine ⟨rfl, ?_, rfl, rfl⟩
  by_cases hk : key.truthy = true <;> simp [hk]

theorem jira_bindTicket_coupled (st : Jira.JiraState) (key : Json) :
    Jira.idUrlCoupled (Jira.bindTicket st key) := by
  unfold Jira.idUrlCoupled
  obtain ⟨h1, h2, -, -⟩ := jira_bindTicket_fields st key
  rw [h1, h2]
  by_cases hk : key.truthy = true <;> simp [hk]

theorem jira_contentOnly_coupled {st st' : Jira.JiraState}
    (hco : Jira.contentOnly st st') (hst : Jira.idUrlCoupled st) :
    Jira.idUrlCoupled st' := by
  obtain ⟨tc, rr, rfl⟩ := hco
  exact hst

theorem jira_create_request_coupled (st : Jira.JiraState) (params : Json)
    (sc : Script) (res : ReqResult) (st' : Jira.JiraState)
    (h : (Jira.create_ticket_request st params sc).out = Except.ok (res, st'))
    (hst : Jira.idUrlCoupled st) : Jira.idUrlCoupled st' := by
  unfold Jira.create_ticket_request at h
  rcases sc with _ | ⟨o, rest⟩ <;> simp only [takeOutcome] at h
  · simp at h
  · cases o with
    | connError m => simp at h
    | resp r =>
      dsimp only at h
      split at h
      · split at h
        · simp at h
        · simp only [Except.ok.injEq, Prod.mk.injEq] at h
          obtain ⟨-, h2⟩ := h
          exact h2 ▸ hst
      · split at h
        · simp at h
        · split at h
          · simp at h
          · rename_i key hkey
            exact jira_contentOnly_coupled (jira_refresh_frame _ _ _ _ _ h)
              (jira_bindTicket_coupled st key)

theorem jira_create_coupled (st : Jira.JiraState)
    (summary description type' : Json) (fields : List (String × Json))
    (sc : Script) (res : ReqResult) (st' : Jira.JiraState)
    (h : (Jira.create st summary description type' fields sc).out =
      Except.ok (res, st'))
    (hst : Jira.idUrlCoupled st) : Jira.idUrlCoupled st' := by
  unfold Jira.create at h
  repeat' split at h
  all_goals
    first
    | exact jira_create_request_coupled _ _ _ _ _ h hst
    | (simp only [Except.ok.injEq, Prod.mk.injEq] at h
       obtain ⟨-, h2⟩ := h
       exact h2 ▸ hst)
    | simp at h

theorem jira_jiraInit_coupled (url project : String) :
    Jira.idUrlCoupled (Jira.jiraInit url project) := by
  unfold Jira.idUrlCoupled Jira.jiraInit
  simp [Json.truthy]

theorem jira_initWithId_coupled (url project : String) (tid : Json)
    (sc : Script) (st : Jira.JiraState) (sc' : Script)
    (h : Jira.initWithId url project tid sc = some (st, sc')) :
    Jira.idUrlCoupled st := by
  unfold Jira.initWithId at h
  dsimp only at h
  split at h
  · simp only [Option.some.injEq, Prod.mk.injEq] at h
    obtain ⟨h1, -⟩ := h
    subst h1
    unfold Jira.idUrlCoupled
    rename_i htid
    simp only [Bool.not_eq_true'] at htid
    simp [htid, Jira.jiraInit]
  · rcases hg : (Jira.get_ticket_content
        { Jira.jiraInit url project with ticket_id := tid } tid sc).out
      with e | ⟨res0, st1⟩ <;> rw [hg] at h
    · simp at h
    · dsimp only at h
      split at h
      · simp at h
      · simp only [Jira.generate_ticket_url, Option.some.injEq, Prod.mk.injEq] at h
        obtain ⟨h1, -⟩ := h
        subst h1
        unfold Jira.idUrlCoupled
        rename_i htid _
        simp only [Bool.not_eq_true', Bool.not_eq_false] at htid
        have hco := jira_get_frame _ tid sc res0 st1 hg
        obtain ⟨tc, rr, hst1⟩ := hco
        subst hst1
        simp [htid]

/-- The reachable states of a Jira handle: a construction followed by any
sequence of public operations that returned (rather than raised). -/
inductive Jira.Reach : Jira.JiraState → Prop where
  | construct (url project : String) : Jira.Reach (Jira.jiraInit url project)
  | constructId (url project : String) (tid : Json) (sc : Script)
      (st : Jira.JiraState) (sc' : Script) :
      Jira.initWithId url project tid sc = some (st, sc') → Jira.Reach st
  | step_create (st : Jira.JiraState) (s d t : Json)
      (fields : List (String × Json)) (sc : Script) (res : ReqResult)
      (st' : Jira.JiraState) : Jira.Reach st →
      (Jira.create st s d t fields sc).out = Except.ok (res, st') →
      Jira.Reach st'
  | step_setId (st : Jira.JiraState) (tid : Json) (sc : Script)
      (res : ReqResult) (st' : Jira.JiraState) : Jira.Reach st →
      (Jira.set_ticket_id st tid sc).out = Except.ok (res, st') →
      Jira.Reach st'
  | step_edit (st : Jira.JiraState) (fields : List (String × Json))
      (sc : Script) (res : ReqResult) (st' : Jira.JiraState) : Jira.Reach st →
      (Jira.edit st fields sc).out = Except.ok (res, st') → Jira.Reach st'
  | step_comment (st : Jira.JiraState) (comment : Json) (sc : Script)
      (res : ReqResult) (st' : Jira.JiraState) : Jira.Reach st →
      (Jira.add_comment st comment sc).out = Except.ok (res, st') →
      Jira.Reach st'
  | step_status (st : Jira.JiraState) (status : Json) (sc : Script)
      (res : ReqResult) (st' : Jira.JiraState) : Jira.Reach st →
      (Jira.change_status st status sc).out = Except.ok (res, st') →
      Jira.Reach st'
  | step_addWatcher (st : Jira.JiraState) (w : Json) (sc : Script)
      (res : ReqResult) (st' : Jira.JiraState) : Jira.Reach st →
      (Jira.add_watcher st w sc).out = Except.ok (res, st') → Jira.Reach st'
  | step_removeWatcher (st : Jira.JiraState) (w : Json) (sc : Script)
      (res : ReqResult) (st' : Jira.JiraState) : Jira.Reach st →
      (Jira.remove_watcher st w sc).out = Except.ok (res, st') → Jira.Reach st'
  | step_removeAll (st : Jira.JiraState) (sc : Script) (res : ReqResult)
      (st' : Jira.JiraState) : Jira.Reach st →
      (Jira.remove_all_watchers st sc).out = Except.ok (res, st') →
      Jira.Reach st'
  | step_attach (st : Jira.JiraState) (file_name : String)
      (fs : String → Option String) (sc : Script) (res : ReqResult)
      (st' : Jira.JiraState) : Jira.Reach st →
      (Jira.add_attachment st file_name fs sc).out = Except.ok (res, st') →
      Jira.Reach st'
  | step_getContent (st : Jira.JiraState) (arg : Json) (sc : Script)
      (res : ReqResult) (st' : Jira.JiraState) : Jira.Reach st →
      (Jira.get_ticket_content st arg sc).out = Except.ok (res, st') →
      Jira.Reach st'

theorem jira_reach_coupled (st : Jira.JiraState) (h : Jira.Reach st) :
    Jira.idUrlCoupled st := by
  induction h with
  | construct url project => exact jira_jiraInit_coupled url project
  | constructId url project tid sc st sc' hinit =>
      exact jira_initWithId_coupled url project tid sc st sc' hinit
  | step_create st s d t fields sc res st' _ hop ih =>
      exact jira_create_coupled st s d t fields sc res st' hop ih
  | step_setId st tid sc res st' _ hop ih =>
      exact jira_set_ticket_id_coupled st tid sc res st' hop ih
  | step_edit st fields sc res st' _ hop ih =>
      exact jira_contentOnly_coupled (jira_edit_frame st fields sc res st' hop) ih
  | step_comment st comment sc res st' _ hop ih =>
      exact jira_contentOnly_coupled (jira_add_comment_frame st comment sc res st' hop) ih
  | step_status st status sc res st' _ hop ih =>
      exact jira_contentOnly_coupled (jira_change_status_frame st status sc res st' hop) ih
  | step_addWatcher st w sc res st' _ hop ih =>
      exact jira_contentOnly_coupled (jira_add_watcher_frame st w sc res st' hop) ih
  | step_removeWatcher st w sc res st' _ hop ih =>
      exact jira_contentOnly_coupled (jira_remove_watcher_frame st w sc res st' hop) ih
  | step_removeAll st sc res st' _ hop ih =>
      exact jira_contentOnly_coupled (jira_remove_all_watchers_frame st sc res st' hop) ih
  | step_attach st file_name fs sc res st' _ hop ih =>
      exact jira_contentOnly_coupled (jira_add_attachment_frame st file_name fs sc res st' hop) ih
  | step_getContent st arg sc res st' _ hop ih =>
      exact jira_contentOnly_coupled (jira_get_frame st arg sc res st' hop) ih

/-- A successful RT `get_ticket_content` only (possibly) refreshes the
cached content. -/
theorem rt_get_frame (st : RT.RTState) (arg : Json) (opt : String)
    (sc : Script) (res : ReqResult) (st' : RT.RTState)
    (h : (RT.get_ticket_content st arg opt sc).out = Except.ok (res, st')) :
    ∃ tc, st' = { st with ticket_content := tc } := by
  unfold RT.get_ticket_content at h
  split at h
  · simp only [Except.ok.injEq, Prod.mk.injEq] at h
    exact ⟨st.ticket_content, h.2 ▸ rfl⟩
  · rcases sc with _ | ⟨o, rest⟩ <;> simp only [takeOutcome] at h
    · simp only [Except.ok.injEq, Prod.mk.injEq] at h
      exact ⟨st.ticket_content, h.2 ▸ rfl⟩
    · cases o with
      | connError m =>
          simp only [Except.ok.injEq, Prod.mk.injEq] at h
          exact ⟨st.ticket_content, h.2 ▸ rfl⟩
      | resp r =>
          dsimp only at h
          repeat' split at h
          all_goals
            first
            | (simp only [Except.ok.injEq, Prod.mk.injEq] at h
               exact ⟨st.ticket_content, h.2 ▸ rfl⟩)
            | (simp only [Except.ok.injEq, Prod.mk.injEq] at h
               exact ⟨_, h.2.symm⟩)
            | simp at h

/-- Bugzilla `get_ticket_content` only (possibly) refreshes the cached
content. -/
theorem bz_get_frame (st : Bugzilla.BZState) (arg : Json) (sc : Script)
    (res : ReqResult) (st' : Bugzilla.BZState)
    (h : (Bugzilla.get_ticket_content st arg sc).out = Except.ok (res, st')) :
    ∃ tc, st' = { st with ticket_content := tc } := by
  unfold Bugzilla.get_ticket_content at h
  split at h
  · simp only [Except.ok.injEq, Prod.mk.injEq] at h
    exact ⟨st.ticket_content, h.2 ▸ rfl⟩
  · rcases sc with _ | ⟨o, rest⟩ <;> simp only [takeOutcome] at h
    · simp only [Except.ok.injEq, Prod.mk.injEq] at h
      exact ⟨st.ticket_content, h.2 ▸ rfl⟩
    · cases o with
      | connError m =>
          simp only [Except.ok.injEq, Prod.mk.injEq] at h
          exact ⟨st.ticket_content, h.2 ▸ rfl⟩
      | resp r =>
          dsimp only at h
          repeat' split at h
          all_goals
            first
            | (simp only [Except.ok.injEq, Prod.mk.injEq] at h
               exact ⟨st.ticket_content, h.2 ▸ rfl⟩)
            | (simp only [Except.ok.injEq, Prod.mk.injEq] at h
               exact ⟨_, h.2.symm⟩)
            | simp at h

/-- Bugzilla `refreshContent` changes cached content and stored result
only. -/
theorem bz_refresh_frame (st : Bugzilla.BZState) (reqs : List HttpRequest)
    (sc : Script) (res : ReqResult) (st' : Bugzilla.BZState)
    (h : (Bugzilla.refreshContent st reqs sc).out = Except.ok (res, st')) :
    ∃ tc rr, st' = { st with ticket_content := tc, request_result := rr } := by
  unfold Bugzilla.refreshContent at h
  dsimp only at h
  rcases hg : (Bugzilla.get_ticket_content st Json.null sc).out with e | ⟨res0, stG⟩ <;>
    rw [hg] at h
  · simp at h
  · simp only [Except.ok.injEq, Prod.mk.injEq] at h
    obtain ⟨tc, hG⟩ := bz_get_frame st Json.null sc res0 stG hg
    subst hG
    exact ⟨tc, res0, h.2 ▸ rfl⟩

/-- Bugzilla `bindTicket` fields. -/
theorem bz_bindTicket_fields (st : Bugzilla.BZState) (idv : Json) :
    (Bugzilla.bindTicket st idv).ticket_id = idv ∧
    (Bugzilla.bindTicket st idv).ticket_url =
      (if idv.truthy then some (st.url ++ "/show_bug.cgi?id=" ++ Json.pyStr idv)
       else none) ∧
    (Bugzilla.bindTicket st idv).url = st.url := by
  unfold Bugzilla.bindTicket Bugzilla.generate_ticket_url
  refine ⟨rfl, ?_, rfl⟩
  by_cases hk : idv.truthy = true <;> simp [hk]

/-! ## Bugzilla frame lemmas and reachable-state invariant -/

/-- States that differ at most in cached content and stored last result. -/
def Bugzilla.contentOnly (st st' : Bugzilla.BZState) : Prop :=
  ∃ tc rr, st' = { st with ticket_content := tc, request_result := rr }

theorem bz_contentOnly_refl (st : Bugzilla.BZState) :
    Bugzilla.contentOnly st st :=
  ⟨st.ticket_content, st.request_result, rfl⟩

/-- Bugzilla `handleEcho` touches cached content and stored result only. -/
theorem bz_echo_frame (st : Bugzilla.BZState) (req : HttpRequest)
    (checkBugs : Bool) (r : HttpResponse) (sc1 : Script) (res : ReqResult)
    (st' : Bugzilla.BZState)
    (h : (Bugzilla.handleEcho st req checkBugs r sc1).out = Except.ok (res, st')) :
    Bugzilla.contentOnly st st' := by
  unfold Bugzilla.handleEcho at h
  try dsimp only at h
  repeat' split at h
  all_goals
    first
    | exact bz_refresh_frame _ _ _ _ _ h
    | (simp only [Except.ok.injEq, Prod.mk.injEq] at h
       obtain ⟨-, h2⟩ := h
       exact h2 ▸ bz_contentOnly_refl st)
    | simp at h

theorem bz_edit_frame (st : Bugzilla.BZState) (fields : List (String × Json))
    (sc : Script) (res : ReqResult) (st' : Bugzilla.BZState)
    (h : (Bugzilla.edit st fields sc).out = Except.ok (res, st')) :
    Bugzilla.contentOnly st st' := by
  unfold Bugzilla.edit at h
  split at h
  · simp only [Except.ok.injEq, Prod.mk.injEq] at h
    obtain ⟨-, h2⟩ := h
    exact h2 ▸ bz_contentOnly_refl st
  · dsimp only at h
    rcases sc with _ | ⟨o, rest⟩ <;> simp only [takeOutcome] at h
    · simp only [Except.ok.injEq, Prod.mk.injEq] at h
      obtain ⟨-, h2⟩ := h
      exact h2 ▸ bz_contentOnly_refl st
    · cases o with
      | connError m =>
          simp only [Except.ok.injEq, Prod.mk.injEq] at h
          obtain ⟨-, h2⟩ := h
          exact h2 ▸ bz_contentOnly_refl st
      | resp r =>
          dsimp only at h
          split at h
          · simp only [Except.ok.injEq, Prod.mk.injEq] at h
            obtain ⟨-, h2⟩ := h
            exact h2 ▸ bz_contentOnly_refl st
          · exact bz_echo_frame _ _ _ _ _ _ _ h

theorem bz_add_comment_frame (st : Bugzilla.BZState) (comment : Json)
    (fields : List (String × Json)) (sc : Script) (res : ReqResult)
    (st' : Bugzilla.BZState)
    (h : (Bugzilla.add_comment st comment fields sc).out = Except.ok (res, st')) :
    Bugzilla.contentOnly st st' := by
  unfold Bugzilla.add_comment at h
  split at h
  · simp only [Except.ok.injEq, Prod.mk.injEq] at h
    obtain ⟨-, h2⟩ := h
    exact h2 ▸ bz_contentOnly_refl st
  · dsimp only at h
    rcases sc with _ | ⟨o, rest⟩ <;> simp only [takeOutcome] at h
    · simp only [Except.ok.injEq, Prod.mk.injEq] at h
      obtain ⟨-, h2⟩ := h
      exact h2 ▸ bz_contentOnly_refl st
    · cases o with
      | connError m =>
          simp only [Except.ok.injEq, Prod.mk.injEq] at h
          obtain ⟨-, h2⟩ := h
          exact h2 ▸ bz_contentOnly_refl st
      | resp r =>
          dsimp only at h
          split at h
          · simp only [Except.ok.injEq, Prod.mk.injEq] at h
            obtain ⟨-, h2⟩ := h
            exact h2 ▸ bz_contentOnly_refl st
          · exact bz_echo_frame _ _ _ _ _ _ _ h

theorem bz_change_status_frame (st : Bugzilla.BZState) (status : Json)
    (fields : List (String × Json)) (sc : Script) (res : ReqResult)
    (st' : Bugzilla.BZState)
    (h : (Bugzilla.change_status st status fields sc).out = Except.ok (res, st')) :
    Bugzilla.contentOnly st st' := by
  unfold Bugzilla.change_status at h
  split at h
  · simp only [Except.ok.injEq, Prod.mk.injEq] at h
    obtain ⟨-, h2⟩ := h
    exact h2 ▸ bz_contentOnly_refl st
  · dsimp only at h
    rcases sc with _ | ⟨o, rest⟩ <;> simp only [takeOutcome] at h
    · simp only [Except.ok.injEq, Prod.mk.injEq] at h
      obtain ⟨-, h2⟩ := h
      exact h2 ▸ bz_contentOnly_refl st
    · cases o with
      | connError m =>
          simp only [Except.ok.injEq, Prod.mk.injEq] at h
          obtain ⟨-, h2⟩ := h
          exact h2 ▸ bz_contentOnly_refl st
      | resp r =>
          dsimp only at h
          split at h
          · simp only [Except.ok.injEq, Prod.mk.injEq] at h
            obtain ⟨-, h2⟩ := h
            exact h2 ▸ bz_contentOnly_refl st
          · exact bz_echo_frame _ _ _ _ _ _ _ h

theorem bz_changeCC_frame (st : Bugzilla.BZState) (action : String)
    (user : Json) (sc : Script) (res : ReqResult) (st' : Bugzilla.BZState)
    (h : (Bugzilla.changeCC st action user sc).out = Except.ok (res, st')) :
    Bugzilla.contentOnly st st' := by
  unfold Bugzilla.changeCC at h
  split at h
  · simp only [Except.ok.injEq, Prod.mk.injEq] at h
    obtain ⟨-, h2⟩ := h
    exact h2 ▸ bz_contentOnly_refl st
  · dsimp only at h
    rcases sc with _ | ⟨o, rest⟩ <;> simp only [takeOutcome] at h
    · simp only [Except.ok.injEq, Prod.mk.injEq] at h
      obtain ⟨-, h2⟩ := h
      exact h2 ▸ bz_contentOnly_refl st
    · cases o with
      | connError m =>
          simp only [Except.ok.injEq, Prod.mk.injEq] at h
          obtain ⟨-, h2⟩ := h
          exact h2 ▸ bz_contentOnly_refl st
      | resp r =>
          dsimp only at h
          split at h
          · simp only [Except.ok.injEq, Prod.mk.injEq] at h
            obtain ⟨-, h2⟩ := h
            exact h2 ▸ bz_contentOnly_refl st
          · exact bz_echo_frame _ _ _ _ _ _ _ h

theorem bz_add_attachment_frame (st : Bugzilla.BZState) (file_name : String)
    (data : String) (summary : Json) (fields : List (String × Json))
    (fs : String → Option String) (mimeGuess : Option String) (sc : Script)
    (res : ReqResult) (st' : Bugzilla.BZState)
    (h : (Bugzilla.add_attachment st file_name data summary fields fs
        mimeGuess sc).out = Except.ok (res, st')) :
    Bugzilla.contentOnly st st' := by
  unfold Bugzilla.add_attachment at h
  split at h
  · simp only [Except.ok.injEq, Prod.mk.injEq] at h
    obtain ⟨-, h2⟩ := h
    exact h2 ▸ bz_contentOnly_refl st
  · split at h
    · simp only [Except.ok.injEq, Prod.mk.injEq] at h
      obtain ⟨-, h2⟩ := h
      exact h2 ▸ bz_contentOnly_refl st
    · try dsimp only at h
      rcases sc with _ | ⟨o, rest⟩ <;> simp only [takeOutcome] at h
      · simp only [Except.ok.injEq, Prod.mk.injEq] at h
        obtain ⟨-, h2⟩ := h
        exact h2 ▸ bz_contentOnly_refl st
      · cases o with
        | connError m =>
            simp only [Except.ok.injEq, Prod.mk.injEq] at h
            obtain ⟨-, h2⟩ := h
            exact h2 ▸ bz_contentOnly_refl st
        | resp r =>
            try dsimp only at h
            split at h
            · simp only [Except.ok.injEq, Prod.mk.injEq] at h
              obtain ⟨-, h2⟩ := h
              exact h2 ▸ bz_contentOnly_refl st
            · exact bz_echo_frame _ _ _ _ _ _ _ h

/-- The identity/URL coupling for Bugzilla handles. -/
def Bugzilla.idUrlCoupled (st : Bugzilla.BZState) : Prop :=
  st.ticket_id.truthy = true ↔ st.ticket_url ≠ none

theorem bz_contentOnly_coupled {st st' : Bugzilla.BZState}
    (hco : Bugzilla.contentOnly st st') (hst : Bugzilla.idUrlCoupled st) :
    Bugzilla.idUrlCoupled st' := by
  obtain ⟨tc, rr, rfl⟩ := hco
  exact hst

theorem bz_bindTicket_coupled (st : Bugzilla.BZState) (idv : Json) :
    Bugzilla.idUrlCoupled (Bugzilla.bindTicket st idv) := by
  unfold Bugzilla.idUrlCoupled
  obtain ⟨h1, h2, -⟩ := bz_bindTicket_fields st idv
  rw [h1, h2]
  by_cases hk : idv.truthy = true <;> simp [hk]

theorem bz_set_ticket_id_coupled (st : Bugzilla.BZState) (tid : Json)
    (sc : Script) (res : ReqResult) (st' : Bugzilla.BZState)
    (h : (Bugzilla.set_ticket_id st tid sc).out = Except.ok (res, st'))
    (hst : Bugzilla.idUrlCoupled st) : Bugzilla.idUrlCoupled st' := by
  unfold Bugzilla.set_ticket_id at h
  dsimp only at h
  rcases hg : (Bugzilla.get_ticket_content st tid sc).out with e | ⟨res0, st1⟩ <;>
    rw [hg] at h
  · simp at h
  · obtain ⟨tc, rfl⟩ := bz_get_frame st tid sc res0 st1 hg
    dsimp only at h
    split at h
    · simp only [Except.ok.injEq, Prod.mk.injEq] at h
      obtain ⟨-, h2⟩ := h
      exact h2 ▸ hst
    · simp only [Bugzilla.generate_ticket_url, Except.ok.injEq, Prod.mk.injEq] at h
      obtain ⟨-, h2⟩ := h
      subst h2
      unfold Bugzilla.idUrlCoupled
      by_cases htid : tid.truthy = true <;> simp [htid]

theorem bz_create_request_coupled (st : Bugzilla.BZState) (params : Json)
    (sc : Script) (res : ReqResult) (st' : Bugzilla.BZState)
    (h : (Bugzilla.create_ticket_request st params sc).out = Except.ok (res, st'))
    (hst : Bugzilla.idUrlCoupled st) : Bugzilla.idUrlCoupled st' := by
  unfold Bugzilla.create_ticket_request at h
  rcases sc with _ | ⟨o, rest⟩ <;> simp only [takeOutcome] at h
  · simp only [Except.ok.injEq, Prod.mk.injEq] at h
    obtain ⟨-, h2⟩ := h
    exact h2 ▸ hst
  · cases o with
    | connError m =>
        simp only [Except.ok.injEq, Prod.mk.injEq] at h
        obtain ⟨-, h2⟩ := h
        exact h2 ▸ hst
    | resp r =>
        dsimp only at h
        repeat' split at h
        all_goals
          first
          | exact bz_contentOnly_coupled (bz_refresh_frame _ _ _ _ _ h)
              (bz_bindTicket_coupled st _)
          | (simp only [Except.ok.injEq, Prod.mk.injEq] at h
             obtain ⟨-, h2⟩ := h
             exact h2 ▸ hst)
          | simp at h

theorem bz_create_coupled (st : Bugzilla.BZState)
    (summary description component version : Json)
    (fields : List (String × Json)) (sc : Script) (res : ReqResult)
    (st' : Bugzilla.BZState)
    (h : (Bugzilla.create st summary description component version fields sc).out =
      Except.ok (res, st'))
    (hst : Bugzilla.idUrlCoupled st) : Bugzilla.idUrlCoupled st' := by
  unfold Bugzilla.create at h
  repeat' split at h
  all_goals
    first
    | exact bz_create_request_coupled _ _ _ _ _ h hst
    | (simp only [Except.ok.injEq, Prod.mk.injEq] at h
       obtain ⟨-, h2⟩ := h
       exact h2 ▸ hst)

theorem bz_bzInit_coupled (url project : String) :
    Bugzilla.idUrlCoupled (Bugzilla.bzInit url project) := by
  unfold Bugzilla.idUrlCoupled Bugzilla.bzInit
  simp [Json.truthy]

theorem bz_initWithId_coupled (url project : String) (tid : Json)
    (sc : Script) (st : Bugzilla.BZState) (sc' : Script)
    (h : Bugzilla.initWithId url project tid sc = some (st, sc')) :
    Bugzilla.idUrlCoupled st := by
  unfold Bugzilla.initWithId at h
  dsimp only at h
  split at h
  · simp only [Option.some.injEq, Prod.mk.injEq] at h
    obtain ⟨h1, -⟩ := h
    subst h1
    unfold Bugzilla.idUrlCoupled
    rename_i htid
    simp only [Bool.not_eq_true'] at htid
    simp [htid, Bugzilla.bzInit]
  · rcases hg : (Bugzilla.get_ticket_content
        { Bugzilla.bzInit url project with ticket_id := tid } tid sc).out
      with e | ⟨res0, st1⟩ <;> rw [hg] at h
    · simp at h
    · dsimp only at h
      split at h
      · simp at h
      · simp only [Bugzilla.generate_ticket_url, Option.some.injEq,
          Prod.mk.injEq] at h
        obtain ⟨h1, -⟩ := h
        subst h1
        unfold Bugzilla.idUrlCoupled
        obtain ⟨tc, hst1⟩ := bz_get_frame _ tid sc res0 st1 hg
        subst hst1
        by_cases htid : tid.truthy = true <;> simp [htid]

/-- The reachable states of a Bugzilla handle. -/
inductive Bugzilla.Reach : Bugzilla.BZState → Prop where
  | construct (url project : String) : Bugzilla.Reach (Bugzilla.bzInit url project)
  | constructId (url project : String) (tid : Json) (sc : Script)
      (st : Bugzilla.BZState) (sc' : Script) :
      Bugzilla.initWithId url project tid sc = some (st, sc') → Bugzilla.Reach st
  | step_create (st : Bugzilla.BZState) (s d c v : Json)
      (fields : List (String × Json)) (sc : Script) (res : ReqResult)
      (st' : Bugzilla.BZState) : Bugzilla.Reach st →
      (Bugzilla.create st s d c v fields sc).out = Except.ok (res, st') →
      Bugzilla.Reach st'
  | step_setId (st : Bugzilla.BZState) (tid : Json) (sc : Script)
      (res : ReqResult) (st' : Bugzilla.BZState) : Bugzilla.Reach st →
      (Bugzilla.set_ticket_id st tid sc).out = Except.ok (res, st') →
      Bugzilla.Reach st'
  | step_edit (st : Bugzilla.BZState) (fields : List (String × Json))
      (sc : Script) (res : ReqResult) (st' : Bugzilla.BZState) :
      Bugzilla.Reach st →
      (Bugzilla.edit st fields sc).out = Except.ok (res, st') → Bugzilla.Reach st'
  | step_comment (st : Bugzilla.BZState) (comment : Json)
      (fields : List (String × Json)) (sc : Script) (res : ReqResult)
      (st' : Bugzilla.BZState) : Bugzilla.Reach st →
      (Bugzilla.add_comment st comment fields sc).out = Except.ok (res, st') →
      Bugzilla.Reach st'
  | step_status (st : Bugzilla.BZState) (status : Json)
      (fields : List (String × Json)) (sc : Script) (res : ReqResult)
      (st' : Bugzilla.BZState) : Bugzilla.Reach st →
      (Bugzilla.change_status st status fields sc).out = Except.ok (res, st') →
      Bugzilla.Reach st'
  | step_addCC (st : Bugzilla.BZState) (user : Json) (sc : Script)
      (res : ReqResult) (st' : Bugzilla.BZState) : Bugzilla.Reach st →
      (Bugzilla.add_cc st user sc).out = Except.ok (res, st') → Bugzilla.Reach st'
  | step_removeCC (st : Bugzilla.BZState) (user : Json) (sc : Script)
      (res : ReqResult) (st' : Bugzilla.BZState) : Bugzilla.Reach st →
      (Bugzilla.remove_cc st user sc).out = Except.ok (res, st') →
      Bugzilla.Reach st'
  | step_attach (st : Bugzilla.BZState) (file_name : String) (data : String)
      (summary : Json) (fields : List (String × Json))
      (fs : String → Option String) (mimeGuess : Option String) (sc : Script)
      (res : ReqResult) (st' : Bugzilla.BZState) : Bugzilla.Reach st →
      (Bugzilla.add_attachment st file_name data summary fields fs
        mimeGuess sc).out = Except.ok (res, st') → Bugzilla.Reach st'
  | step_getContent (st : Bugzilla.BZState) (arg : Json) (sc : Script)
      (res : ReqResult) (st' : Bugzilla.BZState) : Bugzilla.Reach st →
      (Bugzilla.get_ticket_content st arg sc).out = Except.ok (res, st') →
      Bugzilla.Reach st'

theorem bz_reach_coupled (st : Bugzilla.BZState) (h : Bugzilla.Reach st) :
    Bugzilla.idUrlCoupled st := by
  induction h with
  | construct url project => exact bz_bzInit_coupled url project
  | constructId url project tid sc st sc' hinit =>
      exact bz_initWithId_coupled url project tid sc st sc' hinit
  | step_create st s d c v fields sc res st' _ hop ih =>
      exact bz_create_coupled st s d c v fields sc res st' hop ih
  | step_setId st tid sc res st' _ hop ih =>
      exact bz_set_ticket_id_coupled st tid sc res st' hop ih
  | step_edit st fields sc res st' _ hop ih =>
      exact bz_contentOnly_coupled (bz_edit_frame st fields sc res st' hop) ih
  | step_comment st comment fields sc res st' _ hop ih =>
      exact bz_contentOnly_coupled
        (bz_add_comment_frame st comment fields sc res st' hop) ih
  | step_status st status fields sc res st' _ hop ih =>
      exact bz_contentOnly_coupled
        (bz_change_status_frame st status fields sc res st' hop) ih
  | step_addCC st user sc res st' _ hop ih =>
      exact bz_contentOnly_coupled (bz_changeCC_frame st "add" user sc res st' hop) ih
  | step_removeCC st user sc res st' _ hop ih =>
      exact bz_contentOnly_coupled
        (bz_changeCC_frame st "remove" user sc res st' hop) ih
  | step_attach st file_name data summary fields fs mimeGuess sc res st' _ hop ih =>
      exact bz_contentOnly_coupled
        (bz_add_attachment_frame st file_name data summary fields fs mimeGuess
          sc res st' hop) ih
  | step_getContent st arg sc res st' _ hop ih =>
      refine bz_contentOnly_coupled ?_ ih
      obtain ⟨tc, hG⟩ := bz_get_frame st arg sc res st' hop
      exact ⟨tc, st.request_result, hG⟩

/-! ## RT frame lemmas and reachable-state invariant -/

/-- States that differ at most in cached content and stored last result. -/
def RT.contentOnly (st st' : RT.RTState) : Prop :=
  ∃ tc rr, st' = { st with ticket_content := tc, request_result := rr }

theorem rt_contentOnly_refl (st : RT.RTState) : RT.contentOnly st st :=
  ⟨st.ticket_content, st.request_result, rfl⟩

/-- RT `postAndRefresh` touches cached content and stored result only. -/
theorem rt_postAndRefresh_frame (st : RT.RTState) (url payload : String)
    (check : String → Option String) (sc : Script) (res : ReqResult)
    (st' : RT.RTState)
    (h : (RT.postAndRefresh st url payload check sc).out = Except.ok (res, st')) :
    RT.contentOnly st st' := by
  unfold RT.postAndRefresh at h
  dsimp only at h
  rcases sc with _ | ⟨o, rest⟩ <;> simp only [takeOutcome] at h
  · simp only [Except.ok.injEq, Prod.mk.injEq] at h
    obtain ⟨-, h2⟩ := h
    exact h2 ▸ rt_contentOnly_refl st
  · cases o with
    | connError m =>
        simp only [Except.ok.injEq, Prod.mk.injEq] at h
        obtain ⟨-, h2⟩ := h
        exact h2 ▸ rt_contentOnly_refl st
    | resp r =>
        dsimp only at h
        split at h
        · simp only [Except.ok.injEq, Prod.mk.injEq] at h
          obtain ⟨-, h2⟩ := h
          exact h2 ▸ rt_contentOnly_refl st
        · split at h
          · simp only [Except.ok.injEq, Prod.mk.injEq] at h
            obtain ⟨-, h2⟩ := h
            exact h2 ▸ rt_contentOnly_refl st
          · rcases hg : (RT.get_ticket_content st Json.null "show" rest).out
              with e | ⟨res0, stG⟩ <;> rw [hg] at h
            · simp at h
            · simp only [Except.ok.injEq, Prod.mk.injEq] at h
              obtain ⟨-, h2⟩ := h
              obtain ⟨tc, hG⟩ := rt_get_frame st Json.null "show" rest res0 stG hg
              subst hG
              exact h2 ▸ ⟨tc, res0, rfl⟩

theorem rt_edit_frame (st : RT.RTState) (fields : List (String × Json))
    (sc : Script) (res : ReqResult) (st' : RT.RTState)
    (h : (RT.edit st fields sc).out = Except.ok (res, st')) :
    RT.contentOnly st st' := by
  unfold RT.edit at h
  repeat' split at h
  all_goals
    first
    | exact rt_postAndRefresh_frame _ _ _ _ _ _ _ h
    | (simp only [Except.ok.injEq, Prod.mk.injEq] at h
       obtain ⟨-, h2⟩ := h
       exact h2 ▸ rt_contentOnly_refl st)
    | simp at h

theorem rt_add_comment_frame (st : RT.RTState) (comment : Json) (sc : Script)
    (res : ReqResult) (st' : RT.RTState)
    (h : (RT.add_comment st comment sc).out = Except.ok (res, st')) :
    RT.contentOnly st st' := by
  unfold RT.add_comment at h
  repeat' split at h
  all_goals
    first
    | exact rt_postAndRefresh_frame _ _ _ _ _ _ _ h
    | (simp only [Except.ok.injEq, Prod.mk.injEq] at h
       obtain ⟨-, h2⟩ := h
       exact h2 ▸ rt_contentOnly_refl st)
    | simp at h

theorem rt_change_status_frame (st : RT.RTState) (status : Json) (sc : Script)
    (res : ReqResult) (st' : RT.RTState)
    (h : (RT.change_status st status sc).out = Except.ok (res, st')) :
    RT.contentOnly st st' := by
  unfold RT.change_status at h
  repeat' split at h
  all_goals
    first
    | exact rt_postAndRefresh_frame _ _ _ _ _ _ _ h
    | (simp only [Except.ok.injEq, Prod.mk.injEq] at h
       obtain ⟨-, h2⟩ := h
       exact h2 ▸ rt_contentOnly_refl st)
    | simp at h

theorem rt_add_attachment_frame (st : RT.RTState) (file_name : String)
    (fs : String → Option String) (sc : Script) (res : ReqResult)
    (st' : RT.RTState)
    (h : (RT.add_attachment st file_name fs sc).out = Except.ok (res, st')) :
    RT.contentOnly st st' := by
  unfold RT.add_attachment at h
  repeat' split at h
  all_goals
    first
    | exact rt_postAndRefresh_frame _ _ _ _ _ _ _ h
    | (simp only [Except.ok.injEq, Prod.mk.injEq] at h
       obtain ⟨-, h2⟩ := h
       exact h2 ▸ rt_contentOnly_refl st)

/-- The identity/URL coupling for RT handles. -/
def RT.idUrlCoupled (st : RT.RTState) : Prop :=
  st.ticket_id.truthy = true ↔ st.ticket_url ≠ none

theorem rt_contentOnly_coupled {st st' : RT.RTState}
    (hco : RT.contentOnly st st') (hst : RT.idUrlCoupled st) :
    RT.idUrlCoupled st' := by
  obtain ⟨tc, rr, rfl⟩ := hco
  exact hst

theorem rt_set_ticket_id_coupled (st : RT.RTState) (tid : Json) (sc : Script)
    (res : ReqResult) (st' : RT.RTState)
    (h : (RT.set_ticket_id st tid sc).out = Except.ok (res, st'))
    (hst : RT.idUrlCoupled st) : RT.idUrlCoupled st' := by
  unfold RT.set_ticket_id at h
  dsimp only at h
  rcases hg : (RT.get_ticket_content st tid "show" sc).out with e | ⟨res0, st1⟩ <;>
    rw [hg] at h
  · simp at h
  · obtain ⟨tc, rfl⟩ := rt_get_frame st tid "show" sc res0 st1 hg
    dsimp only at h
    split at h
    · simp only [Except.ok.injEq, Prod.mk.injEq] at h
      obtain ⟨-, h2⟩ := h
      exact h2 ▸ hst
    · simp only [RT.generate_ticket_url, Except.ok.injEq, Prod.mk.injEq] at h
      obtain ⟨-, h2⟩ := h
      subst h2
      unfold RT.idUrlCoupled
      by_cases htid : tid.truthy = true <;> simp [htid]

theorem rt_create_request_coupled (st : RT.RTState) (params : String)
    (sc : Script) (res : ReqResult) (st' : RT.RTState)
    (h : (RT.create_ticket_request st params sc).out = Except.ok (res, st'))
    (hst : RT.idUrlCoupled st) : RT.idUrlCoupled st' := by
  unfold RT.create_ticket_request at h
  rcases sc with _ | ⟨o, rest⟩ <;> simp only [takeOutcome] at h
  · simp only [Except.ok.injEq, Prod.mk.injEq] at h
    obtain ⟨-, h2⟩ := h
    exact h2 ▸ hst
  · cases o with
    | connError m =>
        simp only [Except.ok.injEq, Prod.mk.injEq] at h
        obtain ⟨-, h2⟩ := h
        exact h2 ▸ hst
    | resp r =>
        dsimp only at h
        split at h
        · simp only [Except.ok.injEq, Prod.mk.injEq] at h
          obtain ⟨-, h2⟩ := h
          exact h2 ▸ hst
        · split at h
          · simp only [Except.ok.injEq, Prod.mk.injEq] at h
            obtain ⟨-, h2⟩ := h
            exact h2 ▸ hst
          · split at h
            · simp at h
            · rename_i ds hds
              simp only [RT.generate_ticket_url] at h
              try dsimp only at h
              split at h
              · simp at h
              · rename_i res0 stG heq
                simp only [Except.ok.injEq, Prod.mk.injEq] at h
                obtain ⟨-, h2⟩ := h
                obtain ⟨tc, hG⟩ := rt_get_frame _ Json.null "show" rest res0 stG heq
                subst hG
                subst h2
                unfold RT.idUrlCoupled
                by_cases hk : (Json.str ds).truthy = true <;> simp [hk]

theorem rt_create_coupled (st : RT.RTState) (subject text : Json)
    (fields : List (String × Json)) (sc : Script) (res : ReqResult)
    (st' : RT.RTState)
    (h : (RT.create st subject text fields sc).out = Except.ok (res, st'))
    (hst : RT.idUrlCoupled st) : RT.idUrlCoupled st' := by
  unfold RT.create at h
  repeat' split at h
  all_goals
    first
    | exact rt_create_request_coupled _ _ _ _ _ h hst
    | (simp only [Except.ok.injEq, Prod.mk.injEq] at h
       obtain ⟨-, h2⟩ := h
       exact h2 ▸ hst)
    | simp at h

theorem rt_rtInit_coupled (url project : String) (principal : Json) :
    RT.idUrlCoupled (RT.rtInit url project principal) := by
  unfold RT.idUrlCoupled RT.rtInit
  simp [Json.truthy]

theorem rt_initWithId_coupled (url project : String) (principal tid : Json)
    (sc : Script) (st : RT.RTState) (sc' : Script)
    (h : RT.initWithId url project principal tid sc = some (st, sc')) :
    RT.idUrlCoupled st := by
  unfold RT.initWithId at h
  dsimp only at h
  split at h
  · simp only [Option.some.injEq, Prod.mk.injEq] at h
    obtain ⟨h1, -⟩ := h
    subst h1
    unfold RT.idUrlCoupled
    rename_i htid
    simp only [Bool.not_eq_true'] at htid
    simp [htid, RT.rtInit]
  · rcases hg : (RT.get_ticket_content
        { RT.rtInit url project principal with ticket_id := tid } tid "show" sc).out
      with e | ⟨res0, st1⟩ <;> rw [hg] at h
    · simp at h
    · dsimp only at h
      split at h
      · simp at h
      · simp only [RT.generate_ticket_url, Option.some.injEq, Prod.mk.injEq] at h
        obtain ⟨h1, -⟩ := h
        subst h1
        unfold RT.idUrlCoupled
        obtain ⟨tc, hst1⟩ := rt_get_frame _ tid "show" sc res0 st1 hg
        subst hst1
        by_cases htid : tid.truthy = true <;> simp [htid]

/-- The reachable states of an RT handle. -/
inductive RT.Reach : RT.RTState → Prop where
  | construct (url project : String) (principal : Json) :
      RT.Reach (RT.rtInit url project principal)
  | constructId (url project : String) (principal tid : Json) (sc : Script)
      (st : RT.RTState) (sc' : Script) :
      RT.initWithId url project principal tid sc = some (st, sc') → RT.Reach st
  | step_create (st : RT.RTState) (subject text : Json)
      (fields : List (String × Json)) (sc : Script) (res : ReqResult)
      (st' : RT.RTState) : RT.Reach st →
      (RT.create st subject text fields sc).out = Except.ok (res, st') →
      RT.Reach st'
  | step_setId (st : RT.RTState) (tid : Json) (sc : Script) (res : ReqResult)
      (st' : RT.RTState) : RT.Reach st →
      (RT.set_ticket_id st tid sc).out = Except.ok (res, st') → RT.Reach st'
  | step_edit (st : RT.RTState) (fields : List (String × Json)) (sc : Script)
      (res : ReqResult) (st' : RT.RTState) : RT.Reach st →
      (RT.edit st fields sc).out = Except.ok (res, st') → RT.Reach st'
  | step_comment (st : RT.RTState) (comment : Json) (sc : Script)
      (res : ReqResult) (st' : RT.RTState) : RT.Reach st →
      (RT.add_comment st comment sc).out = Except.ok (res, st') → RT.Reach st'
  | step_status (st : RT.RTState) (status : Json) (sc : Script)
      (res : ReqResult) (st' : RT.RTState) : RT.Reach st →
      (RT.change_status st status sc).out = Except.ok (res, st') → RT.Reach st'
  | step_attach (st : RT.RTState) (file_name : String)
      (fs : String → Option String) (sc : Script) (res : ReqResult)
      (st' : RT.RTState) : RT.Reach st →
      (RT.add_attachment st file_name fs sc).out = Except.ok (res, st') →
      RT.Reach st'
  | step_getContent (st : RT.RTState) (arg : Json) (opt : String) (sc : Script)
      (res : ReqResult) (st' : RT.RTState) : RT.Reach st →
      (RT.get_ticket_content st arg opt sc).out = Except.ok (res, st') →
      RT.Reach st'

theorem rt_reach_coupled (st : RT.RTState) (h : RT.Reach st) :
    RT.idUrlCoupled st := by
  induction h with
  | construct url project principal => exact rt_rtInit_coupled url project principal
  | constructId url project principal tid sc st sc' hinit =>
      exact rt_initWithId_coupled url project principal tid sc st sc' hinit
  | step_create st subject text fields sc res st' _ hop ih =>
      exact rt_create_coupled st subject text fields sc res st' hop ih
  | step_setId st tid sc res st' _ hop ih =>
      exact rt_set_ticket_id_coupled st tid sc res st' hop ih
  | step_edit st fields sc res st' _ hop ih =>
      exact rt_contentOnly_coupled (rt_edit_frame st fields sc res st' hop) ih
  | step_comment st comment sc res st' _ hop ih =>
      exact rt_contentOnly_coupled (rt_add_comment_frame st comment sc res st' hop) ih
  | step_status st status sc res st' _ hop ih =>
      exact rt_contentOnly_coupled (rt_change_status_frame st status sc res st' hop) ih
  | step_attach st file_name fs sc res st' _ hop ih =>
      exact rt_contentOnly_coupled
        (rt_add_attachment_frame st file_name fs sc res st' hop) ih
  | step_getContent st arg opt sc res st' _ hop ih =>
      refine rt_contentOnly_coupled ?_ ih
      obtain ⟨tc, hG⟩ := rt_get_frame st arg opt sc res st' hop
      exact ⟨tc, st.request_result, hG⟩

/-! ## Redmine frame lemmas and reachable-state invariant -/

/-- States that differ at most in cached content and stored last result. -/
def Redmine.contentOnly (st st' : Redmine.RMState) : Prop :=
  ∃ tc rr, st' = { st with ticket_content := tc, request_result := rr }

theorem rm_contentOnly_refl (st : Redmine.RMState) :
    Redmine.contentOnly st st :=
  ⟨st.ticket_content, st.request_result, rfl⟩

/-- Redmine `get_ticket_content` only (possibly) refreshes the cached
content. -/
theorem rm_get_frame (st : Redmine.RMState) (arg : Json) (sc : Script)
    (res : ReqResult) (st' : Redmine.RMState)
    (h : (Redmine.get_ticket_content st arg sc).out = Except.ok (res, st')) :
    ∃ tc, st' = { st with ticket_content := tc } := by
  unfold Redmine.get_ticket_content at h
  split at h
  · simp only [Except.ok.injEq, Prod.mk.injEq] at h
    exact ⟨st.ticket_content, h.2 ▸ rfl⟩
  · rcases sc with _ | ⟨o, rest⟩ <;> simp only [takeOutcome] at h
    · simp only [Except.ok.injEq, Prod.mk.injEq] at h
      exact ⟨st.ticket_content, h.2 ▸ rfl⟩
    · cases o with
      | connError m =>
          simp only [Except.ok.injEq, Prod.mk.injEq] at h
          exact ⟨st.ticket_content, h.2 ▸ rfl⟩
      | resp r =>
          dsimp only at h
          repeat' split at h
          all_goals
            first
            | (simp only [Except.ok.injEq, Prod.mk.injEq] at h
               exact ⟨st.ticket_content, h.2 ▸ rfl⟩)
            | (simp only [Except.ok.injEq, Prod.mk.injEq] at h
               exact ⟨_, h.2.symm⟩)
            | simp at h

/-- Redmine `refreshContent` changes cached content and stored result
only. -/
theorem rm_refresh_frame (st : Redmine.RMState) (reqs : List HttpRequest)
    (sc : Script) (res : ReqResult) (st' : Redmine.RMState)
    (h : (Redmine.refreshContent st reqs sc).out = Except.ok (res, st')) :
    Redmine.contentOnly st st' := by
  unfold Redmine.refreshContent at h
  dsimp only at h
  rcases hg : (Redmine.get_ticket_content st Json.null sc).out with e | ⟨res0, stG⟩ <;>
    rw [hg] at h
  · simp at h
  · simp only [Except.ok.injEq, Prod.mk.injEq] at h
    obtain ⟨tc, hG⟩ := rm_get_frame st Json.null sc res0 stG hg
    subst hG
    exact ⟨tc, res0, h.2 ▸ rfl⟩

theorem rm_edit_frame (st : Redmine.RMState) (fields : List (String × Json))
    (sc : Script) (res : ReqResult) (st' : Redmine.RMState)
    (h : (Redmine.edit st fields sc).out = Except.ok (res, st')) :
    Redmine.contentOnly st st' := by
  unfold Redmine.edit at h
  split at h
  · simp only [Except.ok.injEq, Prod.mk.injEq] at h
    obtain ⟨-, h2⟩ := h
    exact h2 ▸ rm_contentOnly_refl st
  · rcases hG : Redmine.prepare_ticket_fields st fields sc with ⟨lreqs, fs?, sc1⟩
    rw [hG] at h
    try dsimp only at h
    rcases fs? with e | prepared <;> try dsimp only at h
    · simp at h
    · rcases sc1 with _ | ⟨o, rest⟩ <;> simp only [takeOutcome] at h
      · simp only [Except.ok.injEq, Prod.mk.injEq] at h
        obtain ⟨-, h2⟩ := h
        exact h2 ▸ rm_contentOnly_refl st
      · cases o with
        | connError m =>
            simp only [Except.ok.injEq, Prod.mk.injEq] at h
            obtain ⟨-, h2⟩ := h
            exact h2 ▸ rm_contentOnly_refl st
        | resp r =>
            dsimp only at h
            split at h
            · simp only [Except.ok.injEq, Prod.mk.injEq] at h
              obtain ⟨-, h2⟩ := h
              exact h2 ▸ rm_contentOnly_refl st
            · exact rm_refresh_frame _ _ _ _ _ h

theorem rm_add_comment_frame (st : Redmine.RMState) (comment : Json)
    (sc : Script) (res : ReqResult) (st' : Redmine.RMState)
    (h : (Redmine.add_comment st comment sc).out = Except.ok (res, st')) :
    Redmine.contentOnly st st' := by
  unfold Redmine.add_comment at h
  split at h
  · simp only [Except.ok.injEq, Prod.mk.injEq] at h
    obtain ⟨-, h2⟩ := h
    exact h2 ▸ rm_contentOnly_refl st
  · dsimp only at h
    rcases sc with _ | ⟨o, rest⟩ <;> simp only [takeOutcome] at h
    · simp only [Except.ok.injEq, Prod.mk.injEq] at h
      obtain ⟨-, h2⟩ := h
      exact h2 ▸ rm_contentOnly_refl st
    · cases o with
      | connError m =>
          simp only [Except.ok.injEq, Prod.mk.injEq] at h
          obtain ⟨-, h2⟩ := h
          exact h2 ▸ rm_contentOnly_refl st
      | resp r =>
          dsimp only at h
          split at h
          · simp only [Except.ok.injEq, Prod.mk.injEq] at h
            obtain ⟨-, h2⟩ := h
            exact h2 ▸ rm_contentOnly_refl st
          · exact rm_refresh_frame _ _ _ _ _ h

theorem rm_change_status_frame (st : Redmine.RMState) (status : Json)
    (sc : Script) (res : ReqResult) (st' : Redmine.RMState)
    (h : (Redmine.change_status st status sc).out = Except.ok (res, st')) :
    Redmine.contentOnly st st' := by
  unfold Redmine.change_status at h
  split at h
  · simp only [Except.ok.injEq, Prod.mk.injEq] at h
    obtain ⟨-, h2⟩ := h
    exact h2 ▸ rm_contentOnly_refl st
  · rcases hG : Redmine.get_status_id st status sc with ⟨lreqs, sid?, sc1⟩
    rw [hG] at h
    try dsimp only at h
    rcases sid? with e | sid <;> try dsimp only at h
    · simp at h
    · split at h
      · simp only [Except.ok.injEq, Prod.mk.injEq] at h
        obtain ⟨-, h2⟩ := h
        exact h2 ▸ rm_contentOnly_refl st
      · rcases sc1 with _ | ⟨o, rest⟩ <;> simp only [takeOutcome] at h
        · simp only [Except.ok.injEq, Prod.mk.injEq] at h
          obtain ⟨-, h2⟩ := h
          exact h2 ▸ rm_contentOnly_refl st
        · cases o with
          | connError m =>
              simp only [Except.ok.injEq, Prod.mk.injEq] at h
              obtain ⟨-, h2⟩ := h
              exact h2 ▸ rm_contentOnly_refl st
          | resp r =>
              dsimp only at h
              split at h
              · simp only [Except.ok.injEq, Prod.mk.injEq] at h
                obtain ⟨-, h2⟩ := h
                exact h2 ▸ rm_contentOnly_refl st
              · exact rm_refresh_frame _ _ _ _ _ h

theorem rm_add_watcher_frame (st : Redmine.RMState) (watcher : Json)
    (sc : Script) (res : ReqResult) (st' : Redmine.RMState)
    (h : (Redmine.add_watcher st watcher sc).out = Except.ok (res, st')) :
    Redmine.contentOnly st st' := by
  unfold Redmine.add_watcher at h
  split at h
  · simp only [Except.ok.injEq, Prod.mk.injEq] at h
    obtain ⟨-, h2⟩ := h
    exact h2 ▸ rm_contentOnly_refl st
  · cases watcher with
    | null => simp at h
    | bool b => simp at h
    | num n => simp at h
    | arr xs => simp at h
    | obj kvs => simp at h
    | str w =>
      dsimp only at h
      rcases hG : Redmine.get_user_id st
          (Json.str (if strIn "@" w then strStrip ((strSplit '@' w).headD "") else w))
          sc with ⟨lreqs, u?, sc1⟩
      rw [hG] at h
      try dsimp only at h
      rcases u? with e | u <;> try dsimp only at h
      · simp at h
      · split at h
        · rcases sc1 with _ | ⟨o, rest⟩ <;> simp only [takeOutcome] at h
          · simp only [Except.ok.injEq, Prod.mk.injEq] at h
            obtain ⟨-, h2⟩ := h
            exact h2 ▸ rm_contentOnly_refl st
          · cases o with
            | connError m =>
                simp only [Except.ok.injEq, Prod.mk.injEq] at h
                obtain ⟨-, h2⟩ := h
                exact h2 ▸ rm_contentOnly_refl st
            | resp r =>
                dsimp only at h
                split at h
                · simp only [Except.ok.injEq, Prod.mk.injEq] at h
                  obtain ⟨-, h2⟩ := h
                  exact h2 ▸ rm_contentOnly_refl st
                · exact rm_refresh_frame _ _ _ _ _ h
        · simp only [Except.ok.injEq, Prod.mk.injEq] at h
          obtain ⟨-, h2⟩ := h
          exact h2 ▸ rm_contentOnly_refl st

theorem rm_remove_watcher_frame (st : Redmine.RMState) (watcher : Json)
    (sc : Script) (res : ReqResult) (st' : Redmine.RMState)
    (h : (Redmine.remove_watcher st watcher sc).out = Except.ok (res, st')) :
    Redmine.contentOnly st st' := by
  unfold Redmine.remove_watcher at h
  split at h
  · simp only [Except.ok.injEq, Prod.mk.injEq] at h
    obtain ⟨-, h2⟩ := h
    exact h2 ▸ rm_contentOnly_refl st
  · cases watcher with
    | null => simp at h
    | bool b => simp at h
    | num n => simp at h
    | arr xs => simp at h
    | obj kvs => simp at h
    | str w =>
      dsimp only at h
      rcases hG : Redmine.get_user_id st
          (Json.str (if strIn "@" w then strStrip ((strSplit '@' w).headD "") else w))
          sc with ⟨lreqs, u?, sc1⟩
      rw [hG] at h
      try dsimp only at h
      rcases u? with e | u <;> try dsimp only at h
      · simp at h
      · rcases sc1 with _ | ⟨o, rest⟩ <;> simp only [takeOutcome] at h
        · simp only [Except.ok.injEq, Prod.mk.injEq] at h
          obtain ⟨-, h2⟩ := h
          exact h2 ▸ rm_contentOnly_refl st
        · cases o with
          | connError m =>
              simp only [Except.ok.injEq, Prod.mk.injEq] at h
              obtain ⟨-, h2⟩ := h
              exact h2 ▸ rm_contentOnly_refl st
          | resp r =>
              dsimp only at h
              split at h
              · simp only [Except.ok.injEq, Prod.mk.injEq] at h
                obtain ⟨-, h2⟩ := h
                exact h2 ▸ rm_contentOnly_refl st
              · exact rm_refresh_frame _ _ _ _ _ h

theorem rm_add_attachment_frame (st : Redmine.RMState) (file_name : String)
    (fs : String → Option String) (sc : Script) (res : ReqResult)
    (st' : Redmine.RMState)
    (h : (Redmine.add_attachment st file_name fs sc).out = Except.ok (res, st')) :
    Redmine.contentOnly st st' := by
  unfold Redmine.add_attachment at h
  split at h
  · simp only [Except.ok.injEq, Prod.mk.injEq] at h
    obtain ⟨-, h2⟩ := h
    exact h2 ▸ rm_contentOnly_refl st
  · rcases hG : Redmine.upload_file st file_name fs sc with ⟨lreqs, tok?, sc1⟩
    rw [hG] at h
    try dsimp only at h
    rcases tok? with e | tok <;> try dsimp only at h
    · simp at h
    · split at h
      · rcases sc1 with _ | ⟨o, rest⟩ <;> simp only [takeOutcome] at h
        · simp only [Except.ok.injEq, Prod.mk.injEq] at h
          obtain ⟨-, h2⟩ := h
          exact h2 ▸ rm_contentOnly_refl st
        · cases o with
          | connError m =>
              simp only [Except.ok.injEq, Prod.mk.injEq] at h
              obtain ⟨-, h2⟩ := h
              exact h2 ▸ rm_contentOnly_refl st
          | resp r =>
              dsimp only at h
              split at h
              · simp only [Except.ok.injEq, Prod.mk.injEq] at h
                obtain ⟨-, h2⟩ := h
                exact h2 ▸ rm_contentOnly_refl st
              · exact rm_refresh_frame _ _ _ _ _ h
      · simp only [Except.ok.injEq, Prod.mk.injEq] at h
        obtain ⟨-, h2⟩ := h
        exact h2 ▸ rm_contentOnly_refl st

/-- The identity/URL coupling for Redmine handles. -/
def Redmine.idUrlCoupled (st : Redmine.RMState) : Prop :=
  st.ticket_id.truthy = true ↔ st.ticket_url ≠ none

theorem rm_contentOnly_coupled {st st' : Redmine.RMState}
    (hco : Redmine.contentOnly st st') (hst : Redmine.idUrlCoupled st) :
    Redmine.idUrlCoupled st' := by
  obtain ⟨tc, rr, rfl⟩ := hco
  exact hst

/-- Redmine `bindTicket` fields: the id is stored and the URL follows the
Redmine rule (`<rest_url>/<id>`). -/
theorem rm_bindTicket_fields (st : Redmine.RMState) (idv : Json) :
    (Redmine.bindTicket st idv).ticket_id = idv ∧
    (Redmine.bindTicket st idv).ticket_url =
      (if idv.truthy then some (st.rest_url ++ "/" ++ Json.pyStr idv) else none) ∧
    (Redmine.bindTicket st idv).url = st.url ∧
    (Redmine.bindTicket st idv).rest_url = st.rest_url := by
  unfold Redmine.bindTicket Redmine.generate_ticket_url
  refine ⟨rfl, ?_, rfl, rfl⟩
  by_cases hk : idv.truthy = true <;> simp [hk]

theorem rm_bindTicket_coupled (st : Redmine.RMState) (idv : Json) :
    Redmine.idUrlCoupled (Redmine.bindTicket st idv) := by
  unfold Redmine.idUrlCoupled
  obtain ⟨h1, h2, -, -⟩ := rm_bindTicket_fields st idv
  rw [h1, h2]
  by_cases hk : idv.truthy = true <;> simp [hk]

theorem rm_set_ticket_id_coupled (st : Redmine.RMState) (tid : Json)
    (sc : Script) (res : ReqResult) (st' : Redmine.RMState)
    (h : (Redmine.set_ticket_id st tid sc).out = Except.ok (res, st'))
    (hst : Redmine.idUrlCoupled st) : Redmine.idUrlCoupled st' := by
  unfold Redmine.set_ticket_id at h
  dsimp only at h
  rcases hg : (Redmine.get_ticket_content st tid sc).out with e | ⟨res0, st1⟩ <;>
    rw [hg] at h
  · simp at h
  · obtain ⟨tc, rfl⟩ := rm_get_frame st tid sc res0 st1 hg
    dsimp only at h
    split at h
    · simp only [Except.ok.injEq, Prod.mk.injEq] at h
      obtain ⟨-, h2⟩ := h
      exact h2 ▸ hst
    · simp only [Redmine.generate_ticket_url, Except.ok.injEq, Prod.mk.injEq] at h
      obtain ⟨-, h2⟩ := h
      subst h2
      unfold Redmine.idUrlCoupled
      by_cases htid : tid.truthy = true <;> simp [htid]

theorem rm_create_request_coupled (st : Redmine.RMState) (params : Json)
    (sc : Script) (res : ReqResult) (st' : Redmine.RMState)
    (h : (Redmine.create_ticket_request st params sc).out = Except.ok (res, st'))
    (hst : Redmine.idUrlCoupled st) : Redmine.idUrlCoupled st' := by
  unfold Redmine.create_ticket_request at h
  rcases sc with _ | ⟨o, rest⟩ <;> simp only [takeOutcome] at h
  · simp only [Except.ok.injEq, Prod.mk.injEq] at h
    obtain ⟨-, h2⟩ := h
    exact h2 ▸ hst
  · cases o with
    | connError m =>
        simp only [Except.ok.injEq, Prod.mk.injEq] at h
        obtain ⟨-, h2⟩ := h
        exact h2 ▸ hst
    | resp r =>
        dsimp only at h
        repeat' split at h
        all_goals
          first
          | exact rm_contentOnly_coupled (rm_refresh_frame _ _ _ _ _ h)
              (rm_bindTicket_coupled st _)
          | (simp only [Except.ok.injEq, Prod.mk.injEq] at h
             obtain ⟨-, h2⟩ := h
             exact h2 ▸ hst)
          | simp at h

theorem rm_create_coupled (st : Redmine.RMState) (subject description : Json)
    (fields : List (String × Json)) (sc : Script) (res : ReqResult)
    (st' : Redmine.RMState)
    (h : (Redmine.create st subject description fields sc).out = Except.ok (res, st'))
    (hst : Redmine.idUrlCoupled st) : Redmine.idUrlCoupled st' := by
  unfold Redmine.create at h
  split at h
  · simp only [Except.ok.injEq, Prod.mk.injEq] at h
    obtain ⟨-, h2⟩ := h
    exact h2 ▸ hst
  · split at h
    · simp only [Except.ok.injEq, Prod.mk.injEq] at h
      obtain ⟨-, h2⟩ := h
      exact h2 ▸ hst
    · rcases hP : Redmine.get_project_id st sc with ⟨preqs, pid?, sc1⟩
      rw [hP] at h
      try dsimp only at h
      rcases pid? with e | pid <;> try dsimp only at h
      · simp at h
      · rcases hF : Redmine.prepare_ticket_fields st fields sc1 with ⟨freqs, fs?, sc2⟩
        rw [hF] at h
        try dsimp only at h
        rcases fs? with e | prepared <;> try dsimp only at h
        · simp at h
        · exact rm_create_request_coupled _ _ _ _ _ h hst

theorem rm_rmInit_coupled (url project : String) :
    Redmine.idUrlCoupled (Redmine.rmInit url project) := by
  unfold Redmine.idUrlCoupled Redmine.rmInit
  simp [Json.truthy]

theorem rm_initWithId_coupled (url project : String) (tid : Json)
    (sc : Script) (st : Redmine.RMState) (sc' : Script)
    (h : Redmine.initWithId url project tid sc = some (st, sc')) :
    Redmine.idUrlCoupled st := by
  unfold Redmine.initWithId at h
  dsimp only at h
  split at h
  · simp only [Option.some.injEq, Prod.mk.injEq] at h
    obtain ⟨h1, -⟩ := h
    subst h1
    unfold Redmine.idUrlCoupled
    rename_i htid
    simp only [Bool.not_eq_true'] at htid
    simp [htid, Redmine.rmInit]
  · rcases hg : (Redmine.get_ticket_content
        { Redmine.rmInit url project with ticket_id := tid } tid sc).out
      with e | ⟨res0, st1⟩ <;> rw [hg] at h
    · simp at h
    · dsimp only at h
      split at h
      · simp at h
      · simp only [Redmine.generate_ticket_url, Option.some.injEq,
          Prod.mk.injEq] at h
        obtain ⟨h1, -⟩ := h
        subst h1
        unfold Redmine.idUrlCoupled
        obtain ⟨tc, hst1⟩ := rm_get_frame _ tid sc res0 st1 hg
        subst hst1
        by_cases htid : tid.truthy = true <;> simp [htid]

/-- The reachable states of a Redmine handle. -/
inductive Redmine.Reach : Redmine.RMState → Prop where
  | construct (url project : String) : Redmine.Reach (Redmine.rmInit url project)
  | constructId (url project : String) (tid : Json) (sc : Script)
      (st : Redmine.RMState) (sc' : Script) :
      Redmine.initWithId url project tid sc = some (st, sc') → Redmine.Reach st
  | step_create (st : Redmine.RMState) (subject description : Json)
      (fields : List (String × Json)) (sc : Script) (res : ReqResult)
      (st' : Redmine.RMState) : Redmine.Reach st →
      (Redmine.create st subject description fields sc).out = Except.ok (res, st') →
      Redmine.Reach st'
  | step_setId (st : Redmine.RMState) (tid : Json) (sc : Script)
      (res : ReqResult) (st' : Redmine.RMState) : Redmine.Reach st →
      (Redmine.set_ticket_id st tid sc).out = Except.ok (res, st') →
      Redmine.Reach st'
  | step_edit (st : Redmine.RMState) (fields : List (String × Json))
      (sc : Script) (res : ReqResult) (st' : Redmine.RMState) : Redmine.Reach st →
      (Redmine.edit st fields sc).out = Except.ok (res, st') → Redmine.Reach st'
  | step_comment (st : Redmine.RMState) (comment : Json) (sc : Script)
      (res : ReqResult) (st' : Redmine.RMState) : Redmine.Reach st →
      (Redmine.add_comment st comment sc).out = Except.ok (res, st') →
      Redmine.Reach st'
  | step_status (st : Redmine.RMState) (status : Json) (sc : Script)
      (res : ReqResult) (st' : Redmine.RMState) : Redmine.Reach st →
      (Redmine.change_status st status sc).out = Except.ok (res, st') →
      Redmine.Reach st'
  | step_addWatcher (st : Redmine.RMState) (w : Json) (sc : Script)
      (res : ReqResult) (st' : Redmine.RMState) : Redmine.Reach st →
      (Redmine.add_watcher st w sc).out = Except.ok (res, st') → Redmine.Reach st'
  | step_removeWatcher (st : Redmine.RMState) (w : Json) (sc : Script)
      (res : ReqResult) (st' : Redmine.RMState) : Redmine.Reach st →
      (Redmine.remove_watcher st w sc).out = Except.ok (res, st') →
      Redmine.Reach st'
  | step_attach (st : Redmine.RMState) (file_name : String)
      (fs : String → Option String) (sc : Script) (res : ReqResult)
      (st' : Redmine.RMState) : Redmine.Reach st →
      (Redmine.add_attachment st file_name fs sc).out = Except.ok (res, st') →
      Redmine.Reach st'
  | step_getContent (st : Redmine.RMState) (arg : Json) (sc : Script)
      (res : ReqResult) (st' : Redmine.RMState) : Redmine.Reach st →
      (Redmine.get_ticket_content st arg sc).out = Except.ok (res, st') →
      Redmine.Reach st'

theorem rm_reach_coupled (st : Redmine.RMState) (h : Redmine.Reach st) :
    Redmine.idUrlCoupled st := by
  induction h with
  | construct url project => exact rm_rmInit_coupled url project
  | constructId url project tid sc st sc' hinit =>
      exact rm_initWithId_coupled url project tid sc st sc' hinit
  | step_create st subject description fields sc res st' _ hop ih =>
      exact rm_create_coupled st subject description fields sc res st' hop ih
  | step_setId st tid sc res st' _ hop ih =>
      exact rm_set_ticket_id_coupled st tid sc res st' hop ih
  | step_edit st fields sc res st' _ hop ih =>
      exact rm_contentOnly_coupled (rm_edit_frame st fields sc res st' hop) ih
  | step_comment st comment sc res st' _ hop ih =>
      exact rm_contentOnly_coupled (rm_add_comment_frame st comment sc res st' hop) ih
  | step_status st status sc res st' _ hop ih =>
      exact rm_contentOnly_coupled (rm_change_status_frame st status sc res st' hop) ih
  | step_addWatcher st w sc res st' _ hop ih =>
      exact rm_contentOnly_coupled (rm_add_watcher_frame st w sc res st' hop) ih
  | step_removeWatcher st w sc res st' _ hop ih =>
      exact rm_contentOnly_coupled (rm_remove_watcher_frame st w sc res st' hop) ih
  | step_attach st file_name fs sc res st' _ hop ih =>
      exact rm_contentOnly_coupled
        (rm_add_attachment_frame st file_name fs sc res st' hop) ih
  | step_getContent st arg sc res st' _ hop ih =>
      refine rm_contentOnly_coupled ?_ ih
      obtain ⟨tc, hG⟩ := rm_get_frame st arg sc res st' hop
      exact ⟨tc, st.request_result, hG⟩

/-! ## ServiceNow frame lemmas -/

/-- A returning ServiceNow `get_ticket_content` leaves the handle state
exactly unchanged (the fetched content is only placed in the returned
result, never cached on the handle). -/
theorem sn_get_frame (st : ServiceNow.SNState) (arg : Json) (sc : Script)
    (res : ReqResult) (st' : ServiceNow.SNState)
    (h : (ServiceNow.get_ticket_content st arg sc).out = Except.ok (res, st')) :
    st' = st := by
  unfold ServiceNow.get_ticket_content at h
  split at h
  · simp only [Except.ok.injEq, Prod.mk.injEq] at h
    exact h.2.symm
  · rcases sc with _ | ⟨o, rest⟩ <;> simp only [takeOutcome] at h
    · simp only [Except.ok.injEq, Prod.mk.injEq] at h
      exact h.2.symm
    · cases o with
      | connError m =>
          simp only [Except.ok.injEq, Prod.mk.injEq] at h
          exact h.2.symm
      | resp r =>
          dsimp only at h
          split at h
          · simp only [Except.ok.injEq, Prod.mk.injEq] at h
            exact h.2.symm
          · simp only [bind, Except.bind, pure, Except.pure] at h
            repeat' split at h
            all_goals
              first
              | (simp only [Except.ok.injEq, Prod.mk.injEq] at h
                 exact h.2.symm)
              | simp at h

/-- A returning ServiceNow `_generate_ticket_url` call: the state is
changed only in `request_result`, and the returned URL follows the
`sys_id` rule. -/
theorem sn_generate_ok (st : ServiceNow.SNState) (sc : Script)
    (reqs2 : List HttpRequest) (turl : Option String)
    (st2 : ServiceNow.SNState) (sc2 : Script)
    (h : ServiceNow.generate_ticket_url st sc =
      (reqs2, Except.ok (turl, st2), sc2)) :
    (∃ rr, st2 = { st with request_result := rr }) ∧
    turl = (match st.sys_id with
            | some sid =>
                if sid.truthy then
                  some (st.url ++ "/" ++ st.project ++ ".do?sys_id=" ++
                    Json.pyStr sid)
                else none
            | none => none) := by
  unfold ServiceNow.generate_ticket_url at h
  split at h
  · simp at h
  · rename_i sid hsid
    dsimp only at h
    split at h
    · simp at h
    · rename_i cres stG heq
      have hG := sn_get_frame _ Json.null sc cres stG heq
      subst hG
      simp only [Prod.mk.injEq, Except.ok.injEq] at h
      obtain ⟨-, ⟨hturl, hst2⟩, -⟩ := h
      subst hst2
      subst hturl
      refine ⟨⟨_, rfl⟩, ?_⟩
      rw [hsid]

/-! ## Example fixtures used by witnesses and counterexamples -/

/-- A freshly constructed Jira handle with no ticket bound. -/
def exJira : Jira.JiraState := Jira.jiraInit "jira.com" "PROJECT"

/-- A freshly constructed Bugzilla handle with no ticket bound. -/
def exBZ : Bugzilla.BZState := Bugzilla.bzInit "bugzilla.com" "PROD"

/-- A freshly constructed RT handle with no ticket bound. -/
def exRT : RT.RTState :=
  { url := "rt.com", project := "QUEUE", rest_url := "rt.com/REST/1.0",
    principal := Json.null, ticket_id := Json.null, ticket_url := none,
    ticket_content := none, request_result := ReqResult.init }

/-- A freshly constructed Redmine handle with no ticket bound. -/
def exRM : Redmine.RMState :=
  { url := "redmine.com", project := "PROJ", rest_url := "redmine.com/issues",
    ticket_id := Json.null, ticket_url := none, ticket_content := none,
    request_result := ReqResult.init }

/-- A ServiceNow handle with no ticket bound. -/
def exSN : ServiceNow.SNState :=
  { url := "snow.com", project := "x_table",
    rest_url := "snow.com/api/now/v1/table/x_table",
    available_states := [("open", Json.str "1")],
    ticket_id := Json.null, sys_id := none, ticket_rest_url := none,
    ticket_url := none, ticket_content := none, request_result := ReqResult.init }

/-- A ServiceNow handle with a validated ticket whose cached
`watch_list` is `"b@x.com"`. -/
def exSNBound : ServiceNow.SNState :=
  { exSN with
    ticket_id := Json.str "PNT0001",
    sys_id := some (Json.str "abc123"),
    ticket_rest_url := some "snow.com/api/now/v1/table/x_table/abc123",
    ticket_url := some "snow.com/x_table.do?sys_id=abc123",
    ticket_content := some (Json.obj [("watch_list", Json.str "b@x.com"),
                                      ("sys_id", Json.str "abc123")]) }

/-- A 200 response whose body decodes to `j`. -/
def okJson (j : Json) : HttpOutcome :=
  HttpOutcome.resp { status := 200, text := "", jsonBody := some j, errText := "" }

/-! ## Claim theorems -/

/-- C1: for every modelled adapter and mutating operation, calling the
operation on a handle whose `ticket_id` is unset (Python-falsy) returns a
Failure `Result` carrying the fixed "No ticket ID associated with ticket
object. Set ticket ID with set_ticket_id(<ticket_id>)" message, leaves the
state untouched, and attempts zero HTTP calls. -/
theorem C1_unset_guard_blocks_mutations :
    (∀ (st : Jira.JiraState) fields sc, st.ticket_id.truthy = false →
      Jira.edit st fields sc =
        ⟨[], Except.ok (st.request_result.fail noTicketIdMsg, st), sc⟩) ∧
    (∀ (st : Jira.JiraState) c sc, st.ticket_id.truthy = false →
      Jira.add_comment st c sc =
        ⟨[], Except.ok (st.request_result.fail noTicketIdMsg, st), sc⟩) ∧
    (∀ (st : Jira.JiraState) v sc, st.ticket_id.truthy = false →
      Jira.change_status st v sc =
        ⟨[], Except.ok (st.request_result.fail noTicketIdMsg, st), sc⟩) ∧
    (∀ (st : Jira.JiraState) w sc, st.ticket_id.truthy = false →
      Jira.add_watcher st w sc =
        ⟨[], Except.ok (st.request_result.fail noTicketIdMsg, st), sc⟩) ∧
    (∀ (st : Jira.JiraState) w sc, st.ticket_id.truthy = false →
      Jira.remove_watcher st w sc =
        ⟨[], Except.ok (st.request_result.fail noTicketIdMsg, st), sc⟩) ∧
    (∀ (st : Jira.JiraState) sc, st.ticket_id.truthy = false →
      Jira.remove_all_watchers st sc =
        ⟨[], Except.ok (st.request_result.fail noTicketIdMsg, st), sc⟩) ∧
    (∀ (st : Jira.JiraState) f fs sc, st.ticket_id.truthy = false →
      Jira.add_attachment st f fs sc =
        ⟨[], Except.ok (st.request_result.fail noTicketIdMsg, st), sc⟩) ∧
    (∀ (st : Bugzilla.BZState) fields sc, st.ticket_id.truthy = false →
      Bugzilla.edit st fields sc =
        ⟨[], Except.ok (st.request_result.fail noTicketIdMsg, st), sc⟩) ∧
    (∀ (st : Bugzilla.BZState) c fields sc, st.ticket_id.truthy = false →
      Bugzilla.add_comment st c fields sc =
        ⟨[], Except.ok (st.request_result.fail noTicketIdMsg, st), sc⟩) ∧
    (∀ (st : Bugzilla.BZState) v fields sc, st.ticket_id.truthy = false →
      Bugzilla.change_status st v fields sc =
        ⟨[], Except.ok (st.request_result.fail noTicketIdMsg, st), sc⟩) ∧
    (∀ (st : Bugzilla.BZState) u sc, st.ticket_id.truthy = false →
      Bugzilla.add_cc st u sc =
        ⟨[], Except.ok (st.request_result.fail noTicketIdMsg, st), sc⟩) ∧
    (∀ (st : Bugzilla.BZState) u sc, st.ticket_id.truthy = false →
      Bugzilla.remove_cc st u sc =
        ⟨[], Except.ok (st.request_result.fail noTicketIdMsg, st), sc⟩) ∧
    (∀ (st : Bugzilla.BZState) f d su fields fs mg sc, st.ticket_id.truthy = false →
      Bugzilla.add_attachment st f d su fields fs mg sc =
        ⟨[], Except.ok (st.request_result.fail noTicketIdMsg, st), sc⟩) ∧
    (∀ (st : RT.RTState) fields sc, st.ticket_id.truthy = false →
      RT.edit st fields sc =
        ⟨[], Except.ok (st.request_result.fail noTicketIdMsg, st), sc⟩) ∧
    (∀ (st : RT.RTState) c sc, st.ticket_id.truthy = false →
      RT.add_comment st c sc =
        ⟨[], Except.ok (st.request_result.fail noTicketIdMsg, st), sc⟩) ∧
    (∀ (st : RT.RTState) v sc, st.ticket_id.truthy = false →
      RT.change_status st v sc =
        ⟨[], Except.ok (st.request_result.fail noTicketIdMsg, st), sc⟩) ∧
    (∀ (st : RT.RTState) f fs sc, st.ticket_id.truthy = false →
      RT.add_attachment st f fs sc =
        ⟨[], Except.ok (st.request_result.fail noTicketIdMsg, st), sc⟩) ∧
    (∀ (st : Redmine.RMState) fields sc, st.ticket_id.truthy = false →
      Redmine.edit st fields sc =
        ⟨[], Except.ok (st.request_result.fail noTicketIdMsg, st), sc⟩) ∧
    (∀ (st : Redmine.RMState) c sc, st.ticket_id.truthy = false →
      Redmine.add_comment st c sc =
        ⟨[], Except.ok (st.request_result.fail noTicketIdMsg, st), sc⟩) ∧
    (∀ (st : Redmine.RMState) v sc, st.ticket_id.truthy = false →
      Redmine.change_status st v sc =
        ⟨[], Except.ok (st.request_result.fail noTicketIdMsg, st), sc⟩) ∧
    (∀ (st : Redmine.RMState) w sc, st.ticket_id.truthy = false →
      Redmine.add_watcher st w sc =
        ⟨[], Except.ok (st.request_result.fail noTicketIdMsg, st), sc⟩) ∧
    (∀ (st : Redmine.RMState) w sc, st.ticket_id.truthy = false →
      Redmine.remove_watcher st w sc =
        ⟨[], Except.ok (st.request_result.fail noTicketIdMsg, st), sc⟩) ∧
    (∀ (st : Redmine.RMState) f fs sc, st.ticket_id.truthy = false →
      Redmine.add_attachment st f fs sc =
        ⟨[], Except.ok (st.request_result.fail noTicketIdMsg, st), sc⟩) ∧
    (∀ (st : ServiceNow.SNState) fields sc, st.ticket_id.truthy = false →
      ServiceNow.edit st fields sc =
        ⟨[], Except.ok (st.request_result.fail noTicketIdMsg, st), sc⟩) ∧
    (∀ (st : ServiceNow.SNState) c sc, st.ticket_id.truthy = false →
      ServiceNow.add_comment st c sc =
        ⟨[], Except.ok (st.request_result.fail noTicketIdMsg, st), sc⟩) ∧
    (∀ (st : ServiceNow.SNState) v sc, st.ticket_id.truthy = false →
      ServiceNow.change_status st v sc =
        ⟨[], Except.ok (st.request_result.fail noTicketIdMsg, st), sc⟩) ∧
    (∀ (st : ServiceNow.SNState) u sc, st.ticket_id.truthy = false →
      ServiceNow.add_cc st u sc =
        ⟨[], Except.ok (st.request_result.fail noTicketIdMsg, st), sc⟩) ∧
    (∀ (st : ServiceNow.SNState) u sc, st.ticket_id.truthy = false →
      ServiceNow.rewrite_cc st u sc =
        ⟨[], Except.ok (st.request_result.fail noTicketIdMsg, st), sc⟩) ∧
    (∀ (st : ServiceNow.SNState) u sc, st.ticket_id.truthy = false →
      ServiceNow.remove_cc st u sc =
        ⟨[], Except.ok (st.request_result.fail noTicketIdMsg, st), sc⟩) ∧
    (∀ (st : ServiceNow.SNState) f n fs sc, st.ticket_id.truthy = false →
      ServiceNow.add_attachment st f n fs sc =
        ⟨[], Except.ok (st.request_result.fail noTicketIdMsg, st), sc⟩) := by
  refine ⟨?_, ?_, ?_, ?_, ?_, ?_, ?_, ?_, ?_, ?_, ?_, ?_, ?_, ?_, ?_, ?_,
    ?_, ?_, ?_, ?_, ?_, ?_, ?_, ?_, ?_, ?_, ?_, ?_, ?_, ?_⟩ <;>
    intro st
  · intro fields sc h; simp [Jira.edit, h]
  · intro c sc h; simp [Jira.add_comment, h]
  · intro v sc h; simp [Jira.change_status, h]
  · intro w sc h; simp [Jira.add_watcher, h]
  · intro w sc h; simp [Jira.remove_watcher, h]
  · intro sc h; simp [Jira.remove_all_watchers, h]
  · intro f fs sc h; simp [Jira.add_attachment, h]
  · intro fields sc h; simp [Bugzilla.edit, h]
  · intro c fields sc h; simp [Bugzilla.add_comment, h]
  · intro v fields sc h; simp [Bugzilla.change_status, h]
  · intro u sc h; simp [Bugzilla.add_cc, Bugzilla.changeCC, h]
  · intro u sc h; simp [Bugzilla.remove_cc, Bugzilla.changeCC, h]
  · intro f d su fields fs mg sc h; simp [Bugzilla.add_attachment, h]
  · intro fields sc h; simp [RT.edit, h]
  · intro c sc h; simp [RT.add_comment, h]
  · intro v sc h; simp [RT.change_status, h]
  · intro f fs sc h; simp [RT.add_attachment, h]
  · intro fields sc h; simp [Redmine.edit, h]
  · intro c sc h; simp [Redmine.add_comment, h]
  · intro v sc h; simp [Redmine.change_status, h]
  · intro w sc h; simp [Redmine.add_watcher, h]
  · intro w sc h; simp [Redmine.remove_watcher, h]
  · intro f fs sc h; simp [Redmine.add_attachment, h]
  · intro fields sc h; simp [ServiceNow.edit, h]
  · intro c sc h; simp [ServiceNow.add_comment, h]
  · intro v sc h; simp [ServiceNow.change_status, h]
  · intro u sc h; simp [ServiceNow.add_cc, h]
  · intro u sc h; simp [ServiceNow.rewrite_cc, h]
  · intro u sc h; simp [ServiceNow.remove_cc, h]
  · intro f n fs sc h; simp [ServiceNow.add_attachment, h]

/-- C1 witness: the guard at work on freshly constructed unset handles of
all five adapters. -/
theorem C1_unset_guard_blocks_mutations_witness :
    Jira.edit exJira [] [] =
      ⟨[], Except.ok (exJira.request_result.fail noTicketIdMsg, exJira), []⟩ ∧
    Bugzilla.add_cc exBZ (Json.str "a@x.com") [] =
      ⟨[], Except.ok (exBZ.request_result.fail noTicketIdMsg, exBZ), []⟩ ∧
    RT.change_status exRT (Json.str "open") [] =
      ⟨[], Except.ok (exRT.request_result.fail noTicketIdMsg, exRT), []⟩ ∧
    Redmine.add_comment exRM (Json.str "hi") [] =
      ⟨[], Except.ok (exRM.request_result.fail noTicketIdMsg, exRM), []⟩ ∧
    ServiceNow.add_comment exSN (Json.str "hi") [] =
      ⟨[], Except.ok (exSN.request_result.fail noTicketIdMsg, exSN), []⟩ :=
  ⟨C1_unset_guard_blocks_mutations.1 exJira [] [] rfl,
   C1_unset_guard_blocks_mutations.2.2.2.2.2.2.2.2.2.2.1 exBZ (Json.str "a@x.com") [] rfl,
   C1_unset_guard_blocks_mutations.2.2.2.2.2.2.2.2.2.2.2.2.2.2.2.1 exRT (Json.str "open") [] rfl,
   C1_unset_guard_blocks_mutations.2.2.2.2.2.2.2.2.2.2.2.2.2.2.2.2.2.2.1 exRM (Json.str "hi") [] rfl,
   C1_unset_guard_blocks_mutations.2.2.2.2.2.2.2.2.2.2.2.2.2.2.2.2.2.2.2.2.2.2.2.2.1 exSN (Json.str "hi") [] rfl⟩

/-- C2: the claim that transport exceptions (including connection
failures that produce no response object) are always converted to Failure
results is violated by the Jira adapter: its `except` handlers render
`_extract_error_messages(r.json())`, and when the transport call raised
before a response was bound, the handler itself raises
`UnboundLocalError`/`NameError` to the caller (edit, add_comment,
`_create_ticket_request` and `get_ticket_content` all share the flaw). -/
theorem C2_jira_conn_error_escapes_as_name_error :
    (∀ (st : Jira.JiraState) (fields : List (String × Json)) pf m sc',
      st.ticket_id.truthy = true →
      Jira.prepare_ticket_fields fields = Except.ok pf →
      (Jira.edit st fields (HttpOutcome.connError m :: sc')).out =
        Except.error PyExc.nameError) ∧
    (∀ (st : Jira.JiraState) (c : Json) m sc', st.ticket_id.truthy = true →
      (Jira.add_comment st c (HttpOutcome.connError m :: sc')).out =
        Except.error PyExc.nameError) ∧
    (∀ (st : Jira.JiraState) (params : Json) m sc',
      (Jira.create_ticket_request st params (HttpOutcome.connError m :: sc')).out =
        Except.error PyExc.nameError) ∧
    (∀ (st : Jira.JiraState) (tid : String) m sc',
      (Jira.get_ticket_content st (Json.str tid)
        (HttpOutcome.connError m :: sc')).out = Except.error PyExc.nameError) := by
  refine ⟨?_, ?_, ?_, ?_⟩
  · intro st fields pf m sc' h hp
    unfold Jira.edit
    rw [hp]
    simp [h, takeOutcome]
  · intro st c m sc' h
    unfold Jira.add_comment
    simp [h, takeOutcome]
  · intro st params m sc'
    unfold Jira.create_ticket_request
    simp [takeOutcome]
  · intro st tid m sc'
    unfold Jira.get_ticket_content
    simp [takeOutcome]

/-- C2 witness: a bound handle, a connection error on the PUT/POST/GET:
every one of the four paths raises instead of returning. -/
theorem C2_jira_conn_error_escapes_as_name_error_witness :
    ((Jira.edit { exJira with ticket_id := Json.str "PROJECT-007" } []
        [HttpOutcome.connError "conn refused"]).out =
      Except.error PyExc.nameError) ∧
    ((Jira.add_comment { exJira with ticket_id := Json.str "PROJECT-007" }
        (Json.str "c") [HttpOutcome.connError "conn refused"]).out =
      Except.error PyExc.nameError) ∧
    ((Jira.create_ticket_request exJira (Json.obj [])
        [HttpOutcome.connError "conn refused"]).out =
      Except.error PyExc.nameError) ∧
    ((Jira.get_ticket_content exJira (Json.str "PROJECT-007")
        [HttpOutcome.connError "conn refused"]).out =
      Except.error PyExc.nameError) :=
  ⟨C2_jira_conn_error_escapes_as_name_error.1 _ [] [] "conn refused" [] rfl rfl,
   C2_jira_conn_error_escapes_as_name_error.2.1 _ (Json.str "c") "conn refused" [] rfl,
   C2_jira_conn_error_escapes_as_name_error.2.2.1 exJira (Json.obj []) "conn refused" [],
   C2_jira_conn_error_escapes_as_name_error.2.2.2 exJira "PROJECT-007" "conn refused" []⟩

/-- C3 (amended): a successful create binds the extracted identifier and
derives the ticket URL by the adapter's rule.  Conjuncts: the general
Jira rule (`<url>/browse/<key>`), the general Bugzilla rule
(`<url>/show_bug.cgi?id=<id>`), the Jira scenario (server `jira.com`,
created key `PROJECT-007` ⇒ URL `jira.com/browse/PROJECT-007`), the
Bugzilla scenario (POST echo with id `"8"` ⇒ `ticket_id = "8"`, URL
`<base>/show_bug.cgi?id=8`), the general RT rule
(`<url>/Ticket/Display.html?id=<digits>` for the id parsed out of the
`Ticket NNN created` body), the general Redmine rule (`<rest_url>/<id>`
for the id of the echoed `issue`), and the general ServiceNow rule: the
number from the echoed `result` becomes `ticket_id`, but the URL is
`<url>/<project>.do?sys_id=<sys_id>` — a function of the response-supplied
`sys_id`, NOT of `(server_url, project, ticket_id)` (see the
counterexample). -/
theorem C3_create_binds_id_and_url :
    (∀ (st : Jira.JiraState) (k : String) (txt et : String) sc' params,
      (match (Jira.create_ticket_request st params
          (HttpOutcome.resp ⟨200, txt, some (Json.obj [("key", Json.str k)]), et⟩
            :: sc')).out with
       | Except.ok (_, st') =>
           st'.ticket_id = Json.str k ∧
           st'.ticket_url =
             (if k = "" then none else some (st.url ++ "/browse/" ++ k))
       | Except.error _ => True)) ∧
    (∀ (st : Bugzilla.BZState) (k : String) (txt et : String) sc' params,
      (match (Bugzilla.create_ticket_request st params
          (HttpOutcome.resp ⟨200, txt, some (Json.obj [("id", Json.str k)]), et⟩
            :: sc')).out with
       | Except.ok (_, st') =>
           st'.ticket_id = Json.str k ∧
           st'.ticket_url =
             (if k = "" then none else some (st.url ++ "/show_bug.cgi?id=" ++ k))
       | Except.error _ => True)) ∧
    (match (Jira.create exJira (Json.str "S") (Json.str "D") (Json.str "Task") []
        [okJson (Json.obj [("key", Json.str "PROJECT-007")]),
         okJson (Json.obj [])]).out with
     | Except.ok (res, st') =>
         st'.ticket_id = Json.str "PROJECT-007" ∧
         st'.ticket_url = some "jira.com/browse/PROJECT-007" ∧
         res.status = "Success"
     | Except.error _ => False) ∧
    (match (Bugzilla.create exBZ (Json.str "S") (Json.str "D") (Json.str "C")
        (Json.str "V") []
        [okJson (Json.obj [("id", Json.str "8")]),
         okJson (Json.obj [])]).out with
     | Except.ok (res, st') =>
         st'.ticket_id = Json.str "8" ∧
         st'.ticket_url = some "bugzilla.com/show_bug.cgi?id=8" ∧
         res.status = "Success"
     | Except.error _ => False) ∧
    (∀ (st : RT.RTState) (params body ds : String) jb et sc'
        (res : ReqResult) (st' : RT.RTState),
      RT.searchTicketCreated body.data = some ds →
      strIn "Could not create ticket" body = false →
      (RT.create_ticket_request st params
        (HttpOutcome.resp ⟨200, body, jb, et⟩ :: sc')).out = Except.ok (res, st') →
      st'.ticket_id = Json.str ds ∧
      st'.ticket_url =
        (if ds = "" then none
         else some (st.url ++ "/Ticket/Display.html?id=" ++ ds))) ∧
    (∀ (st : Redmine.RMState) (k : String) (txt et : String) sc' params,
      (match (Redmine.create_ticket_request st params
          (HttpOutcome.resp ⟨200, txt,
            some (Json.obj [("issue", Json.obj [("id", Json.str k)])]), et⟩
            :: sc')).out with
       | Except.ok (_, st') =>
           st'.ticket_id = Json.str k ∧
           st'.ticket_url =
             (if k = "" then none else some (st.rest_url ++ "/" ++ k))
       | Except.error _ => True)) ∧
    (∀ (st : ServiceNow.SNState) (n sid : String) (txt et : String) sc' params,
      (match (ServiceNow.create_ticket_request st params
          (HttpOutcome.resp ⟨200, txt,
            some (Json.obj [("result", Json.obj
              [("number", Json.str n), ("sys_id", Json.str sid)])]), et⟩
            :: sc')).out with
       | Except.ok (_, st') =>
           st'.ticket_id = Json.str n ∧
           st'.sys_id = some (Json.str sid) ∧
           st'.ticket_url =
             (if sid = "" then none
              else some (st.url ++ "/" ++ st.project ++ ".do?sys_id=" ++ sid))
       | Except.error _ => True)) := by
  refine ⟨?_, ?_, ⟨rfl, rfl, rfl⟩, ⟨rfl, rfl, rfl⟩, ?_, ?_, ?_⟩
  · intro st k txt et sc' params
    unfold Jira.create_ticket_request
    simp only [takeOutcome]
    have hh : httpError 200 = false := rfl
    rw [hh]
    simp only [Bool.false_eq_true, if_false, respJson, Json.dictGet, Json.lookup,
      if_pos]
    try dsimp only
    rcases hg : (Jira.refreshContent (Jira.bindTicket st (Json.str k))
        [⟨"POST", st.rest_url, jsonDumps params⟩] sc').out with e | ⟨res0, stG⟩
    · trivial
    · obtain ⟨tc, rr, rfl⟩ := jira_refresh_frame _ _ _ _ _ hg
      obtain ⟨h1, h2, -, -⟩ := jira_bindTicket_fields st (Json.str k)
      refine ⟨h1, ?_⟩
      show (Jira.bindTicket st (Json.str k)).ticket_url = _
      rw [h2]
      by_cases hk : k = "" <;> simp [hk, Json.truthy, Json.pyStr]
  · intro st k txt et sc' params
    unfold Bugzilla.create_ticket_request
    simp only [takeOutcome]
    have hh : httpError 200 = false := rfl
    rw [hh]
    simp only [Bool.false_eq_true, if_false, respJson]
    norm_num [Json.dictGet, Json.hasKey, Json.lookup]
    rcases hg : (Bugzilla.refreshContent (Bugzilla.bindTicket st (Json.str k))
        [⟨"POST", st.rest_url, jsonDumps params⟩] sc').out with e | ⟨res0, stG⟩
    · trivial
    · obtain ⟨tc, rr, rfl⟩ := bz_refresh_frame _ _ _ _ _ hg
      obtain ⟨h1, h2, -⟩ := bz_bindTicket_fields st (Json.str k)
      refine ⟨h1, ?_⟩
      show (Bugzilla.bindTicket st (Json.str k)).ticket_url = _
      rw [h2]
      by_cases hk : k = "" <;> simp [hk, Json.truthy, Json.pyStr]
  · intro st params body ds jb et sc' res st' hsearch hnc h
    unfold RT.create_ticket_request at h
    simp only [takeOutcome] at h
    have hh : httpError 200 = false := rfl
    rw [hh] at h
    simp only [Bool.false_eq_true, if_false, hnc, hsearch] at h
    simp only [RT.generate_ticket_url] at h
    try dsimp only at h
    split at h
    · simp at h
    · rename_i res0 stG heq
      simp only [Except.ok.injEq, Prod.mk.injEq] at h
      obtain ⟨-, h2⟩ := h
      obtain ⟨tc, hG⟩ := rt_get_frame _ Json.null "show" sc' res0 stG heq
      subst hG
      subst h2
      by_cases hk : ds = "" <;>
        simp [hk, Json.truthy, Json.pyStr]
  · intro st k txt et sc' params
    unfold Redmine.create_ticket_request
    simp only [takeOutcome]
    have hh : httpError 200 = false := rfl
    rw [hh]
    simp only [Bool.false_eq_true, if_false, respJson]
    norm_num [Json.dictGet, Json.lookup]
    rcases hg : (Redmine.refreshContent (Redmine.bindTicket st (Json.str k))
        [⟨"POST", st.rest_url ++ ".json", jsonDumps params⟩] sc').out
      with e | ⟨res0, stG⟩
    · trivial
    · obtain ⟨tc, rr, rfl⟩ := rm_refresh_frame _ _ _ _ _ hg
      obtain ⟨h1, h2, -, -⟩ := rm_bindTicket_fields st (Json.str k)
      refine ⟨h1, ?_⟩
      show (Redmine.bindTicket st (Json.str k)).ticket_url = _
      rw [h2]
      by_cases hk : k = "" <;> simp [hk, Json.truthy, Json.pyStr]
  · intro st n sid txt et sc' params
    unfold ServiceNow.create_ticket_request
    simp only [takeOutcome]
    have hh : httpError 200 = false := rfl
    rw [hh]
    have h1 : (("number" : String) = "sys_id") = False := by simp
    simp only [Bool.false_eq_true, if_false, respJson, bind, Except.bind,
      pure, Except.pure]
    norm_num [Json.dictGet, Json.lookup, h1]
    try dsimp only
    rcases hg : ServiceNow.generate_ticket_url
        { st with
            ticket_content := some (Json.obj
              [("number", Json.str n), ("sys_id", Json.str sid)]),
            ticket_id := Json.str n,
            sys_id := some (Json.str sid) } sc' with ⟨reqs2, g, sc2⟩
    try dsimp only
    rcases g with e | ⟨turl, st2⟩
    · trivial
    · obtain ⟨⟨rr, rfl⟩, hturl⟩ := sn_generate_ok _ _ _ _ _ _ hg
      subst hturl
      by_cases hk : sid = "" <;>
        simp [hk, Json.truthy, Json.pyStr]


/-- C3 counterexample: on the ServiceNow adapter `ticket_url` is not a
function of `(server_url, project, ticket_id)`.  Two creates that bind
the same ticket number on the same handle produce different URLs when the
backend assigns different `sys_id` values. -/
theorem C3_counterexample_servicenow_url_not_from_ticket_id :
    match (ServiceNow.create exSN (Json.str "sd") (Json.str "d")
        (Json.str "cat") (Json.str "itm") []
        [okJson (Json.obj [("result", Json.obj
          [("number", Json.str "PNT0100"), ("sys_id", Json.str "aaa")])]),
         okJson (Json.obj [("result", Json.arr [Json.obj []])])]).out,
      (ServiceNow.create exSN (Json.str "sd") (Json.str "d")
        (Json.str "cat") (Json.str "itm") []
        [okJson (Json.obj [("result", Json.obj
          [("number", Json.str "PNT0100"), ("sys_id", Json.str "bbb")])]),
         okJson (Json.obj [("result", Json.arr [Json.obj []])])]).out with
    | Except.ok (_, stA), Except.ok (_, stB) =>
        stA.ticket_id = Json.str "PNT0100" ∧
        stA.ticket_id = stB.ticket_id ∧ stA.url = stB.url ∧
        stA.project = stB.project ∧
        stA.ticket_url = some "snow.com/x_table.do?sys_id=aaa" ∧
        stB.ticket_url = some "snow.com/x_table.do?sys_id=bbb" ∧
        stA.ticket_url ≠ stB.ticket_url
    | _, _ => False :=
  ⟨rfl, rfl, rfl, rfl, rfl, rfl, by decide⟩

/-- C3 witness: the RT leg at a concrete `Ticket 007 created` body. -/
theorem C3_create_binds_id_and_url_witness :
    match (RT.create_ticket_request exRT "P"
        (HttpOutcome.resp ⟨200, "Ticket 007 created", none, ""⟩
          :: [HttpOutcome.resp ⟨200, "id: 007", none, ""⟩])).out with
    | Except.ok (_, st') =>
        st'.ticket_id = Json.str "007" ∧
        st'.ticket_url = some "rt.com/Ticket/Display.html?id=007"
    | Except.error _ => True := by
  split
  · rename_i res st' heq
    have h := C3_create_binds_id_and_url.2.2.2.2.1 exRT "P"
      "Ticket 007 created" "007" none ""
      [HttpOutcome.resp ⟨200, "id: 007", none, ""⟩] res st'
      (by decide) (by decide) heq
    simpa using h
  · trivial

/-- C4: the RT create path.  The scenario half holds: a response body
`"Ticket 007 created"` binds `ticket_id = "007"` (and the URL rule).  The
totality half fails in the code: for a body matching neither the error
marker nor the `Ticket NNN created` pattern, `re.search(...)` returns
`None` and `.groups()` raises `AttributeError` — the operation crashes
instead of returning a Failure result. -/
theorem C4_rt_create_parses_id_but_crashes_on_unmatched_body :
    (match (RT.create exRT (Json.str "Subj") (Json.str "Txt") []
        [HttpOutcome.resp ⟨200, "Ticket 007 created", none, ""⟩,
         HttpOutcome.resp ⟨200, "id: 007", none, ""⟩]).out with
     | Except.ok (res, st') =>
         st'.ticket_id = Json.str "007" ∧
         st'.ticket_url = some "rt.com/Ticket/Display.html?id=007" ∧
         res.status = "Success"
     | Except.error _ => False) ∧
    (∀ (st : RT.RTState) (subj txt : String) jb et sc',
      (RT.create st (Json.str subj) (Json.str txt) []
        (HttpOutcome.resp ⟨200, "200 OK", jb, et⟩ :: sc')).out =
        Except.error PyExc.attributeError) ∧
    (∀ (st : RT.RTState) (params : String) jb et sc',
      (RT.create_ticket_request st params
        (HttpOutcome.resp ⟨200, "200 OK", jb, et⟩ :: sc')).out =
        Except.error PyExc.attributeError) := by
  have h1 : strIn "Could not create ticket" "200 OK" = false := by decide
  have h2 : RT.searchTicketCreated "200 OK".data = none := by decide
  have hh : httpError 200 = false := rfl
  refine ⟨⟨rfl, rfl, rfl⟩, ?_, ?_⟩
  · intro st subj txt jb et sc'
    unfold RT.create RT.create_ticket_parameters RT.prepare_ticket_fields
      RT.create_ticket_request
    simp [takeOutcome, h1, h2, hh, Json.isNull, pure, Except.pure, bind, Except.bind]
  · intro st params jb et sc'
    unfold RT.create_ticket_request
    simp [takeOutcome, h1, h2, hh]

/-- C5 counterexample: ServiceNow adapter resolves status names
through `available_states`; an unresolvable name yields the message
`Invalid state '<name>'`, which does not contain the claimed substring
`not a valid status` (no state-mutating call is made either way). -/
theorem C5_counterexample_servicenow_message :
    (ServiceNow.change_status exSNBound (Json.str "Closed") []).out =
      Except.ok
        (exSNBound.request_result.fail ("Invalid state " ++ "\x27closed\x27"),
         exSNBound) ∧
    (ServiceNow.change_status exSNBound (Json.str "Closed") []).reqs = [] ∧
    strIn "not a valid status" ("Invalid state " ++ "\x27closed\x27") = false :=
  ⟨rfl, rfl, by decide⟩

/-- C5 (amended): an unresolvable status name makes `change_status`
return a Failure without any state-mutating HTTP call, but the message is
`Not a valid status: <name>` for Jira and Redmine (capital N), and
`Invalid state '<lowercased name>'` for ServiceNow.  Jira and Redmine
issue exactly one read-only GET lookup; ServiceNow issues none. -/
theorem C5_unresolvable_status_fails_without_mutation :
    (∀ (st : Jira.JiraState) (status : Json) (r : HttpResponse)
        (ts : List Json) sc', st.ticket_id.truthy = true →
      httpError r.status = false →
      r.jsonBody = some (Json.obj [("transitions", Json.arr ts)]) →
      Jira.get_status_id.findTransition status ts = Except.ok none →
      Jira.change_status st status (HttpOutcome.resp r :: sc') =
        ⟨[⟨"GET", st.rest_url ++ "/" ++ Json.pyStr st.ticket_id ++ "/transitions", ""⟩],
         Except.ok
           (st.request_result.fail ("Not a valid status: " ++ Json.pyStr status), st),
         sc'⟩) ∧
    (∀ (st : Redmine.RMState) (status : Json) (r : HttpResponse)
        (xs : List Json) sc', st.ticket_id.truthy = true →
      httpError r.status = false →
      r.jsonBody = some (Json.obj [("issue_statuses", Json.arr xs)]) →
      Redmine.findByName xs "name" status = Except.ok none →
      Redmine.change_status st status (HttpOutcome.resp r :: sc') =
        ⟨[⟨"GET", st.url ++ "/issue_statuses.json", ""⟩],
         Except.ok
           (st.request_result.fail ("Not a valid status: " ++ Json.pyStr status), st),
         sc'⟩) ∧
    (∀ (st : ServiceNow.SNState) (name : String) sc,
      st.ticket_id.truthy = true →
      Json.lookup st.available_states (pyLower name) = none →
      ServiceNow.change_status st (Json.str name) sc =
        ⟨[], Except.ok
          (st.request_result.fail ("Invalid state " ++ "\x27" ++ pyLower name ++ "\x27"),
           st), sc⟩) := by
  refine ⟨?_, ?_, ?_⟩
  · intro st status r ts sc' hid hst hjb hfind
    unfold Jira.change_status Jira.get_status_id
    simp [takeOutcome, hid, hst, hjb, hfind, respJson, Json.dictGet, Json.lookup,
          bind, Except.bind, pure, Except.pure]
  · intro st status r xs sc' hid hst hjb hfind
    unfold Redmine.change_status Redmine.get_status_id
    simp [takeOutcome, hid, hst, hjb, hfind, respJson, Json.dictGet, Json.lookup,
          bind, Except.bind, pure, Except.pure]
  · intro st name sc hid hlook
    unfold ServiceNow.change_status
    simp [hid, hlook]

/-- C5 witness: unresolvable names on bound handles of the three
adapters. -/
theorem C5_unresolvable_status_fails_without_mutation_witness :
    (Jira.change_status { exJira with ticket_id := Json.str "PROJECT-007" }
        (Json.str "Foo")
        [HttpOutcome.resp ⟨200, "", some (Json.obj [("transitions", Json.arr [])]), ""⟩] =
      ⟨[⟨"GET", "jira.com/rest/api/2/issue/PROJECT-007/transitions", ""⟩],
       Except.ok
         (({ exJira with ticket_id := Json.str "PROJECT-007" } :
             Jira.JiraState).request_result.fail "Not a valid status: Foo",
          { exJira with ticket_id := Json.str "PROJECT-007" }), []⟩) ∧
    (Redmine.change_status { exRM with ticket_id := Json.str "42" }
        (Json.str "Foo")
        [HttpOutcome.resp ⟨200, "", some (Json.obj [("issue_statuses", Json.arr [])]), ""⟩] =
      ⟨[⟨"GET", "redmine.com/issue_statuses.json", ""⟩],
       Except.ok
         (({ exRM with ticket_id := Json.str "42" } :
             Redmine.RMState).request_result.fail "Not a valid status: Foo",
          { exRM with ticket_id := Json.str "42" }), []⟩) ∧
    (ServiceNow.change_status exSNBound (Json.str "Closed") [] =
      ⟨[], Except.ok
        (exSNBound.request_result.fail ("Invalid state " ++ "\x27closed\x27"),
         exSNBound), []⟩) :=
  ⟨C5_unresolvable_status_fails_without_mutation.1 _ (Json.str "Foo")
      ⟨200, "", some (Json.obj [("transitions", Json.arr [])]), ""⟩ [] [] rfl rfl rfl rfl,
   C5_unresolvable_status_fails_without_mutation.2.1 _ (Json.str "Foo")
      ⟨200, "", some (Json.obj [("issue_statuses", Json.arr [])]), ""⟩ [] [] rfl rfl rfl rfl,
   C5_unresolvable_status_fails_without_mutation.2.2 exSNBound "Closed" [] rfl rfl⟩

/-- C10: on every adapter, `get_ticket_content` with an explicit
(non-None) ticket id argument always issues its single GET fetch, even
when the handle\x27s own `ticket_id` is unset; the `noTicketIdMsg` Failure
short-circuit fires only when the argument is omitted (None) and the
handle\x27s `ticket_id` is falsy. -/
theorem C10_explicit_arg_bypasses_unset_guard :
    (∀ (st : Jira.JiraState) (tid : String) sc,
      (Jira.get_ticket_content st (Json.str tid) sc).reqs =
        [⟨"GET", st.rest_url ++ "/" ++ tid, ""⟩]) ∧
    (∀ (st : Jira.JiraState) sc, st.ticket_id.truthy = false →
      Jira.get_ticket_content st Json.null sc =
        ⟨[], Except.ok (st.request_result.fail noTicketIdMsg, st), sc⟩) ∧
    (∀ (st : Bugzilla.BZState) (tid : String) sc,
      (Bugzilla.get_ticket_content st (Json.str tid) sc).reqs =
        [⟨"GET", st.rest_url ++ "/" ++ tid, ""⟩]) ∧
    (∀ (st : Bugzilla.BZState) sc, st.ticket_id.truthy = false →
      Bugzilla.get_ticket_content st Json.null sc =
        ⟨[], Except.ok (st.request_result.fail noTicketIdMsg, st), sc⟩) ∧
    (∀ (st : RT.RTState) (tid opt : String) sc,
      (RT.get_ticket_content st (Json.str tid) opt sc).reqs =
        [⟨"GET", st.rest_url ++ "/ticket/" ++ tid ++ "/" ++ opt, ""⟩]) ∧
    (∀ (st : RT.RTState) (opt : String) sc, st.ticket_id.truthy = false →
      RT.get_ticket_content st Json.null opt sc =
        ⟨[], Except.ok (st.request_result.fail noTicketIdMsg, st), sc⟩) ∧
    (∀ (st : ServiceNow.SNState) (tid : String) sc,
      (ServiceNow.get_ticket_content st (Json.str tid) sc).reqs =
        [⟨"GET", st.rest_url ++ "?sysparm_query=GOTOnumber%3D" ++ tid, ""⟩]) ∧
    (∀ (st : ServiceNow.SNState) sc, st.ticket_id.truthy = false →
      ServiceNow.get_ticket_content st Json.null sc =
        ⟨[], Except.ok (st.request_result.fail noTicketIdMsg, st), sc⟩) ∧
    (∀ (st : Redmine.RMState) (tid : String) sc,
      (Redmine.get_ticket_content st (Json.str tid) sc).reqs =
        [⟨"GET", st.rest_url ++ "/" ++ tid ++
          ".json?include=attachments,journals,watchers,children,relations,changesets", ""⟩]) ∧
    (∀ (st : Redmine.RMState) sc, st.ticket_id.truthy = false →
      Redmine.get_ticket_content st Json.null sc =
        ⟨[], Except.ok (st.request_result.fail noTicketIdMsg, st), sc⟩) := by
  refine ⟨?_, ?_, ?_, ?_, ?_, ?_, ?_, ?_, ?_, ?_⟩
  · intro st tid sc
    unfold Jira.get_ticket_content
    rcases htk : takeOutcome sc with ⟨o, sc1⟩
    cases o with
    | connError m => rfl
    | resp r =>
        dsimp only
        repeat' split <;> try rfl
  · intro st sc hid
    unfold Jira.get_ticket_content
    rw [hid]
  · intro st tid sc
    unfold Bugzilla.get_ticket_content
    rcases htk : takeOutcome sc with ⟨o, sc1⟩
    cases o with
    | connError m => rfl
    | resp r =>
        dsimp only
        repeat' split <;> try rfl
  · intro st sc hid
    unfold Bugzilla.get_ticket_content
    rw [hid]
  · intro st tid opt sc
    unfold RT.get_ticket_content
    rcases htk : takeOutcome sc with ⟨o, sc1⟩
    cases o with
    | connError m => rfl
    | resp r =>
        dsimp only
        repeat' split <;> try rfl
  · intro st opt sc hid
    unfold RT.get_ticket_content
    rw [hid]
  · intro st tid sc
    unfold ServiceNow.get_ticket_content
    rcases htk : takeOutcome sc with ⟨o, sc1⟩
    cases o with
    | connError m => rfl
    | resp r =>
        dsimp only
        repeat' split <;> try rfl
  · intro st sc hid
    unfold ServiceNow.get_ticket_content
    rw [hid]
  · intro st tid sc
    unfold Redmine.get_ticket_content
    rcases htk : takeOutcome sc with ⟨o, sc1⟩
    cases o with
    | connError m => rfl
    | resp r =>
        dsimp only
        repeat' split <;> try rfl
  · intro st sc hid
    unfold Redmine.get_ticket_content
    rw [hid]

/-- C10 witness: on fresh handles with unset ids, an explicit id argument
produces the GET request while the omitted argument short-circuits. -/
theorem C10_explicit_arg_bypasses_unset_guard_witness :
    ((Jira.get_ticket_content exJira (Json.str "PROJECT-9") []).reqs =
      [⟨"GET", "jira.com/rest/api/2/issue/PROJECT-9", ""⟩]) ∧
    (Jira.get_ticket_content exJira Json.null [] =
      ⟨[], Except.ok (exJira.request_result.fail noTicketIdMsg, exJira), []⟩) ∧
    (RT.get_ticket_content exRT Json.null "show" [] =
      ⟨[], Except.ok (exRT.request_result.fail noTicketIdMsg, exRT), []⟩) ∧
    (Bugzilla.get_ticket_content exBZ Json.null [] =
      ⟨[], Except.ok (exBZ.request_result.fail noTicketIdMsg, exBZ), []⟩) ∧
    (ServiceNow.get_ticket_content exSN Json.null [] =
      ⟨[], Except.ok (exSN.request_result.fail noTicketIdMsg, exSN), []⟩) ∧
    (Redmine.get_ticket_content exRM Json.null [] =
      ⟨[], Except.ok (exRM.request_result.fail noTicketIdMsg, exRM), []⟩) :=
  ⟨C10_explicit_arg_bypasses_unset_guard.1 exJira "PROJECT-9" [],
   C10_explicit_arg_bypasses_unset_guard.2.1 exJira [] rfl,
   C10_explicit_arg_bypasses_unset_guard.2.2.2.2.2.1 exRT "show" [] rfl,
   C10_explicit_arg_bypasses_unset_guard.2.2.2.1 exBZ [] rfl,
   C10_explicit_arg_bypasses_unset_guard.2.2.2.2.2.2.2.1 exSN [] rfl,
   C10_explicit_arg_bypasses_unset_guard.2.2.2.2.2.2.2.2.2 exRM [] rfl⟩

/-- C6 counterexample: after an edit whose refresh fetch failed, the
stored `request_result` keeps status Failure; a later `set_ticket_id`
whose validation GET succeeds then returns Failure "Ticket ID not valid"
— yet the validation fetch has already overwritten `ticket_content`, so
the handle is NOT left exactly as it was. -/
theorem C6_counterexample_rebind_failure_mutates_content :
    match Jira.initWithId "jira.com" "PROJECT" (Json.str "PROJECT-1")
        [okJson (Json.obj [("k", Json.str "v")])] with
    | some (st1, _) =>
        match (Jira.edit st1 [("summary", Json.str "s")]
            [okJson (Json.obj []),
             HttpOutcome.resp ⟨404, "", some (Json.obj
               [("errorMessages", Json.arr [Json.str "oops"])]), ""⟩]).out with
        | Except.ok (_, st2) =>
            match (Jira.set_ticket_id st2 (Json.str "PROJECT-2")
                [okJson (Json.obj [("new", Json.str "content")])]).out with
            | Except.ok (res, st3) =>
                res.status = "Failure" ∧
                res.error_message = some "Ticket ID not valid" ∧
                st3.ticket_id = st2.ticket_id ∧
                st3.ticket_url = st2.ticket_url ∧
                st2.ticket_content = some (Json.obj [("k", Json.str "v")]) ∧
                st3.ticket_content = some (Json.obj [("new", Json.str "content")]) ∧
                st3.ticket_content ≠ st2.ticket_content
            | Except.error _ => False
        | Except.error _ => False
    | none => False :=
  ⟨rfl, rfl, rfl, rfl, rfl, rfl, by simp⟩

/-- C6 (amended): a failed rebinding always preserves `ticket_id` and
`ticket_url` and returns Failure "Ticket ID not valid"; when the
validation fetch itself fails (HTTP error) the handle is exactly
unchanged, but when the fetch succeeds and the failure comes from a stale
Failure status in `request_result`, the fetch has already overwritten
`ticket_content` (Jira leg: only `ticket_content` differs). -/
theorem C6_rebind_failure_preserves_identity :
    (∀ (st : Jira.JiraState) (s : String) (j : Json) sc',
      strIn "Failure" st.request_result.status = true →
      Jira.set_ticket_id st (Json.str s) (okJson j :: sc') =
        ⟨[⟨"GET", st.rest_url ++ "/" ++ s, ""⟩],
         Except.ok (st.request_result.fail "Ticket ID not valid",
                    { st with ticket_content := some j }), sc'⟩) ∧
    (∀ (st : Jira.JiraState) (s m : String) (r : HttpResponse) sc',
      httpError r.status = true →
      r.jsonBody = some (Json.obj [("errorMessages", Json.arr [Json.str m])]) →
      Jira.set_ticket_id st (Json.str s) (HttpOutcome.resp r :: sc') =
        ⟨[⟨"GET", st.rest_url ++ "/" ++ s, ""⟩],
         Except.ok (st.request_result.fail "Ticket ID not valid", st), sc'⟩) ∧
    (∀ (st : Bugzilla.BZState) (s : String) (r : HttpResponse) sc',
      httpError r.status = true →
      Bugzilla.set_ticket_id st (Json.str s) (HttpOutcome.resp r :: sc') =
        ⟨[⟨"GET", st.rest_url ++ "/" ++ s, ""⟩],
         Except.ok (st.request_result.fail "Ticket ID not valid", st), sc'⟩) ∧
    (∀ (st : Redmine.RMState) (s : String) (r : HttpResponse) sc',
      httpError r.status = true →
      Redmine.set_ticket_id st (Json.str s) (HttpOutcome.resp r :: sc') =
        ⟨[⟨"GET", st.rest_url ++ "/" ++ s ++
            ".json?include=attachments,journals,watchers,children,relations,changesets", ""⟩],
         Except.ok (st.request_result.fail "Ticket ID not valid", st), sc'⟩) ∧
    (∀ (st : ServiceNow.SNState) (s : String) (r : HttpResponse) sc',
      httpError r.status = true →
      ServiceNow.set_ticket_id st (Json.str s) (HttpOutcome.resp r :: sc') =
        ⟨[⟨"GET", st.rest_url ++ "?sysparm_query=GOTOnumber%3D" ++ s, ""⟩],
         Except.ok (st.request_result.fail "Ticket ID not valid", st), sc'⟩) ∧
    (∀ (st : RT.RTState) (s : String) (r : HttpResponse) sc',
      httpError r.status = true →
      RT.set_ticket_id st (Json.str s) (HttpOutcome.resp r :: sc') =
        ⟨[⟨"GET", st.rest_url ++ "/ticket/" ++ s ++ "/show", ""⟩],
         Except.ok (st.request_result.fail "Ticket ID not valid", st), sc'⟩) := by
  have hF : strIn "Failure" "Failure" = true := rfl
  refine ⟨?_, ?_, ?_, ?_, ?_, ?_⟩
  · intro st s j sc' hstale
    unfold Jira.set_ticket_id Jira.get_ticket_content
    simp [takeOutcome, okJson, httpError, respJson, hstale, hF, Json.pyStr]
  · intro st s m r sc' hst hjb
    have hg : Jira.getContentErrMsg r (Json.str s) =
        Except.ok (if strIn "issue does not exist" (pyLower m) = true
          then "Ticket " ++ s ++ " is not valid"
          else "Error getting ticket content") := by
      unfold Jira.getContentErrMsg
      simp [respJson, hjb, Json.dictGet, Json.lookup, pyIndex0, bind,
            Except.bind, pure, Except.pure, Json.pyStr]
      split <;> rfl
    unfold Jira.set_ticket_id Jira.get_ticket_content
    simp [takeOutcome, hst, hg, hF, Json.pyStr, ReqResult.fail]
  · intro st s r sc' hst
    unfold Bugzilla.set_ticket_id Bugzilla.get_ticket_content
    simp [takeOutcome, hst, hF, Json.pyStr, ReqResult.fail]
  · intro st s r sc' hst
    unfold Redmine.set_ticket_id Redmine.get_ticket_content
    simp [takeOutcome, hst, hF, Json.pyStr, ReqResult.fail]
  · intro st s r sc' hst
    unfold ServiceNow.set_ticket_id ServiceNow.verify_ticket_id
      ServiceNow.get_ticket_content
    simp [takeOutcome, hst, hF, Json.pyStr, ReqResult.fail]
  · intro st s r sc' hst
    unfold RT.set_ticket_id RT.get_ticket_content
    simp [takeOutcome, hst, hF, Json.pyStr, ReqResult.fail, String.append_assoc]

/-- C6 witness: concrete failed rebindings on the four adapters plus the
stale-status mutation leg on a handle carrying a Failure result. -/
theorem C6_rebind_failure_preserves_identity_witness :
    (Jira.set_ticket_id
        { exJira with request_result := exJira.request_result.fail "old" }
        (Json.str "PROJECT-2") (okJson (Json.obj []) :: []) =
      ⟨[⟨"GET", "jira.com/rest/api/2/issue/PROJECT-2", ""⟩],
       Except.ok
         (({ exJira with request_result := exJira.request_result.fail "old" } :
             Jira.JiraState).request_result.fail "Ticket ID not valid",
          { ({ exJira with request_result := exJira.request_result.fail "old" } :
               Jira.JiraState) with ticket_content := some (Json.obj []) }), []⟩) ∧
    (Jira.set_ticket_id exJira (Json.str "PROJECT-2")
        (HttpOutcome.resp ⟨404, "", some (Json.obj
           [("errorMessages", Json.arr [Json.str "oops"])]), ""⟩ :: []) =
      ⟨[⟨"GET", "jira.com/rest/api/2/issue/PROJECT-2", ""⟩],
       Except.ok (exJira.request_result.fail "Ticket ID not valid", exJira), []⟩) ∧
    (Bugzilla.set_ticket_id exBZ (Json.str "8")
        (HttpOutcome.resp ⟨404, "", none, ""⟩ :: []) =
      ⟨[⟨"GET", "bugzilla.com/rest/bug/8", ""⟩],
       Except.ok (exBZ.request_result.fail "Ticket ID not valid", exBZ), []⟩) ∧
    (Redmine.set_ticket_id exRM (Json.str "42")
        (HttpOutcome.resp ⟨404, "", none, ""⟩ :: []) =
      ⟨[⟨"GET", "redmine.com/issues/42.json?include=attachments,journals,watchers,children,relations,changesets", ""⟩],
       Except.ok (exRM.request_result.fail "Ticket ID not valid", exRM), []⟩) ∧
    (ServiceNow.set_ticket_id exSN (Json.str "PNT0002")
        (HttpOutcome.resp ⟨404, "", none, ""⟩ :: []) =
      ⟨[⟨"GET", "snow.com/api/now/v1/table/x_table?sysparm_query=GOTOnumber%3DPNT0002", ""⟩],
       Except.ok (exSN.request_result.fail "Ticket ID not valid", exSN), []⟩) ∧
    (RT.set_ticket_id exRT (Json.str "42")
        (HttpOutcome.resp ⟨404, "", none, ""⟩ :: []) =
      ⟨[⟨"GET", "rt.com/REST/1.0/ticket/42/show", ""⟩],
       Except.ok (exRT.request_result.fail "Ticket ID not valid", exRT), []⟩) :=
  ⟨C6_rebind_failure_preserves_identity.1 _ "PROJECT-2" (Json.obj []) [] rfl,
   C6_rebind_failure_preserves_identity.2.1 exJira "PROJECT-2" "oops"
     ⟨404, "", some (Json.obj [("errorMessages", Json.arr [Json.str "oops"])]), ""⟩ [] rfl rfl,
   C6_rebind_failure_preserves_identity.2.2.1 exBZ "8" ⟨404, "", none, ""⟩ [] rfl,
   C6_rebind_failure_preserves_identity.2.2.2.1 exRM "42" ⟨404, "", none, ""⟩ [] rfl,
   C6_rebind_failure_preserves_identity.2.2.2.2.1 exSN "PNT0002" ⟨404, "", none, ""⟩ [] rfl,
   C6_rebind_failure_preserves_identity.2.2.2.2.2 exRT "42" ⟨404, "", none, ""⟩ [] rfl⟩

/-- C7 counterexample: two failures of the claimed three-way
equivalence.  (1) Jira `set_ticket_id("")` whose validation GET succeeds
returns a Success result and rebinds, yet leaves a Python-falsy
`ticket_id` and a `None` `ticket_url` — so "a successful create-or-validate
has occurred" does not imply "ticket_id is set / ticket_url non-null";
the resulting state is reachable.  (2) On the ServiceNow adapter even the
two-way id/URL coupling fails at a reachable state: its URL is derived
from `sys_id`, so `set_ticket_id("")` with a fetch echoing a truthy
`sys_id` leaves a falsy `ticket_id` next to a non-null `ticket_url`. -/
theorem C7_counterexample_successful_validate_with_null_url :
    (match (Jira.set_ticket_id exJira (Json.str "")
        [okJson (Json.obj [("key", Json.str "X")])]).out with
     | Except.ok (res, st') =>
         res.status = "Success" ∧ res.error_message = none ∧
         st'.ticket_id = Json.str "" ∧ st'.ticket_id.truthy = false ∧
         st'.ticket_url = none ∧ Jira.Reach st'
     | Except.error _ => False) ∧
    (match (ServiceNow.set_ticket_id exSN (Json.str "")
        [okJson (Json.obj [("result",
          Json.arr [Json.obj [("sys_id", Json.str "abc")]])])]).out with
     | Except.ok (_, st') =>
         st'.ticket_id = Json.str "" ∧ st'.ticket_id.truthy = false ∧
         st'.ticket_url = some "snow.com/x_table.do?sys_id=abc"
     | Except.error _ => False) :=
  ⟨⟨rfl, rfl, rfl, rfl, rfl,
    Jira.Reach.step_setId exJira (Json.str "")
      [okJson (Json.obj [("key", Json.str "X")])] _ _
      (Jira.Reach.construct "jira.com" "PROJECT") rfl⟩,
   ⟨rfl, rfl, rfl⟩⟩

/-- C7 (amended): at every reachable state of a Jira, Bugzilla, RT or
Redmine handle — construction (with or without a `ticket_id` argument)
plus any sequence of returning public operations — a truthy `ticket_id`
holds iff `ticket_url` is non-null.  (The third leg of the claimed
equivalence, "at least one successful create-or-validate has occurred",
is dropped: it fails for a falsy explicit id; and the ServiceNow adapter
is excluded because its URL tracks `sys_id`, for which the counterexample
exhibits a reachable decoupled state.) -/
theorem C7_reachable_states_couple_id_and_url :
    (∀ (st : Jira.JiraState), Jira.Reach st →
      (st.ticket_id.truthy = true ↔ st.ticket_url ≠ none)) ∧
    (∀ (st : Bugzilla.BZState), Bugzilla.Reach st →
      (st.ticket_id.truthy = true ↔ st.ticket_url ≠ none)) ∧
    (∀ (st : RT.RTState), RT.Reach st →
      (st.ticket_id.truthy = true ↔ st.ticket_url ≠ none)) ∧
    (∀ (st : Redmine.RMState), Redmine.Reach st →
      (st.ticket_id.truthy = true ↔ st.ticket_url ≠ none)) :=
  ⟨fun st h => jira_reach_coupled st h,
   fun st h => bz_reach_coupled st h,
   fun st h => rt_reach_coupled st h,
   fun st h => rm_reach_coupled st h⟩

/-- C7 witness: the coupling at freshly constructed handles of the four
adapters. -/
theorem C7_reachable_states_couple_id_and_url_witness :
    ((Jira.jiraInit "jira.com" "PROJECT").ticket_id.truthy = true ↔
      (Jira.jiraInit "jira.com" "PROJECT").ticket_url ≠ none) ∧
    ((Bugzilla.bzInit "bugzilla.com" "PROD").ticket_id.truthy = true ↔
      (Bugzilla.bzInit "bugzilla.com" "PROD").ticket_url ≠ none) ∧
    ((RT.rtInit "rt.com" "QUEUE" Json.null).ticket_id.truthy = true ↔
      (RT.rtInit "rt.com" "QUEUE" Json.null).ticket_url ≠ none) ∧
    ((Redmine.rmInit "redmine.com" "PROJ").ticket_id.truthy = true ↔
      (Redmine.rmInit "redmine.com" "PROJ").ticket_url ≠ none) :=
  ⟨C7_reachable_states_couple_id_and_url.1 (Jira.jiraInit "jira.com" "PROJECT")
     (Jira.Reach.construct "jira.com" "PROJECT"),
   C7_reachable_states_couple_id_and_url.2.1 (Bugzilla.bzInit "bugzilla.com" "PROD")
     (Bugzilla.Reach.construct "bugzilla.com" "PROD"),
   C7_reachable_states_couple_id_and_url.2.2.1 (RT.rtInit "rt.com" "QUEUE" Json.null)
     (RT.Reach.construct "rt.com" "QUEUE" Json.null),
   C7_reachable_states_couple_id_and_url.2.2.2 (Redmine.rmInit "redmine.com" "PROJ")
     (Redmine.Reach.construct "redmine.com" "PROJ")⟩

/-- C8 counterexample: `add_cc` deduplicates only the entries being
added against the current list; duplicates already present in the cached
`watch_list` are preserved, not removed.  With cached
`"b@x.com, b@x.com"`, adding `"a@x.com"` submits
`"b@x.com, b@x.com, a@x.com"`, not the deduplicated
`"b@x.com, a@x.com"`. -/
theorem C8_counterexample_existing_duplicates_kept :
    (ServiceNow.add_cc
        { exSNBound with
            ticket_content := some (Json.obj [("watch_list", Json.str "b@x.com, b@x.com")]) }
        (Json.str "a@x.com")
        [okJson (Json.obj [("result", Json.obj [])])]).reqs =
      [⟨"PUT", "snow.com/api/now/v1/table/x_table/abc123",
        "\x7b \"watch_list\" : \"b@x.com, b@x.com, a@x.com\"\x7d"⟩] ∧
    ("b@x.com, b@x.com, a@x.com" : String) ≠ "b@x.com, a@x.com" :=
  ⟨rfl, by decide⟩

/-- C8 (amended): on a ServiceNow handle with a validated ticket whose
cached `watch_list` is `"b@x.com"`, `add_cc("a@x.com")` submits a PUT to
the ticket REST URL whose hand-built payload carries
`watch_list = "b@x.com, a@x.com"`; adding the already-present
`"b@x.com"` resubmits the list unchanged (new entries are deduplicated
against the current list, which is read, split, stripped, extended and
rejoined with a comma-space — existing duplicates are not removed). -/
theorem C8_add_cc_appends_to_rejoined_watch_list :
    (∀ (st : ServiceNow.SNState) (u : String) sc,
      st.ticket_id.truthy = true →
      st.ticket_rest_url = some u →
      st.ticket_content = some (Json.obj [("watch_list", Json.str "b@x.com")]) →
      (ServiceNow.add_cc st (Json.str "a@x.com") sc).reqs =
        [⟨"PUT", u, "\x7b \"watch_list\" : \"b@x.com, a@x.com\"\x7d"⟩]) ∧
    (∀ (st : ServiceNow.SNState) (u : String) sc,
      st.ticket_id.truthy = true →
      st.ticket_rest_url = some u →
      st.ticket_content = some (Json.obj [("watch_list", Json.str "b@x.com")]) →
      (ServiceNow.add_cc st (Json.str "b@x.com") sc).reqs =
        [⟨"PUT", u, "\x7b \"watch_list\" : \"b@x.com\"\x7d"⟩]) := by
  have hreqs : ∀ (st : ServiceNow.SNState) (u : String) params sc,
      st.ticket_rest_url = some u →
      (ServiceNow.putAndStore st params sc).reqs = [⟨"PUT", u, params⟩] := by
    intro st u params sc hu
    unfold ServiceNow.putAndStore
    rw [hu]
    rcases htk : takeOutcome sc with ⟨o, sc1⟩
    cases o with
    | connError m => rfl
    | resp r =>
        dsimp only
        repeat' split <;> try rfl
  constructor
  · intro st u sc hid hu hc
    have hr : ServiceNow.readWatchList st = Except.ok [Json.str "b@x.com"] := by
      unfold ServiceNow.readWatchList
      rw [hc]
      rfl
    have hstep : ServiceNow.add_cc st (Json.str "a@x.com") sc =
        ServiceNow.putAndStore st
          "\x7b \"watch_list\" : \"b@x.com, a@x.com\"\x7d" sc := by
      unfold ServiceNow.add_cc
      simp only [hid, hr]
      rfl
    rw [hstep]
    exact hreqs st u _ sc hu
  · intro st u sc hid hu hc
    have hr : ServiceNow.readWatchList st = Except.ok [Json.str "b@x.com"] := by
      unfold ServiceNow.readWatchList
      rw [hc]
      rfl
    have hstep : ServiceNow.add_cc st (Json.str "b@x.com") sc =
        ServiceNow.putAndStore st
          "\x7b \"watch_list\" : \"b@x.com\"\x7d" sc := by
      unfold ServiceNow.add_cc
      simp only [hid, hr]
      rfl
    rw [hstep]
    exact hreqs st u _ sc hu

/-- C8 witness: the two `add_cc` submissions on the bound ServiceNow
fixture with cached `watch_list = "b@x.com"`. -/
theorem C8_add_cc_appends_to_rejoined_watch_list_witness :
    ((ServiceNow.add_cc
        { exSNBound with
            ticket_content := some (Json.obj [("watch_list", Json.str "b@x.com")]) }
        (Json.str "a@x.com")
        [okJson (Json.obj [("result", Json.obj [])])]).reqs =
      [⟨"PUT", "snow.com/api/now/v1/table/x_table/abc123",
        "\x7b \"watch_list\" : \"b@x.com, a@x.com\"\x7d"⟩]) ∧
    ((ServiceNow.add_cc
        { exSNBound with
            ticket_content := some (Json.obj [("watch_list", Json.str "b@x.com")]) }
        (Json.str "b@x.com")
        [okJson (Json.obj [("result", Json.obj [])])]).reqs =
      [⟨"PUT", "snow.com/api/now/v1/table/x_table/abc123",
        "\x7b \"watch_list\" : \"b@x.com\"\x7d"⟩]) :=
  ⟨C8_add_cc_appends_to_rejoined_watch_list.1
      { exSNBound with
          ticket_content := some (Json.obj [("watch_list", Json.str "b@x.com")]) }
      "snow.com/api/now/v1/table/x_table/abc123"
      [okJson (Json.obj [("result", Json.obj [])])] rfl rfl rfl,
   C8_add_cc_appends_to_rejoined_watch_list.2
      { exSNBound with
          ticket_content := some (Json.obj [("watch_list", Json.str "b@x.com")]) }
      "snow.com/api/now/v1/table/x_table/abc123"
      [okJson (Json.obj [("result", Json.obj [])])] rfl rfl rfl⟩

/-! ## String-splitting lemmas for the RT response parser -/

theorem pySplit_no_sep (sep : Char) (l : List Char) (h : ∀ c ∈ l, c ≠ sep) :
    pySplit sep l = [l] := by
  induction l with
  | nil => rfl
  | cons c rest ih =>
      conv_lhs => unfold pySplit
      rw [if_neg (h c (by simp))]
      rw [ih (fun x hx => h x (by simp [hx]))]

theorem pySplit_append (sep : Char) (a b : List Char) (h : ∀ c ∈ a, c ≠ sep) :
    pySplit sep (a ++ sep :: b) = a :: pySplit sep b := by
  induction a with
  | nil => simp [pySplit]
  | cons c rest ih =>
      simp only [List.cons_append]
      conv_lhs => unfold pySplit
      rw [if_neg (h c (by simp))]
      rw [ih (fun x hx => h x (by simp [hx]))]

theorem subIn_of_mem (c : Char) (l : List Char) (h : c ∈ l) :
    subIn [c] l = true := by
  induction l with
  | nil => cases h
  | cons x rest ih =>
      unfold subIn
      rcases List.mem_cons.mp h with h1 | h2
      · subst h1
        simp [List.isPrefixOf]
      · rw [ih h2]
        simp

theorem strSplit_pyJoin (ls : List String) (hne : ls ≠ [])
    (h : ∀ l ∈ ls, ∀ c ∈ l.data, c ≠ '\n') :
    strSplit '\n' (pyJoin "\n" ls) = ls := by
  induction ls with
  | nil => exact absurd rfl hne
  | cons x rest ih =>
      cases rest with
      | nil =>
          show strSplit '\n' (pyJoin "\n" [x]) = [x]
          unfold pyJoin strSplit
          rw [pySplit_no_sep '\n' x.data (h x (by simp))]
          rfl
      | cons y ys =>
          have hj : pyJoin "\n" (x :: y :: ys) =
              x ++ "\n" ++ pyJoin "\n" (y :: ys) := rfl
          rw [hj]
          have hd : (x ++ "\n" ++ pyJoin "\n" (y :: ys)).data =
              x.data ++ '\n' :: (pyJoin "\n" (y :: ys)).data := by
            simp [String.data_append]
          unfold strSplit
          rw [hd, pySplit_append '\n' x.data _ (h x (by simp))]
          simp only [List.map_cons]
          have hrest := ih (by simp) (fun l hl => h l (by simp [hl]))
          unfold strSplit at hrest
          rw [hrest]

/-- A nonempty colon-free line is appended to the `header` list. -/
theorem convertLine_header (acc : List Json) (l : String)
    (h1 : l ≠ "") (h2 : strIn ":" l = false) :
    RT.convertLine [("header", Json.arr acc)] l =
      Except.ok [("header", Json.arr (acc ++ [Json.str l]))] := by
  unfold RT.convertLine
  rw [if_pos h1, h2]
  rfl

theorem convert_foldl_header (hs : List String) (acc : List Json)
    (h : ∀ l ∈ hs, l ≠ "" ∧ strIn ":" l = false) :
    List.foldlM RT.convertLine [("header", Json.arr acc)] hs =
      Except.ok [("header", Json.arr (acc ++ hs.map Json.str))] := by
  induction hs generalizing acc with
  | nil => simp [List.foldlM, pure, Except.pure]
  | cons l rest ih =>
      have hl := h l (by simp)
      have hstep := convertLine_header acc l hl.1 hl.2
      simp only [List.foldlM, hstep, bind, Except.bind]
      rw [ih (acc ++ [Json.str l]) (fun x hx => h x (by simp [hx]))]
      simp

/-- A colon-keyed line with a colon-free remainder maps the left-stripped
key to the left-stripped remainder. -/
theorem convertLine_kv (acc : List Json) (k v : String)
    (hk : ∀ c ∈ k.data, c ≠ ':') (hv : ∀ c ∈ v.data, c ≠ ':')
    (hatt : strIn "Attachments" k = false)
    (hhd : ("header" : String) ≠ (⟨pyLstrip k.data⟩ : String)) :
    RT.convertLine [("header", Json.arr acc)] (k ++ ":" ++ v) =
      Except.ok [("header", Json.arr acc),
        ((⟨pyLstrip k.data⟩ : String), Json.str (⟨pyLstrip v.data⟩ : String))] := by
  have hdata : (k ++ ":" ++ v).data = k.data ++ ':' :: v.data := by
    simp [String.data_append]
  have hne : (k ++ ":" ++ v) ≠ "" := by
    intro h
    have h2 := congrArg String.data h
    rw [hdata] at h2
    simp at h2
  have hcolon : strIn ":" (k ++ ":" ++ v) = true := by
    unfold strIn
    exact subIn_of_mem ':' _ (by rw [hdata]; simp)
  have hsplit : strSplit ':' (k ++ ":" ++ v) = [k, v] := by
    unfold strSplit
    rw [hdata, pySplit_append ':' k.data v.data hk,
        pySplit_no_sep ':' v.data hv]
    rfl
  unfold RT.convertLine
  rw [if_pos hne]
  simp only [hcolon, Bool.not_true, Bool.false_eq_true, if_false, hsplit]
  dsimp only [List.headD]
  rw [hatt]
  simp only [Bool.false_eq_true, if_false]
  unfold dictSet
  rw [if_neg hhd]
  rfl

/-- An Attachments index line is keyed on `elements[1]` with
`elements[2]` as the value. -/
theorem convertLine_att (acc : List Json) (k e1 e2 : String)
    (hk : ∀ c ∈ k.data, c ≠ ':') (h1 : ∀ c ∈ e1.data, c ≠ ':')
    (h2 : ∀ c ∈ e2.data, c ≠ ':')
    (hatt : strIn "Attachments" k = true)
    (hhd : ("header" : String) ≠ (⟨pyLstrip e1.data⟩ : String)) :
    RT.convertLine [("header", Json.arr acc)] (k ++ ":" ++ e1 ++ ":" ++ e2) =
      Except.ok [("header", Json.arr acc),
        ((⟨pyLstrip e1.data⟩ : String), Json.str (⟨pyLstrip e2.data⟩ : String))] := by
  have hdata : (k ++ ":" ++ e1 ++ ":" ++ e2).data =
      k.data ++ ':' :: (e1.data ++ ':' :: e2.data) := by
    simp [String.data_append]
  have hne : (k ++ ":" ++ e1 ++ ":" ++ e2) ≠ "" := by
    intro h
    have hx := congrArg String.data h
    rw [hdata] at hx
    simp at hx
  have hcolon : strIn ":" (k ++ ":" ++ e1 ++ ":" ++ e2) = true := by
    unfold strIn
    exact subIn_of_mem ':' _ (by rw [hdata]; simp)
  have hsplit : strSplit ':' (k ++ ":" ++ e1 ++ ":" ++ e2) = [k, e1, e2] := by
    unfold strSplit
    rw [hdata, pySplit_append ':' k.data _ hk,
        pySplit_append ':' e1.data e2.data h1,
        pySplit_no_sep ':' e2.data h2]
    rfl
  unfold RT.convertLine
  rw [if_pos hne]
  simp only [hcolon, Bool.not_true, Bool.false_eq_true, if_false, hsplit]
  dsimp only [List.headD]
  rw [hatt]
  simp only [if_true]
  unfold dictSet
  rw [if_neg hhd]
  rfl

theorem foldl_header_kv (hs : List String) (acc : List Json) (k v : String)
    (hh : ∀ l ∈ hs, l ≠ "" ∧ strIn ":" l = false)
    (hk : ∀ c ∈ k.data, c ≠ ':') (hv : ∀ c ∈ v.data, c ≠ ':')
    (hatt : strIn "Attachments" k = false)
    (hhd : ("header" : String) ≠ (⟨pyLstrip k.data⟩ : String)) :
    List.foldlM RT.convertLine [("header", Json.arr acc)]
        (hs ++ [k ++ ":" ++ v]) =
      Except.ok [("header", Json.arr (acc ++ hs.map Json.str)),
        ((⟨pyLstrip k.data⟩ : String), Json.str (⟨pyLstrip v.data⟩ : String))] := by
  induction hs generalizing acc with
  | nil =>
      have hstep := convertLine_kv acc k v hk hv hatt hhd
      simp [List.foldlM, hstep, bind, Except.bind, pure, Except.pure]
  | cons l rest ih =>
      have hl := hh l (by simp)
      have hstep := convertLine_header acc l hl.1 hl.2
      simp only [List.cons_append, List.foldlM, hstep, bind, Except.bind,
        List.append_eq]
      rw [ih (acc ++ [Json.str l]) (fun x hx => hh x (by simp [hx]))]
      simp

/-- C9 counterexample: `_convert_string` splits each line on every colon
and keeps only `elements[1]` as the value, so `"Created: Mon 10:30"` maps
`Created` to `"Mon 10"` — not to the entire remainder `"Mon 10:30"` of
the line. -/
theorem C9_counterexample_value_truncated_at_second_colon :
    RT.convert_string "Created: Mon 10:30" =
      Except.ok (Json.obj [("header", Json.arr []),
        ("Created", Json.str "Mon 10")]) ∧
    ("Mon 10" : String) ≠ "Mon 10:30" :=
  ⟨rfl, by decide⟩

/-- C9 (amended): `_convert_string` parses bodies line by line.  A
nonempty colon-free line is appended to the `header` list; a colon-keyed
line maps the left-stripped key to the left-stripped text between the
first and the second colon — the whole remainder when it is colon-free,
but anything after a second colon is dropped (`line.split(':')` keeps
only `elements[1]`); an Attachments line is keyed on `elements[1]` with
`elements[2]` as the value.  Legs: (1) any run of header lines followed
by a key/value line, (2) the second-colon truncation, (3) an Attachments
index line, (4) a body of header lines only. -/
theorem C9_convert_string_line_parsing :
    (∀ (hs : List String) (k v : String),
      (∀ l ∈ hs, l ≠ "" ∧ strIn ":" l = false) →
      (∀ l ∈ hs, ∀ c ∈ l.data, c ≠ '\n') →
      (∀ c ∈ k.data, c ≠ ':') → (∀ c ∈ v.data, c ≠ ':') →
      (∀ c ∈ (k ++ ":" ++ v).data, c ≠ '\n') →
      strIn "Attachments" k = false →
      strIn "Stack" (pyJoin "\n" (hs ++ [k ++ ":" ++ v])) = false →
      ("header" : String) ≠ (⟨pyLstrip k.data⟩ : String) →
      RT.convert_string (pyJoin "\n" (hs ++ [k ++ ":" ++ v])) =
        Except.ok (Json.obj [("header", Json.arr (hs.map Json.str)),
          ((⟨pyLstrip k.data⟩ : String),
           Json.str (⟨pyLstrip v.data⟩ : String))])) ∧
    (∀ (k v w : String),
      (∀ c ∈ k.data, c ≠ ':') → (∀ c ∈ v.data, c ≠ ':') →
      (∀ c ∈ (k ++ ":" ++ v ++ ":" ++ w).data, c ≠ '\n') →
      strIn "Attachments" k = false →
      strIn "Stack" (k ++ ":" ++ v ++ ":" ++ w) = false →
      ("header" : String) ≠ (⟨pyLstrip k.data⟩ : String) →
      RT.convert_string (k ++ ":" ++ v ++ ":" ++ w) =
        Except.ok (Json.obj [("header", Json.arr []),
          ((⟨pyLstrip k.data⟩ : String),
           Json.str (⟨pyLstrip v.data⟩ : String))])) ∧
    (∀ (k e1 e2 : String),
      (∀ c ∈ k.data, c ≠ ':') → (∀ c ∈ e1.data, c ≠ ':') →
      (∀ c ∈ e2.data, c ≠ ':') →
      (∀ c ∈ (k ++ ":" ++ e1 ++ ":" ++ e2).data, c ≠ '\n') →
      strIn "Attachments" k = true →
      strIn "Stack" (k ++ ":" ++ e1 ++ ":" ++ e2) = false →
      ("header" : String) ≠ (⟨pyLstrip e1.data⟩ : String) →
      RT.convert_string (k ++ ":" ++ e1 ++ ":" ++ e2) =
        Except.ok (Json.obj [("header", Json.arr []),
          ((⟨pyLstrip e1.data⟩ : String),
           Json.str (⟨pyLstrip e2.data⟩ : String))])) ∧
    (∀ (hs : List String), hs ≠ [] →
      (∀ l ∈ hs, l ≠ "" ∧ strIn ":" l = false) →
      (∀ l ∈ hs, ∀ c ∈ l.data, c ≠ '\n') →
      strIn "Stack" (pyJoin "\n" hs) = false →
      RT.convert_string (pyJoin "\n" hs) =
        Except.ok (Json.obj [("header", Json.arr (hs.map Json.str))])) := by
  refine ⟨?_, ?_, ?_, ?_⟩
  · intro hs k v hh hhnl hk hv hnl hatt hstack hhd
    have hlines : strSplit '\n' (pyJoin "\n" (hs ++ [k ++ ":" ++ v])) =
        hs ++ [k ++ ":" ++ v] := by
      apply strSplit_pyJoin
      · simp
      · intro l hl
        rcases List.mem_append.mp hl with hmem | hmem
        · exact hhnl l hmem
        · rw [List.mem_singleton.mp hmem]
          exact hnl
    have hfold := foldl_header_kv hs [] k v hh hk hv hatt hhd
    unfold RT.convert_string
    simp [hstack, hlines, hfold, bind, Except.bind, pure, Except.pure]
  · intro k v w hk hv hnl hatt hstack hhd
    have hdata : (k ++ ":" ++ v ++ ":" ++ w).data =
        k.data ++ ':' :: (v.data ++ ':' :: w.data) := by
      simp [String.data_append]
    have hne : (k ++ ":" ++ v ++ ":" ++ w) ≠ "" := by
      intro h
      have h2 := congrArg String.data h
      rw [hdata] at h2
      simp at h2
    have hlines : strSplit '\n' (k ++ ":" ++ v ++ ":" ++ w) =
        [k ++ ":" ++ v ++ ":" ++ w] := by
      unfold strSplit
      rw [pySplit_no_sep '\n' _ hnl]
      rfl
    have hcolon : strIn ":" (k ++ ":" ++ v ++ ":" ++ w) = true := by
      unfold strIn
      exact subIn_of_mem ':' _ (by rw [hdata]; simp)
    have hsplit : strSplit ':' (k ++ ":" ++ v ++ ":" ++ w) =
        k :: v :: (pySplit ':' w.data).map (fun l => (⟨l⟩ : String)) := by
      unfold strSplit
      rw [hdata, pySplit_append ':' k.data _ hk,
          pySplit_append ':' v.data w.data hv]
      rfl
    have hcl : RT.convertLine [("header", Json.arr [])]
          (k ++ ":" ++ v ++ ":" ++ w) =
        Except.ok [("header", Json.arr []),
          ((⟨pyLstrip k.data⟩ : String),
           Json.str (⟨pyLstrip v.data⟩ : String))] := by
      unfold RT.convertLine
      rw [if_pos hne]
      simp only [hcolon, Bool.not_true, Bool.false_eq_true, if_false, hsplit]
      dsimp only [List.headD]
      rw [hatt]
      simp only [Bool.false_eq_true, if_false]
      unfold dictSet
      rw [if_neg hhd]
      rfl
    unfold RT.convert_string
    simp [hstack, hlines, hcl, List.foldlM, bind, Except.bind, pure, Except.pure]
  · intro k e1 e2 hk h1 h2 hnl hatt hstack hhd
    have hlines : strSplit '\n' (k ++ ":" ++ e1 ++ ":" ++ e2) =
        [k ++ ":" ++ e1 ++ ":" ++ e2] := by
      unfold strSplit
      rw [pySplit_no_sep '\n' _ hnl]
      rfl
    have hcl := convertLine_att [] k e1 e2 hk h1 h2 hatt hhd
    unfold RT.convert_string
    simp [hstack, hlines, hcl, List.foldlM, bind, Except.bind, pure, Except.pure]
  · intro hs hne hh hhnl hstack
    have hlines : strSplit '\n' (pyJoin "\n" hs) = hs :=
      strSplit_pyJoin hs hne hhnl
    have hfold := convert_foldl_header hs [] hh
    unfold RT.convert_string
    simp [hstack, hlines, hfold, bind, Except.bind, pure, Except.pure]

/-- C9 witness: the four parsing shapes on concrete bodies. -/
theorem C9_convert_string_line_parsing_witness :
    (RT.convert_string (pyJoin "\n"
        (["Header one", "Header two"] ++ ["Created" ++ ":" ++ " Mon 10"])) =
      Except.ok (Json.obj
        [("header", Json.arr [Json.str "Header one", Json.str "Header two"]),
         ("Created", Json.str "Mon 10")])) ∧
    (RT.convert_string ("Created" ++ ":" ++ " Mon 10" ++ ":" ++ "30") =
      Except.ok (Json.obj [("header", Json.arr []),
        ("Created", Json.str "Mon 10")])) ∧
    (RT.convert_string ("Attachments" ++ ":" ++ " 1" ++ ":" ++ " file.txt (10b)") =
      Except.ok (Json.obj [("header", Json.arr []),
        ("1", Json.str "file.txt (10b)")])) ∧
    (RT.convert_string (pyJoin "\n" ["alpha", "beta"]) =
      Except.ok (Json.obj
        [("header", Json.arr [Json.str "alpha", Json.str "beta"])])) :=
  ⟨C9_convert_string_line_parsing.1 ["Header one", "Header two"]
     "Created" " Mon 10" (by decide) (by decide) (by decide) (by decide)
     (by decide) (by decide) (by decide) (by decide),
   C9_convert_string_line_parsing.2.1 "Created" " Mon 10" "30"
     (by decide) (by decide) (by decide) (by decide) (by decide) (by decide),
   C9_convert_string_line_parsing.2.2.1 "Attachments" " 1" " file.txt (10b)"
     (by decide) (by decide) (by decide) (by decide) (by decide) (by decide)
     (by decide),
   C9_convert_string_line_parsing.2.2.2 ["alpha", "beta"]
     (by decide) (by decide) (by decide) (by decide)⟩

end TicketUtil
